import Mathlib

/-!
# RemoTI-Linux: the NPI transport over SPI (`npi_lnx_spi.c`)

A shallow embedding of `Projects/tools/LinuxHost/ipclib/npi_lnx_spi.c` and the
properties of its transaction engine.

Modelling conventions.

* The file-scope variables of the C file (`npiOpenFlag`, `npi_poll_terminate`,
  `PollLockVar`, `GpioSrdyFd`) and the process-wide `npi_ipc_errno` are fields of
  `Sys`.  C `int`s are `Int`; `uint8` bytes are `Nat`s, reduced `% 256` when stored.
* The message buffer a function works on (`pMsg`, viewed as `uint8*`, or `readbuf`
  of the poll thread) is the field `mem`: `mem i` is the byte at index `i`.
* Every call that leaves the file (pthread, HAL GPIO/SPI adapter, `gettimeofday`,
  the asynchronous-message callback) is appended to `trace`, and its result is
  read from a `World`: `w n` is what the environment answers to the call issued
  when `n` calls have already been made.  Quantifying over all worlds quantifies
  over all combinations of outcomes of the external calls.
* The build is the default one: `__BIG_DEBUG__`, `__STRESS_TEST__` and
  `__DEBUG_TIME__` are undefined, so only the `printf`/`debug_printf` lines
  (which have no effect on the state) are left out.  `SRDY_INTERRUPT` is a field
  of `Consts`, so both receiver topologies are covered.
* The headers `hal_rpc.h`, `npi_lnx_error.h` and `npi_lnx.h` are not among the
  sources.  The numeric values they define are fields of `Consts`; the frame
  layout is taken from the specification: `pMsg->len` is byte 0, the command byte
  is byte 1, and `pMsg->pData` starts at byte 3.  Theorems that need a property of
  such a value (the two status codes differ, a command type is a value of the type
  field) state it as a hypothesis.
* The `long int` arithmetic on time stamps is two's complement on `LONG_BIT` bits,
  a field of `Consts`.
* `Sys` has one ghost field, `hist`: for every external call, the values the
  file-scope variables had when the call was issued.  It is written by `call` only
  and read by no function of the file.
* A function that can block for ever in `pthread_join` returns an `Option`; `none`
  means that it does not return.
-/

namespace NpiSpi

/-! ## Constants -/

/-- Source, lines 81-83: the macro TRUE is (1). -/
def TRUE : Int := 1

/-- Source, lines 85-87: the macro FALSE is (0). -/
def FALSE : Int := 0

/-- Modelled from the spec: hal_rpc.h is missing; the wire framing has a 3-byte
header (length byte, command byte, extended command byte) before the payload. -/
def RPC_FRAME_HDR_SZ : Nat := 3

/-- Modelled from the spec: hal_rpc.h is missing; byte 1 of a frame is the command byte. -/
def RPC_POS_CMD0 : Nat := 1

/-- Modelled from the spec: hal_rpc.h is missing; the subsystem id is the low 5 bits
of the command byte. -/
def RPC_SUBSYSTEM_MASK : Nat := 0x1F

/-- Modelled from the spec: hal_rpc.h is missing; the command type is the top 3 bits
of the command byte. -/
def RPC_CMD_TYPE_MASK : Nat := 0xE0

/-- Values of the macros that the missing headers define and the build option,
taken as parameters of the whole development. -/
structure Consts where
  /-- Whether the file is compiled with SRDY_INTERRUPT defined. -/
  SRDY_INTERRUPT : Bool
  NPI_LNX_SUCCESS : Int
  NPI_LNX_FAILURE : Int
  NPI_LNX_ERROR_SPI_OPEN_ALREADY_OPEN : Int
  NPI_LNX_ERROR_SPI_OPEN_FAILED_POLL_THREAD : Int
  NPI_LNX_ERROR_SPI_OPEN_FAILED_EVENT_THREAD : Int
  NPI_LNX_ERROR_SPI_OPEN_FAILED_POLL_LOCK_MUTEX : Int
  NPI_LNX_ERROR_SPI_OPEN_FAILED_POLL_MUTEX : Int
  NPI_LNX_ERROR_SPI_OPEN_FAILED_SRDY_COND : Int
  NPI_LNX_ERROR_SPI_OPEN_FAILED_SRDY_LOCK_MUTEX : Int
  NPI_LNX_ERROR_SPI_OPEN_FAILED_POLL_COND : Int
  NPI_LNX_ERROR_SPI_POLL_LOCK_VAR_ERROR : Int
  NPI_LNX_ERROR_SPI_POLL_DATA_SRDY_CLR_TIMEOUT_POSSIBLE_RESET : Int
  NPI_LNX_ERROR_SPI_POLL_THREAD_POLL_UNLOCK : Int
  RPC_CMD_POLL : Nat
  RPC_CMD_SREQ : Nat
  RPC_CMD_AREQ : Nat
  /-- The macro LONG_BIT of limits.h: the number of bits of a long int on the target. -/
  LONG_BIT : Nat

/-- A concrete assignment used for evaluation: the status codes and the RPC
command types have the values of the upstream TI headers (success 0, failure -1,
POLL 0x00, SREQ 0x20, AREQ 0x40); the error numbers are pairwise distinct sample
values; the polling topology is selected; long int has 64 bits. -/
def tiConsts : Consts where
  SRDY_INTERRUPT := false
  NPI_LNX_SUCCESS := 0
  NPI_LNX_FAILURE := -1
  NPI_LNX_ERROR_SPI_OPEN_ALREADY_OPEN := 0x2001
  NPI_LNX_ERROR_SPI_OPEN_FAILED_POLL_THREAD := 0x2002
  NPI_LNX_ERROR_SPI_OPEN_FAILED_EVENT_THREAD := 0x2003
  NPI_LNX_ERROR_SPI_OPEN_FAILED_POLL_LOCK_MUTEX := 0x2004
  NPI_LNX_ERROR_SPI_OPEN_FAILED_POLL_MUTEX := 0x2005
  NPI_LNX_ERROR_SPI_OPEN_FAILED_SRDY_COND := 0x2006
  NPI_LNX_ERROR_SPI_OPEN_FAILED_SRDY_LOCK_MUTEX := 0x2007
  NPI_LNX_ERROR_SPI_OPEN_FAILED_POLL_COND := 0x2008
  NPI_LNX_ERROR_SPI_POLL_LOCK_VAR_ERROR := 0x2009
  NPI_LNX_ERROR_SPI_POLL_DATA_SRDY_CLR_TIMEOUT_POSSIBLE_RESET := 0x200A
  NPI_LNX_ERROR_SPI_POLL_THREAD_POLL_UNLOCK := 0x200B
  RPC_CMD_POLL := 0x00
  RPC_CMD_SREQ := 0x20
  RPC_CMD_AREQ := 0x40
  LONG_BIT := 64

/-- The same assignment with SRDY_INTERRUPT defined. -/
def tiConstsIrq : Consts := { tiConsts with SRDY_INTERRUPT := true }

/-- Modelled from the spec: hal_rpc.h is missing; SYNCHRONOUS-RESPONSE is one of the
four command types, 0x60 in the upstream header.  The file itself never uses it. -/
def RPC_CMD_SRSP : Nat := 0x60

/-! ## Machine state, external calls and the environment -/

/-- The pthread mutexes of the file. -/
inductive Mutex where
  | npiPollLock
  | npi_poll_mutex
  | npiSrdyLock
  deriving DecidableEq

/-- The pthread condition variables of the file. -/
inductive Cond where
  | npi_poll_cond
  | npi_srdy_H2L_poll
  deriving DecidableEq

/-- The threads of the file. -/
inductive Thread where
  | npiPollThread
  | npiEventThread
  deriving DecidableEq

/-- A call that leaves the file, with the arguments that matter.  HalSpiWrite
carries the bytes it clocks out; the callback carries the frame it is handed;
the timed wait carries its deadline. -/
inductive Call where
  | pthread_mutex_init (m : Mutex)
  | pthread_mutex_lock (m : Mutex)
  | pthread_mutex_unlock (m : Mutex)
  | pthread_mutex_destroy (m : Mutex)
  | pthread_cond_init (c : Cond)
  | pthread_cond_signal (c : Cond)
  | pthread_cond_wait (c : Cond) (m : Mutex)
  | pthread_cond_timedwait (c : Cond) (m : Mutex) (tv_sec tv_nsec : Int)
  | pthread_create (t : Thread)
  | pthread_join (t : Thread)
  | gettimeofday
  | HalSpiInit
  | HalSpiClose
  | HalGpioSrdyInit
  | HalGpioSrdyClose
  | HalGpioMrdyInit
  | HalGpioMrdyClose
  | HalGpioResetInit
  | HalGpioResetClose
  | HAL_RNP_MRDY_CLR
  | HAL_RNP_MRDY_SET
  | HAL_RNP_SRDY_CLR
  | HalGpioWaitSrdyClr
  | HalGpioWaitSrdySet
  | HalGpioSrdyCheck (state : Nat)
  | HalSpiWrite (port : Nat) (tx : List Nat)
  | NPI_AsynchMsgCback (msg : List Nat)
  deriving DecidableEq

/-- The fields of struct timeval. -/
structure Timeval where
  tv_sec : Int
  tv_usec : Int
  deriving DecidableEq

/-- What the environment answers to one external call: the value returned, the
bytes clocked in when the call is a SPI exchange, the value the callee leaves in
npi_ipc_errno (none when it does not write it), and the wall-clock time at which
the call returns (the value gettimeofday stores when the call is gettimeofday). -/
structure Outcome where
  ret : Int
  rx : Nat → Nat
  errno : Option Int
  clock : Timeval

/-- The environment: the outcome of the n-th external call (counted from 0). -/
abbrev World := Nat → Outcome

/-- Byte-addressed view of the message buffer. -/
abbrev Mem := Nat → Nat

/-- The values of npiOpenFlag, npi_poll_terminate and PollLockVar at one moment. -/
structure Snap where
  npiOpenFlag : Int
  npi_poll_terminate : Int
  PollLockVar : Int
  deriving DecidableEq

/-- The state the file works on.  The last field is a ghost: entry i of hist holds the
values the three flags had when call i of the trace was issued. -/
structure Sys where
  npiOpenFlag : Int
  npi_poll_terminate : Int
  PollLockVar : Int
  GpioSrdyFd : Int
  npi_ipc_errno : Int
  mem : Mem
  trace : List Call
  hist : List Snap := []

/-- The flags of a state. -/
def Sys.snap (s : Sys) : Snap := ⟨s.npiOpenFlag, s.npi_poll_terminate, s.PollLockVar⟩

/-- Issue an external call: it is appended to the trace (and the flags at that moment
to the ghost history), the callee may write npi_ipc_errno, and the value it returns is
the first component. -/
def call (w : World) (c : Call) (s : Sys) : Int × Sys :=
  ((w s.trace.length).ret,
   { s with trace := s.trace ++ [c],
            hist := s.hist ++ [s.snap],
            npi_ipc_errno := ((w s.trace.length).errno).getD s.npi_ipc_errno })

/-- Assignment to a uint8 cell. -/
def store (m : Mem) (i v : Nat) : Mem := fun j => if j = i then v % 256 else m j

/-- The n bytes of the buffer starting at index off. -/
def readBytes (m : Mem) (off n : Nat) : List Nat := (List.range n).map (fun i => m (off + i))

/-- The buffer after a full-duplex exchange of n bytes at index off: these bytes are
replaced by the bytes clocked in. -/
def exchange (m : Mem) (off n : Nat) (rx : Nat → Nat) : Mem :=
  fun j => if off ≤ j ∧ j < off + n then rx (j - off) % 256 else m j

/-- HalSpiWrite(port, buf + off, n): a blocking full-duplex exchange of exactly n bytes
on the buffer itself.  The adapter is an external collaborator; the bytes clocked
out are recorded in the trace. -/
def HalSpiWrite (w : World) (port off n : Nat) (s : Sys) : Int × Sys :=
  ((call w (.HalSpiWrite port (readBytes s.mem off n)) s).1,
   { (call w (.HalSpiWrite port (readBytes s.mem off n)) s).2 with
       mem := exchange s.mem off n (w s.trace.length).rx })

/-- gettimeofday(&t, NULL): the value stored in t, and the state after the call. -/
def gettimeofday (w : World) (s : Sys) : Timeval × Sys :=
  ((w s.trace.length).clock, (call w .gettimeofday s).2)

/-- The loop for (i = i0; i < bound; i++) buf[i + off] = 0, where the bound is
re-read from the buffer at every test, run for at most fuel iterations. -/
def zeroLoop (bound : Mem → Nat) (off : Nat) : Nat → Nat → Mem → Mem
  | 0, _, m => m
  | fuel + 1, i, m =>
    if i < bound m then zeroLoop bound off fuel (i + 1) (store m (i + off) 0) else m

/-- Lines 464 and 601: for (i = 0; i < RPC_FRAME_HDR_SZ; i++) ((uint8*)pMsg)[i] = 0. -/
def zeroHeader (m : Mem) : Mem :=
  zeroLoop (fun _ => RPC_FRAME_HDR_SZ) 0 RPC_FRAME_HDR_SZ 0 m

/-- Lines 470 and 607: for (i = 0; i < ((uint8*)pMsg)[0]; i++)
((uint8*)pMsg)[i+RPC_FRAME_HDR_SZ] = 0.  The bound is a uint8, so 256 iterations
always suffice. -/
def zeroPayload (m : Mem) : Mem :=
  zeroLoop (fun b => b 0) RPC_FRAME_HDR_SZ 256 0 m

/-! ## The functions of the file -/

/-- Lines 170-175, PollLockVarError. -/
def PollLockVarError (k : Consts) (s : Sys) : Int × Sys :=
  (k.NPI_LNX_FAILURE, { s with npi_ipc_errno := k.NPI_LNX_ERROR_SPI_POLL_LOCK_VAR_ERROR })

/-- The statement "if (PollLockVar) ret = PollLockVarError(); else PollLockVar = 1;"
(lines 238, 313, 526, 1025), with the current value of ret. -/
def sentinelTake (k : Consts) (ret : Int) (s : Sys) : Int × Sys :=
  if s.PollLockVar ≠ 0 then PollLockVarError k s else (ret, { s with PollLockVar := 1 })

/-- The statement "if (!PollLockVar) ret = PollLockVarError(); else PollLockVar = 0;"
(lines 340, 635, 901, 1078, 1098), with the current value of ret. -/
def sentinelGive (k : Consts) (ret : Int) (s : Sys) : Int × Sys :=
  if s.PollLockVar = 0 then PollLockVarError k s else (ret, { s with PollLockVar := 0 })

/-- The lines guarded by #ifdef SRDY_INTERRUPT. -/
def ifIrq (k : Consts) (f : Sys → Sys) (s : Sys) : Sys :=
  if k.SRDY_INTERRUPT = true then f s else s

/-- Lines 327-351: NPI_SPI_SendAsynchData after the MRDY assertion. -/
def sendAsynchRest (k : Consts) (w : World) (s : Sys) : Int × Sys :=
  -- ret = HalGpioWaitSrdyClr();
  let r1 := call w .HalGpioWaitSrdyClr s
  -- if (ret == NPI_LNX_SUCCESS) ret = HalSpiWrite(0, (uint8*) pMsg, (pMsg->len)+RPC_FRAME_HDR_SZ);
  let r2 := if r1.1 = k.NPI_LNX_SUCCESS
    then HalSpiWrite w 0 0 (r1.2.mem 0 + RPC_FRAME_HDR_SZ) r1.2 else r1
  -- if (ret == NPI_LNX_SUCCESS) ret = HAL_RNP_MRDY_SET(); else (void)HAL_RNP_MRDY_SET();
  let r3 := call w .HAL_RNP_MRDY_SET r2.2
  let ret3 := if r2.1 = k.NPI_LNX_SUCCESS then r3.1 else r2.1
  -- if (!PollLockVar) ret = PollLockVarError(); else PollLockVar = 0;
  let r4 := sentinelGive k ret3 r3.2
  -- pthread_mutex_unlock(&npiPollLock);
  let s5 := (call w (.pthread_mutex_unlock .npiPollLock) r4.2).2
  -- #ifdef SRDY_INTERRUPT pthread_mutex_unlock(&npiSrdyLock);
  let s6 := ifIrq k (fun t => (call w (.pthread_mutex_unlock .npiSrdyLock) t).2) s5
  (r4.1, s6)

/-- Lines 305-321: the entry of NPI_SPI_SendAsynchData, up to the tagging of the
frame; the first component is the value of ret. -/
def sendAsynchEntry (k : Consts) (w : World) (s : Sys) : Int × Sys :=
  -- int ret = NPI_LNX_SUCCESS; pthread_mutex_lock(&npiPollLock);
  let s1 := (call w (.pthread_mutex_lock .npiPollLock) s).2
  -- #ifdef SRDY_INTERRUPT pthread_mutex_lock(&npiSrdyLock);
  let s2 := ifIrq k (fun t => (call w (.pthread_mutex_lock .npiSrdyLock) t).2) s1
  -- if (PollLockVar) ret = PollLockVarError(); else PollLockVar = 1;
  let r3 := sentinelTake k k.NPI_LNX_SUCCESS s2
  -- pMsg[RPC_POS_CMD0] = (pMsg[RPC_POS_CMD0] & RPC_SUBSYSTEM_MASK) | RPC_CMD_AREQ;
  (r3.1, { r3.2 with
      mem := store r3.2.mem RPC_POS_CMD0
        ((r3.2.mem RPC_POS_CMD0 &&& RPC_SUBSYSTEM_MASK) ||| k.RPC_CMD_AREQ) })

/-- Lines 303-352, NPI_SPI_SendAsynchData. -/
def NPI_SPI_SendAsynchData (k : Consts) (w : World) (s : Sys) : Int × Sys :=
  let e := sendAsynchEntry k w s
  -- if (ret == NPI_LNX_SUCCESS) if ( NPI_LNX_SUCCESS != (ret = HAL_RNP_MRDY_CLR())) return ret;
  if e.1 = k.NPI_LNX_SUCCESS then
    if (call w .HAL_RNP_MRDY_CLR e.2).1 ≠ k.NPI_LNX_SUCCESS then call w .HAL_RNP_MRDY_CLR e.2
    else sendAsynchRest k w (call w .HAL_RNP_MRDY_CLR e.2).2
  else sendAsynchRest k w e.2

/-- Lines 583-645: NPI_SPI_SendSynchData after the MRDY assertion. -/
def sendSynchRest (k : Consts) (w : World) (s : Sys) : Int × Sys :=
  -- ret = HalGpioWaitSrdyClr();
  let r1 := call w .HalGpioWaitSrdyClr s
  -- if (ret == NPI_LNX_SUCCESS) ret = HalSpiWrite(0, (uint8*) pMsg, (pMsg->len)+RPC_FRAME_HDR_SZ);
  let r2 := if r1.1 = k.NPI_LNX_SUCCESS
    then HalSpiWrite w 0 0 (r1.2.mem 0 + RPC_FRAME_HDR_SZ) r1.2 else r1
  -- if (ret == NPI_LNX_SUCCESS) ret = HalGpioWaitSrdySet();
  let r3 := if r2.1 = k.NPI_LNX_SUCCESS then call w .HalGpioWaitSrdySet r2.2 else r2
  -- if (ret == NPI_LNX_SUCCESS) ret = HAL_RNP_MRDY_SET();
  let r4 := if r3.1 = k.NPI_LNX_SUCCESS then call w .HAL_RNP_MRDY_SET r3.2 else r3
  -- for (i = 0 ;i < RPC_FRAME_HDR_SZ; i++ ) ((uint8*)pMsg)[i] = 0;
  let s5 : Sys := { r4.2 with mem := zeroHeader r4.2.mem }
  -- if (ret == NPI_LNX_SUCCESS) ret = HalSpiWrite( 0, (uint8*) pMsg, RPC_FRAME_HDR_SZ);
  let r6 := if r4.1 = k.NPI_LNX_SUCCESS then HalSpiWrite w 0 0 RPC_FRAME_HDR_SZ s5 else (r4.1, s5)
  -- for (i = 0 ;i < ((uint8*)pMsg)[0]; i++ ) ((uint8*)pMsg)[i+RPC_FRAME_HDR_SZ] = 0;
  let s7 : Sys := { r6.2 with mem := zeroPayload r6.2.mem }
  -- if (ret == NPI_LNX_SUCCESS) ret = HalSpiWrite( 0, pMsg->pData, ((uint8*)pMsg)[0]);
  let r8 := if r6.1 = k.NPI_LNX_SUCCESS
    then HalSpiWrite w 0 RPC_FRAME_HDR_SZ (s7.mem 0) s7 else (r6.1, s7)
  -- if (ret == NPI_LNX_SUCCESS) ret = HAL_RNP_MRDY_SET(); else (void)HAL_RNP_MRDY_SET();
  let r9 := call w .HAL_RNP_MRDY_SET r8.2
  let ret9 := if r8.1 = k.NPI_LNX_SUCCESS then r9.1 else r8.1
  -- ((uint8 *)pMsg)[RPC_POS_CMD0] &= RPC_SUBSYSTEM_MASK;
  let s10 : Sys := { r9.2 with
      mem := store r9.2.mem RPC_POS_CMD0 (r9.2.mem RPC_POS_CMD0 &&& RPC_SUBSYSTEM_MASK) }
  -- if (!PollLockVar) ret = PollLockVarError(); else PollLockVar = 0;
  let r11 := sentinelGive k ret9 s10
  -- pthread_mutex_unlock(&npiPollLock);
  let s12 := (call w (.pthread_mutex_unlock .npiPollLock) r11.2).2
  -- #ifdef SRDY_INTERRUPT pthread_mutex_unlock(&npiSrdyLock);
  let s13 := ifIrq k (fun t => (call w (.pthread_mutex_unlock .npiSrdyLock) t).2) s12
  (r11.1, s13)

/-- Lines 515-539: the entry of NPI_SPI_SendSynchData, up to the tagging of the
frame; the first component is the value of ret.  The value of lockRet only selects
a diagnostic print. -/
def sendSynchEntry (k : Consts) (w : World) (s : Sys) : Int × Sys :=
  -- int ret = NPI_LNX_SUCCESS; lockRet = pthread_mutex_lock(&npiPollLock);
  let s1 := (call w (.pthread_mutex_lock .npiPollLock) s).2
  -- #ifdef SRDY_INTERRUPT pthread_mutex_lock(&npiSrdyLock);
  let s2 := ifIrq k (fun t => (call w (.pthread_mutex_lock .npiSrdyLock) t).2) s1
  -- if (PollLockVar) ret = PollLockVarError(); else PollLockVar = 1;
  let r3 := sentinelTake k k.NPI_LNX_SUCCESS s2
  -- pMsg[RPC_POS_CMD0] = (pMsg[RPC_POS_CMD0] & RPC_SUBSYSTEM_MASK) | RPC_CMD_SREQ;
  (r3.1, { r3.2 with
      mem := store r3.2.mem RPC_POS_CMD0
        ((r3.2.mem RPC_POS_CMD0 &&& RPC_SUBSYSTEM_MASK) ||| k.RPC_CMD_SREQ) })

/-- Lines 513-646, NPI_SPI_SendSynchData. -/
def NPI_SPI_SendSynchData (k : Consts) (w : World) (s : Sys) : Int × Sys :=
  let e := sendSynchEntry k w s
  -- if (ret == NPI_LNX_SUCCESS) if ( NPI_LNX_SUCCESS != (ret = HAL_RNP_MRDY_CLR())) return ret;
  if e.1 = k.NPI_LNX_SUCCESS then
    if (call w .HAL_RNP_MRDY_CLR e.2).1 ≠ k.NPI_LNX_SUCCESS then call w .HAL_RNP_MRDY_CLR e.2
    else sendSynchRest k w (call w .HAL_RNP_MRDY_CLR e.2).2
  else sendSynchRest k w e.2

/-- The value a long int holds after an arithmetic operation whose exact result is x:
x reduced to the two's complement range of LONG_BIT bits.  (Signed overflow is
undefined in C; wrapping is what the compiled code does.) -/
def wrapLong (k : Consts) (x : Int) : Int :=
  (x + (2 ^ (k.LONG_BIT - 1) : Nat)) % (2 ^ k.LONG_BIT : Nat) - (2 ^ (k.LONG_BIT - 1) : Nat)

/-- Lines 436-445 of npi_spi_pollData: the elapsed time diffPrev in microseconds
between two gettimeofday readings.  diffPrev and the fields of struct timeval are long
int, so every operation is an operation on long int. -/
def diffPrev (k : Consts) (t1 t2 : Timeval) : Int :=
  if t2.tv_usec ≥ t1.tv_usec then
    -- diffPrev = t2.tv_usec - t1.tv_usec; diffPrev += (t2.tv_sec - t1.tv_sec) * 1000000;
    wrapLong k (wrapLong k (t2.tv_usec - t1.tv_usec) +
      wrapLong k (wrapLong k (t2.tv_sec - t1.tv_sec) * 1000000))
  else
    -- diffPrev = (t2.tv_usec + 1000000) - t1.tv_usec; diffPrev += (t2.tv_sec - t1.tv_sec - 1) * 1000000;
    wrapLong k (wrapLong k (wrapLong k (t2.tv_usec + 1000000) - t1.tv_usec) +
      wrapLong k (wrapLong k (wrapLong k (t2.tv_sec - t1.tv_sec) - 1) * 1000000))

/-- Lines 455-491: npi_spi_pollData after the reset check, entered with the current
value of ret. -/
def pollDataRest (k : Consts) (w : World) (ret : Int) (s : Sys) : Int × Sys :=
  -- if (ret == NPI_LNX_SUCCESS) ret = HAL_RNP_MRDY_SET(); else (void)HAL_RNP_MRDY_SET();
  let r1 := call w .HAL_RNP_MRDY_SET s
  let ret1 := if ret = k.NPI_LNX_SUCCESS then r1.1 else ret
  -- for (i = 0 ;i < RPC_FRAME_HDR_SZ; i++ ) ((uint8*)pMsg)[i] = 0;
  let s2 : Sys := { r1.2 with mem := zeroHeader r1.2.mem }
  -- if (ret == NPI_LNX_SUCCESS) ret = HalSpiWrite( 0, (uint8*) pMsg, RPC_FRAME_HDR_SZ);
  let r3 := if ret1 = k.NPI_LNX_SUCCESS then HalSpiWrite w 0 0 RPC_FRAME_HDR_SZ s2 else (ret1, s2)
  -- for (i = 0 ;i < ((uint8*)pMsg)[0]; i++ ) ((uint8*)pMsg)[i+RPC_FRAME_HDR_SZ] = 0;
  let s4 : Sys := { r3.2 with mem := zeroPayload r3.2.mem }
  -- if (ret == NPI_LNX_SUCCESS) ret = HalSpiWrite( 0, pMsg->pData, ((uint8*)pMsg)[0]);
  let r5 := if r3.1 = k.NPI_LNX_SUCCESS
    then HalSpiWrite w 0 RPC_FRAME_HDR_SZ (s4.mem 0) s4 else (r3.1, s4)
  -- #ifdef SRDY_INTERRUPT pthread_mutex_unlock(&npiSrdyLock);
  let s6 := ifIrq k (fun t => (call w (.pthread_mutex_unlock .npiSrdyLock) t).2) r5.2
  (r5.1, s6)

/-- Lines 418-453: npi_spi_pollData after the MRDY assertion. -/
def pollDataSend (k : Consts) (w : World) (s : Sys) : Int × Sys :=
  -- ret = HalSpiWrite( 0, (uint8*) pMsg, (pMsg->len)+RPC_FRAME_HDR_SZ);
  let r1 := HalSpiWrite w 0 0 (s.mem 0 + RPC_FRAME_HDR_SZ) s
  -- gettimeofday(&t1, NULL);
  let t1 := gettimeofday w r1.2
  -- if (ret == NPI_LNX_SUCCESS) ret = HalGpioWaitSrdySet();
  let r2 := if r1.1 = k.NPI_LNX_SUCCESS then call w .HalGpioWaitSrdySet t1.2 else (r1.1, t1.2)
  -- gettimeofday(&t2, NULL);
  let t2 := gettimeofday w r2.2
  -- if (diffPrev > (100 * 1000) )
  if diffPrev k t1.1 t2.1 > 100 * 1000 then
    -- npi_ipc_errno = ...POSSIBLE_RESET; return NPI_LNX_FAILURE;
    (k.NPI_LNX_FAILURE,
     { t2.2 with
         npi_ipc_errno := k.NPI_LNX_ERROR_SPI_POLL_DATA_SRDY_CLR_TIMEOUT_POSSIBLE_RESET })
  else pollDataRest k w r2.1 t2.2

/-- Lines 373-492, npi_spi_pollData. -/
def npi_spi_pollData (k : Consts) (w : World) (s : Sys) : Int × Sys :=
  -- #ifdef SRDY_INTERRUPT pthread_mutex_lock(&npiSrdyLock);
  let s1 := ifIrq k (fun t => (call w (.pthread_mutex_lock .npiSrdyLock) t).2) s
  -- ret = NPI_LNX_SUCCESS;
  -- if (ret == NPI_LNX_SUCCESS) if ( NPI_LNX_SUCCESS != (ret = HAL_RNP_MRDY_CLR())) return ret;
  if k.NPI_LNX_SUCCESS = k.NPI_LNX_SUCCESS then
    if (call w .HAL_RNP_MRDY_CLR s1).1 ≠ k.NPI_LNX_SUCCESS then call w .HAL_RNP_MRDY_CLR s1
    else pollDataSend k w (call w .HAL_RNP_MRDY_CLR s1).2
  else pollDataSend k w s1

/-- One step of the scan of a trace that tells whether the poll thread is parked on
npiPollLock: the components are the index of the call, whether npiPollLock is locked,
and whether the poll thread is parked. -/
def parkStep (w : World) (acc : Nat × Bool × Bool) : Call → Nat × Bool × Bool
  | .pthread_mutex_init .npiPollLock => (acc.1 + 1, false, acc.2.2)
  | .pthread_mutex_lock .npiPollLock => (acc.1 + 1, true, acc.2.2)
  | .pthread_mutex_unlock .npiPollLock => (acc.1 + 1, false, false)
  | .pthread_create .npiPollThread =>
    (acc.1 + 1, acc.2.1, if (w acc.1).ret = 0 then acc.2.1 else acc.2.2)
  | .pthread_join .npiPollThread => (acc.1 + 1, acc.2.1, false)
  | _ => (acc.1 + 1, acc.2.1, acc.2.2)

/-- Lines 1000-1006 of npi_poll_entry, seen from the thread that created it: the poll
thread starts by locking npiPollLock ("This lock wait for Initialization to finish"),
before it ever tests npi_poll_terminate.  When it was created while npiPollLock was
locked, it stays parked on that lock until the lock is released.  The trace is read as
the calls of the creating thread, answered by w from call 0 on. -/
def pollThreadParked (w : World) (t : List Call) : Bool :=
  (t.foldl (parkStep w) (0, false, false)).2.2

/-- Lines 1173-1197, npi_termpoll.  pthread_join(npiPollThread) returns when the poll
thread has ended; a poll thread parked on npiPollLock cannot end, and then the join,
and with it npi_termpoll, does not return (none). -/
def npi_termpoll (k : Consts) (w : World) (s : Sys) : Option Sys :=
  -- npi_poll_terminate = 1;
  let s1 : Sys := { s with npi_poll_terminate := 1 }
  -- pthread_cond_signal(&npi_srdy_H2L_poll) or pthread_cond_signal(&npi_poll_cond)
  let s2 := if k.SRDY_INTERRUPT = true
    then (call w (.pthread_cond_signal .npi_srdy_H2L_poll) s1).2
    else (call w (.pthread_cond_signal .npi_poll_cond) s1).2
  -- #ifdef SRDY_INTERRUPT pthread_mutex_destroy(&npiSrdyLock);
  let s3 := ifIrq k (fun t => (call w (.pthread_mutex_destroy .npiSrdyLock) t).2) s2
  -- pthread_mutex_destroy(&npi_poll_mutex);
  let s4 := (call w (.pthread_mutex_destroy .npi_poll_mutex) s3).2
  -- pthread_join(npiPollThread, NULL);
  if pollThreadParked w s4.trace = true then none else
  let s5 := (call w (.pthread_join .npiPollThread) s4).2
  -- #ifdef SRDY_INTERRUPT pthread_join(npiEventThread, NULL);
  some (ifIrq k (fun t => (call w (.pthread_join .npiEventThread) t).2) s5)

/-- Lines 278-282: NPI_SPI_CloseDevice after npi_termpoll has returned. -/
def closeDeviceRest (w : World) (s1 : Sys) : Sys :=
  let s2 := (call w .HalSpiClose s1).2
  let s3 := (call w .HalGpioSrdyClose s2).2
  let s4 := (call w .HalGpioMrdyClose s3).2
  let s5 := (call w .HalGpioResetClose s4).2
  -- npiOpenFlag = FALSE;
  { s5 with npiOpenFlag := FALSE }

/-- Lines 275-283, NPI_SPI_CloseDevice; none when npi_termpoll does not return. -/
def NPI_SPI_CloseDevice (k : Consts) (w : World) (s : Sys) : Option Sys :=
  (npi_termpoll k w s).map (closeDeviceRest w)

/-- Lines 729-760, npi_initThreads; none when the NPI_SPI_CloseDevice of a failure
path does not return. -/
def npi_initThreads (k : Consts) (w : World) (s : Sys) : Option (Int × Sys) :=
  -- npi_poll_terminate = 0;
  let s1 : Sys := { s with npi_poll_terminate := 0 }
  -- if(pthread_create(&npiPollThread, NULL, npi_poll_entry, NULL))
  let r2 := call w (.pthread_create .npiPollThread) s1
  if r2.1 ≠ 0 then
    -- NPI_SPI_CloseDevice(); npi_ipc_errno = ...; return NPI_LNX_FAILURE;
    (NPI_SPI_CloseDevice k w r2.2).map fun c =>
      (k.NPI_LNX_FAILURE,
       { c with npi_ipc_errno := k.NPI_LNX_ERROR_SPI_OPEN_FAILED_POLL_THREAD })
  else if k.SRDY_INTERRUPT = true then
    -- if(pthread_create(&npiEventThread, NULL, npi_event_entry, NULL))
    let r3 := call w (.pthread_create .npiEventThread) r2.2
    if r3.1 ≠ 0 then
      (NPI_SPI_CloseDevice k w r3.2).map fun c =>
        (k.NPI_LNX_FAILURE,
         { c with npi_ipc_errno := k.NPI_LNX_ERROR_SPI_OPEN_FAILED_EVENT_THREAD })
    else some (k.NPI_LNX_SUCCESS, r3.2)
  else some (k.NPI_LNX_SUCCESS, r2.2)

/-- Lines 934-973, npi_initsyncres. -/
def npi_initsyncres (k : Consts) (w : World) (s : Sys) : Int × Sys :=
  -- if (pthread_mutex_init(&npiPollLock, NULL))
  let r1 := call w (.pthread_mutex_init .npiPollLock) s
  if r1.1 ≠ 0 then
    (k.NPI_LNX_FAILURE,
     { r1.2 with npi_ipc_errno := k.NPI_LNX_ERROR_SPI_OPEN_FAILED_POLL_LOCK_MUTEX })
  else
  -- if(pthread_mutex_init(&npi_poll_mutex, NULL))
  let r2 := call w (.pthread_mutex_init .npi_poll_mutex) r1.2
  if r2.1 ≠ 0 then
    (k.NPI_LNX_FAILURE,
     { r2.2 with npi_ipc_errno := k.NPI_LNX_ERROR_SPI_OPEN_FAILED_POLL_MUTEX })
  else if k.SRDY_INTERRUPT = true then
    -- if(pthread_cond_init(&npi_srdy_H2L_poll, NULL))
    let r3 := call w (.pthread_cond_init .npi_srdy_H2L_poll) r2.2
    if r3.1 ≠ 0 then
      (k.NPI_LNX_FAILURE,
       { r3.2 with npi_ipc_errno := k.NPI_LNX_ERROR_SPI_OPEN_FAILED_SRDY_COND })
    else
    -- if (pthread_mutex_init(&npiSrdyLock, NULL))
    let r4 := call w (.pthread_mutex_init .npiSrdyLock) r3.2
    if r4.1 ≠ 0 then
      (k.NPI_LNX_FAILURE,
       { r4.2 with npi_ipc_errno := k.NPI_LNX_ERROR_SPI_OPEN_FAILED_SRDY_LOCK_MUTEX })
    else (k.NPI_LNX_SUCCESS, r4.2)
  else
    -- if(pthread_cond_init(&npi_poll_cond, NULL))
    let r3 := call w (.pthread_cond_init .npi_poll_cond) r2.2
    if r3.1 ≠ 0 then
      (k.NPI_LNX_FAILURE,
       { r3.2 with npi_ipc_errno := k.NPI_LNX_ERROR_SPI_OPEN_FAILED_POLL_COND })
    else (k.NPI_LNX_SUCCESS, r3.2)

/-- Lines 230-255: NPI_SPI_OpenDevice after the adapter initialisation. -/
def openDeviceRest (k : Consts) (w : World) (s : Sys) : Option (Int × Sys) :=
  -- if ( NPI_LNX_FAILURE == (ret = npi_initsyncres())) return ret;
  let r1 := npi_initsyncres k w s
  if k.NPI_LNX_FAILURE = r1.1 then some r1 else
  -- pthread_mutex_lock(&npiPollLock);
  let s2 := (call w (.pthread_mutex_lock .npiPollLock) r1.2).2
  -- if (PollLockVar) ret = PollLockVarError(); else PollLockVar = 1;
  let r3 := sentinelTake k r1.1 s2
  -- if (ret == NPI_LNX_SUCCESS) ret = npi_initThreads();
  if r3.1 = k.NPI_LNX_SUCCESS then npi_initThreads k w r3.2 else some r3

/-- Lines 198-256, NPI_SPI_OpenDevice.  The arguments portName and pCfg are only
handed on to the adapter.  The result is none when the function does not return
(a failure path of npi_initThreads whose NPI_SPI_CloseDevice blocks). -/
def NPI_SPI_OpenDevice (k : Consts) (w : World) (s : Sys) : Option (Int × Sys) :=
  -- if(npiOpenFlag) { npi_ipc_errno = NPI_LNX_ERROR_SPI_OPEN_ALREADY_OPEN; return NPI_LNX_FAILURE; }
  if s.npiOpenFlag ≠ 0 then
    some (k.NPI_LNX_FAILURE, { s with npi_ipc_errno := k.NPI_LNX_ERROR_SPI_OPEN_ALREADY_OPEN })
  else
  -- npiOpenFlag = TRUE;
  let s1 : Sys := { s with npiOpenFlag := TRUE }
  -- ret = HalSpiInit(portName, speed); if (ret != NPI_LNX_SUCCESS) return ret;
  let r2 := call w .HalSpiInit s1
  if r2.1 ≠ k.NPI_LNX_SUCCESS then some r2 else
  -- if ( NPI_LNX_FAILURE == (GpioSrdyFd = HalGpioSrdyInit(gpioCfg[0]))) return GpioSrdyFd;
  let r3 := call w .HalGpioSrdyInit r2.2
  let s3 : Sys := { r3.2 with GpioSrdyFd := r3.1 }
  if k.NPI_LNX_FAILURE = r3.1 then some (r3.1, s3) else
  -- if ( NPI_LNX_FAILURE == (ret = HalGpioMrdyInit(gpioCfg[1]))) return ret;
  let r4 := call w .HalGpioMrdyInit s3
  if k.NPI_LNX_FAILURE = r4.1 then some r4 else
  -- if ( NPI_LNX_FAILURE == (ret = HalGpioResetInit(gpioCfg[2]))) return ret;
  let r5 := call w .HalGpioResetInit r4.2
  if k.NPI_LNX_FAILURE = r5.1 then some r5 else
  openDeviceRest k w r5.2

/-- The locals of npi_poll_entry that live across loop iterations. -/
structure PollLocals where
  ret : Int
  pollStatus : Int

/-- Lines 1078-1094: release of the sentinel and of npiPollLock at the end of an
iteration that ran a poll transaction. -/
def pollUnlockAfterPoll (k : Consts) (w : World) (l : PollLocals) (s : Sys) : PollLocals × Sys :=
  -- if (!PollLockVar) ret = PollLockVarError(); else PollLockVar = 0;
  let r1 := sentinelGive k l.ret s
  -- if ( 0 == pthread_mutex_unlock(&npiPollLock)) pollStatus = TRUE;
  let r2 := call w (.pthread_mutex_unlock .npiPollLock) r1.2
  if 0 = r2.1 then ({ ret := r1.1, pollStatus := TRUE }, r2.2)
  else
    -- npi_ipc_errno = ...POLL_UNLOCK; ret = NPI_LNX_FAILURE; npi_poll_terminate = 1;
    ({ ret := k.NPI_LNX_FAILURE, pollStatus := l.pollStatus },
     { r2.2 with
         npi_ipc_errno := k.NPI_LNX_ERROR_SPI_POLL_THREAD_POLL_UNLOCK,
         npi_poll_terminate := 1 })

/-- Lines 1098-1114: release of the sentinel and of npiPollLock when SRDY was high. -/
def pollUnlockIdle (k : Consts) (w : World) (l : PollLocals) (s : Sys) : PollLocals × Sys :=
  -- if (!PollLockVar) ret = PollLockVarError(); else PollLockVar = 0;
  let r1 := sentinelGive k l.ret s
  -- if ( 0 == pthread_mutex_unlock(&npiPollLock)) ... else ...; pollStatus = FALSE;
  let r2 := call w (.pthread_mutex_unlock .npiPollLock) r1.2
  if 0 = r2.1 then ({ ret := r1.1, pollStatus := FALSE }, r2.2)
  else
    ({ ret := k.NPI_LNX_FAILURE, pollStatus := FALSE },
     { r2.2 with
         npi_ipc_errno := k.NPI_LNX_ERROR_SPI_POLL_THREAD_POLL_UNLOCK,
         npi_poll_terminate := 1 })

/-- Lines 1049-1052: the poll command is written to readbuf and the poll transaction
is run on it. -/
def pollTransaction (k : Consts) (w : World) (s : Sys) : Int × Sys :=
  -- *readbuf = 0; *(readbuf+1) = RPC_CMD_POLL; *(readbuf+2) = 0;
  let m1 := store (store (store s.mem 0 0) 1 k.RPC_CMD_POLL) 2 0
  -- ret = npi_spi_pollData((npiMsgData_t *)readbuf);
  npi_spi_pollData k w { s with mem := m1 }

/-- The frame a callback is handed: the header and the payload bytes it announces. -/
def frameOf (m : Mem) : List Nat := readBytes m 0 (RPC_FRAME_HDR_SZ + m 0)

/-- Lines 1054-1076: what the poll thread does with the result ret of the poll
transaction. -/
def pollDeliver (k : Consts) (w : World) (ret : Int) (s : Sys) : Int × Sys :=
  if ret = k.NPI_LNX_SUCCESS then
    -- if ((readbuf[RPC_POS_CMD0] & RPC_CMD_TYPE_MASK) == RPC_CMD_AREQ)
    if s.mem RPC_POS_CMD0 &&& RPC_CMD_TYPE_MASK = k.RPC_CMD_AREQ then
      -- ((uint8 *)readbuf)[RPC_POS_CMD0] &= RPC_SUBSYSTEM_MASK;
      let s1 : Sys := { s with
        mem := store s.mem RPC_POS_CMD0 (s.mem RPC_POS_CMD0 &&& RPC_SUBSYSTEM_MASK) }
      -- ret = NPI_AsynchMsgCback((npiMsgData_t *)(readbuf));
      let r2 := call w (.NPI_AsynchMsgCback (frameOf s1.mem)) s1
      -- if (ret != NPI_LNX_SUCCESS) npi_poll_terminate = 1;
      if r2.1 ≠ k.NPI_LNX_SUCCESS then (r2.1, { r2.2 with npi_poll_terminate := 1 }) else r2
    else
      -- else if (ret == ...POSSIBLE_RESET) printf(...)
      (ret, s)
  else
    -- npi_poll_terminate = 1;
    (ret, { s with npi_poll_terminate := 1 })

/-- Lines 1046-1095: the branch of an iteration that polls the device. -/
def pollBranch (k : Consts) (w : World) (l : PollLocals) (s : Sys) : PollLocals × Sys :=
  let r1 := pollTransaction k w s
  let r2 := pollDeliver k w r1.1 r1.2
  pollUnlockAfterPoll k w { l with ret := r2.1 } r2.2

/-- Lines 1123-1136: the idle wait of the polling topology. -/
def pollIdleWait (w : World) (l : PollLocals) (s : Sys) : Sys :=
  -- if (!pollStatus)
  if l.pollStatus = 0 then
    -- gettimeofday(&curtime, NULL);
    let t := gettimeofday w s
    -- expirytime.tv_sec = curtime.tv_sec; expirytime.tv_nsec = (curtime.tv_usec * 1000) + 10000000;
    let sec := t.1.tv_sec
    let nsec := (t.1.tv_usec * 1000) + 10000000
    -- if (expirytime.tv_nsec >= 1000000000) { expirytime.tv_nsec -= 1000000000; expirytime.tv_sec++; }
    let sec1 := if nsec ≥ 1000000000 then sec + 1 else sec
    let nsec1 := if nsec ≥ 1000000000 then nsec - 1000000000 else nsec
    -- pthread_cond_timedwait(&npi_poll_cond, &npi_poll_mutex, &expirytime);
    (call w (.pthread_cond_timedwait .npi_poll_cond .npi_poll_mutex sec1 nsec1) t.2).2
  else s

/-- Lines 1022-1037: the start of an iteration of the loop of npi_poll_entry, up to the
test that decides whether the device is polled; the first component is the value of
ret. -/
def pollIterEntry (k : Consts) (w : World) (l : PollLocals) (s : Sys) : Int × Sys :=
  if k.SRDY_INTERRUPT = true then
    -- if (PollLockVar) ret = PollLockVarError(); else PollLockVar = 1;
    sentinelTake k l.ret s
  else
    -- pthread_mutex_lock(&npiPollLock);
    let s0 := (call w (.pthread_mutex_lock .npiPollLock) s).2
    -- if (PollLockVar) ret = PollLockVarError(); else PollLockVar = 1;
    let r1 := sentinelTake k l.ret s0
    -- ret = HAL_RNP_SRDY_CLR();
    call w .HAL_RNP_SRDY_CLR r1.2

/-- Lines 1037 and 1043: the test if(TRUE == ret) of the polling build, if(1) of the
interrupt build. -/
def pollsDevice (k : Consts) (ret : Int) : Prop := k.SRDY_INTERRUPT = true ∨ TRUE = ret

instance (k : Consts) (ret : Int) : Decidable (pollsDevice k ret) := by
  unfold pollsDevice; infer_instance

/-- Lines 1019-1138: one iteration of the loop of npi_poll_entry. -/
def pollIteration (k : Consts) (w : World) (l : PollLocals) (s : Sys) : PollLocals × Sys :=
  let e := pollIterEntry k w l s
  let b := if pollsDevice k e.1 then pollBranch k w { l with ret := e.1 } e.2
    else pollUnlockIdle k w { l with ret := e.1 } e.2
  if k.SRDY_INTERRUPT = true then
    -- pthread_cond_wait(&npi_srdy_H2L_poll, &npiPollLock);
    (b.1, (call w (.pthread_cond_wait .npi_srdy_H2L_poll .npiPollLock) b.2).2)
  else (b.1, pollIdleWait w b.1 b.2)

/-- Line 995: uint8 readbuf[128], the receive buffer of the poll thread. -/
def READBUF_SIZE : Nat := 128

/-- Lines 868-899: NPI_SPI_SynchSlave after the MRDY assertion. -/
def synchSlaveRest (k : Consts) (w : World) (s : Sys) : Int × Sys :=
  -- ret = HalGpioWaitSrdySet();
  let r1 := call w .HalGpioWaitSrdySet s
  -- if (ret == NPI_LNX_SUCCESS) ret = HAL_RNP_MRDY_SET(); else (void)HAL_RNP_MRDY_SET();
  let r2 := call w .HAL_RNP_MRDY_SET r1.2
  let ret2 := if r1.1 = k.NPI_LNX_SUCCESS then r2.1 else r1.1
  -- if (ret == NPI_LNX_SUCCESS) ret = HalGpioSrdyCheck(1);
  if ret2 = k.NPI_LNX_SUCCESS then call w (.HalGpioSrdyCheck 1) r2.2 else (ret2, r2.2)

/-- Lines 780-899: the GPIO handshake of NPI_SPI_SynchSlave, that is the function up
to its last adapter call.  The first component tells whether the function returned
at line 842; the second is the value of ret. -/
def synchSlaveHandshake (k : Consts) (w : World) (s : Sys) : Bool × Int × Sys :=
  -- #ifdef SRDY_INTERRUPT pthread_mutex_lock(&npiSrdyLock);
  let s1 := ifIrq k (fun t => (call w (.pthread_mutex_lock .npiSrdyLock) t).2) s
  -- ret = HalGpioWaitSrdyClr();
  let r2 := call w .HalGpioWaitSrdyClr s1
  -- if (ret == NPI_LNX_SUCCESS) if ( NPI_LNX_SUCCESS != (ret = HAL_RNP_MRDY_CLR())) return ret;
  if r2.1 = k.NPI_LNX_SUCCESS then
    if (call w .HAL_RNP_MRDY_CLR r2.2).1 ≠ k.NPI_LNX_SUCCESS
    then (true, call w .HAL_RNP_MRDY_CLR r2.2)
    else (false, synchSlaveRest k w (call w .HAL_RNP_MRDY_CLR r2.2).2)
  else (false, synchSlaveRest k w r2.2)

/-- Lines 778-915, NPI_SPI_SynchSlave. -/
def NPI_SPI_SynchSlave (k : Consts) (w : World) (s : Sys) : Int × Sys :=
  let h := synchSlaveHandshake k w s
  if h.1 = true then h.2 else
  -- if (!PollLockVar) ret = PollLockVarError(); else PollLockVar = 0;
  let r1 := sentinelGive k h.2.1 h.2.2
  -- pthread_mutex_unlock(&npiPollLock);
  let s2 := (call w (.pthread_mutex_unlock .npiPollLock) r1.2).2
  -- #ifdef SRDY_INTERRUPT pthread_mutex_unlock(&npiSrdyLock);
  let s3 := ifIrq k (fun t => (call w (.pthread_mutex_unlock .npiSrdyLock) t).2) s2
  (r1.1, s3)

/-! ## Observations on traces -/

/-- Number of extra calls made before the handshake when SRDY_INTERRUPT is defined
(the lock of npiSrdyLock). -/
def irqN (k : Consts) : Nat := if k.SRDY_INTERRUPT = true then 1 else 0

/-- A call that is only made when SRDY_INTERRUPT is defined. -/
def irqCalls (k : Consts) (c : Call) : List Call := if k.SRDY_INTERRUPT = true then [c] else []

/-- Number of times npiPollLock is unlocked in a trace. -/
def unlocks (t : List Call) : Nat := t.count (.pthread_mutex_unlock .npiPollLock)

/-- Whether a call goes to the bus/GPIO adapter (the HAL). -/
def Call.isAdapter : Call → Bool
  | .HalSpiInit => true
  | .HalSpiClose => true
  | .HalGpioSrdyInit => true
  | .HalGpioSrdyClose => true
  | .HalGpioMrdyInit => true
  | .HalGpioMrdyClose => true
  | .HalGpioResetInit => true
  | .HalGpioResetClose => true
  | .HAL_RNP_MRDY_CLR => true
  | .HAL_RNP_MRDY_SET => true
  | .HAL_RNP_SRDY_CLR => true
  | .HalGpioWaitSrdyClr => true
  | .HalGpioWaitSrdySet => true
  | .HalGpioSrdyCheck _ => true
  | .HalSpiWrite _ _ => true
  | _ => false

/-- The adapter calls of a trace, in order. -/
def adapterCalls (t : List Call) : List Call := t.filter Call.isAdapter

/-- The bytes clocked out by a call, when it is a SPI exchange. -/
def Call.spiTx : Call → Option (List Nat)
  | .HalSpiWrite _ tx => some tx
  | _ => none

/-- The outgoing byte strings of the SPI exchanges of a trace, in order. -/
def spiWrites (t : List Call) : List (List Nat) := t.filterMap Call.spiTx

/-- The frame handed over by a call, when it is the asynchronous-message callback. -/
def Call.cbackMsg : Call → Option (List Nat)
  | .NPI_AsynchMsgCback msg => some msg
  | _ => none

/-- The frames handed to the asynchronous-message callback in a trace, in order. -/
def cbackFrames (t : List Call) : List (List Nat) := t.filterMap Call.cbackMsg

/-- A time stamp in microseconds. -/
def Timeval.usecs (t : Timeval) : Int := t.tv_sec * 1000000 + t.tv_usec

/-- How long external call n takes: the microseconds between the return of the call
before it and its own return. -/
def callDuration (w : World) (n : Nat) : Int := (w n).clock.usecs - (w (n - 1)).clock.usecs

/-- The same environment with other clock readings. -/
def withClock (w : World) (c : Nat → Timeval) : World := fun n => { w n with clock := c n }

/-- A caller frame: length 2, command byte 0x45 (subsystem 5), extended byte 7,
payload AA BB. -/
def sampleFrame : Mem := fun i => [2, 0x45, 7, 0xAA, 0xBB].getD i 0

/-- An open session with the sentinel FREE and the sample frame in the buffer. -/
def freeSys : Sys where
  npiOpenFlag := 1
  npi_poll_terminate := 0
  PollLockVar := 0
  GpioSrdyFd := 3
  npi_ipc_errno := 0
  mem := sampleFrame
  trace := []

/-- The same session with the sentinel HELD. -/
def heldSys : Sys := { freeSys with PollLockVar := 1 }

/-- A session that has not been opened. -/
def closedSys : Sys := { freeSys with npiOpenFlag := 0 }

/-- Every external call returns 0 at time 0 and leaves npi_ipc_errno alone; every SPI
exchange clocks in the bytes 01 65 09 77 (a one-byte response of subsystem 5 typed
SRSP). -/
def okWorld : World := fun _ =>
  { ret := 0, rx := fun i => [1, 0x65, 9, 0x77].getD i 0, errno := none, clock := ⟨0, 0⟩ }

/-- As okWorld, but external call 1 (HAL_RNP_MRDY_CLR of a send in the polling build)
returns NPI_LNX_FAILURE. -/
def mrdyClrFails : World := fun n => { okWorld n with ret := if n = 1 then -1 else 0 }

/-- Every external call succeeds; every SPI exchange clocks in the bytes 01 67 09 77 (a
response of subsystem 7). -/
def subsys7World : World := fun _ =>
  { ret := 0, rx := fun i => [1, 0x67, 9, 0x77].getD i 0, errno := none, clock := ⟨0, 0⟩ }

/-- Every external call succeeds, but the call that returns as number 2
(HalGpioWaitSrdyClr of a send in the polling build) returns 200 ms after call 1. -/
def slowWaitWorld : World := fun n =>
  { okWorld n with clock := ⟨0, if 2 ≤ n then 200000 else 0⟩ }

/-- Every external call succeeds, but 200 ms pass between call 2 and call 4 (the two
gettimeofday calls of npi_spi_pollData in the polling build). -/
def slowPollWorld : World := fun n =>
  { okWorld n with clock := ⟨0, if 3 ≤ n then 200000 else 0⟩ }

/-- The poll thread about to poll: sentinel HELD, the poll command 00 00 00 in readbuf. -/
def pollSys : Sys := { heldSys with mem := fun _ => 0 }

/-- As okWorld, but external call 2 (HalGpioWaitSrdyClr of a send in the polling build)
returns NPI_LNX_FAILURE. -/
def waitFails : World := fun n => { okWorld n with ret := if n = 2 then -1 else 0 }

/-- The polling build with SRDY found low: call 1 (HAL_RNP_SRDY_CLR of a poll iteration)
returns TRUE, every other call returns 0; every SPI exchange clocks in 01 45 09 77 (a
one-byte message of subsystem 5 typed AREQ). -/
def areqWorld : World := fun n =>
  { ret := if n = 1 then 1 else 0, rx := fun i => [1, 0x45, 9, 0x77].getD i 0, errno := none,
    clock := ⟨0, 0⟩ }

/-- The locals of the poll thread when it enters its loop. -/
def pollLocals0 : PollLocals := { ret := 0, pollStatus := 0 }

/-- As okWorld, but call 1 (HalGpioSrdyInit of NPI_SPI_OpenDevice) returns
NPI_LNX_FAILURE. -/
def srdyInitFails : World := fun n => { okWorld n with ret := if n = 1 then -1 else 0 }

/-- Every external call returns 0; every SPI exchange clocks in the length byte 126
followed by bytes 55. -/
def longWorld : World := fun _ =>
  { ret := 0, rx := fun i => if i = 0 then 126 else 0x55, errno := none, clock := ⟨0, 0⟩ }

/-- The poll thread about to poll, with EE in every cell of memory from readbuf on. -/
def guardSys : Sys := { heldSys with mem := fun _ => 0xEE }

/-- Every external call succeeds, and exactly 100 ms pass between call 2 and call 4 (the
two gettimeofday calls of npi_spi_pollData in the polling build). -/
def edgePollWorld : World := fun n =>
  { okWorld n with clock := ⟨0, if 3 ≤ n then 100000 else 0⟩ }

/-- The polling build with SRDY high at the end of the handshake: call 4
(HalGpioSrdyCheck(1) of NPI_SPI_SynchSlave) answers TRUE, every other call returns 0. -/
def srdyHighWorld : World := fun n => { okWorld n with ret := if n = 4 then 1 else 0 }

/-- Every external call succeeds, and the clock jumps by 9223372036855 s between call 2
and call 4 (the two gettimeofday calls of npi_spi_pollData in the polling build). -/
def wrapPollWorld : World := fun n =>
  { okWorld n with clock := ⟨if 3 ≤ n then 9223372036855 else 0, 0⟩ }

/-! ## Basic facts -/

theorem unlocks_append (a b : List Call) : unlocks (a ++ b) = unlocks a + unlocks b := by
  simp [unlocks]

theorem unlocks_nil : unlocks [] = 0 := rfl

theorem unlocks_cons (c : Call) (t : List Call) :
    unlocks (c :: t) = unlocks t + (if c = .pthread_mutex_unlock .npiPollLock then 1 else 0) := by
  simp [unlocks, List.count_cons]

theorem store_apply (m : Mem) (i v j : Nat) :
    store m i v j = if j = i then v % 256 else m j := rfl

theorem exchange_apply (m : Mem) (off n : Nat) (rx : Nat → Nat) (j : Nat) :
    exchange m off n rx j = if off ≤ j ∧ j < off + n then rx (j - off) % 256 else m j := rfl

/-- With enough fuel the zeroing loop clears exactly the cells from i + off up to
bound + off, provided its own stores do not change the bound. -/
theorem zeroLoop_apply (bound : Mem → Nat) (off : Nat)
    (hb : ∀ m i, bound (store m (i + off) 0) = bound m) :
    ∀ (fuel i : Nat) (m : Mem), bound m ≤ i + fuel → ∀ j,
      zeroLoop bound off fuel i m j = if i + off ≤ j ∧ j < bound m + off then 0 else m j := by
  intro fuel
  induction fuel with
  | zero =>
    intro i m h j
    have : ¬ (i + off ≤ j ∧ j < bound m + off) := by omega
    simp [zeroLoop, this]
  | succ f ih =>
    intro i m h j
    unfold zeroLoop
    by_cases hi : i < bound m
    · rw [if_pos hi, ih (i + 1) _ (by rw [hb]; omega) j, hb, store_apply]
      by_cases hj : j = i + off
      · subst hj
        have h1 : ¬ (i + 1 + off ≤ i + off ∧ i + off < bound m + off) := by omega
        simp [h1, hi]
      · by_cases hc : i + off ≤ j ∧ j < bound m + off
        · have h1 : i + 1 + off ≤ j ∧ j < bound m + off := by omega
          simp [h1, hc]
        · have h1 : ¬ (i + 1 + off ≤ j ∧ j < bound m + off) := by omega
          simp [h1, hc, hj]
    · have : ¬ (i + off ≤ j ∧ j < bound m + off) := by omega
      rw [if_neg hi, if_neg this]

theorem zeroHeader_apply (m : Mem) (j : Nat) : zeroHeader m j = if j < 3 then 0 else m j := by
  unfold zeroHeader
  rw [zeroLoop_apply (fun _ => RPC_FRAME_HDR_SZ) 0 (fun _ _ => rfl) RPC_FRAME_HDR_SZ 0 m
    (by simp)]
  simp [RPC_FRAME_HDR_SZ]

theorem zeroPayload_apply (m : Mem) (h : m 0 ≤ 256) (j : Nat) :
    zeroPayload m j = if 3 ≤ j ∧ j < m 0 + 3 then 0 else m j := by
  unfold zeroPayload
  rw [zeroLoop_apply (fun b => b 0) RPC_FRAME_HDR_SZ
    (fun m i => by simp [store_apply, RPC_FRAME_HDR_SZ]) 256 0 m (by simpa using h)]
  simp [RPC_FRAME_HDR_SZ]

/-- The bytes clocked out by the payload exchange are as many zeros as byte 0 says. -/
theorem readBytes_zeroPayload (m : Mem) (h : m 0 ≤ 256) :
    readBytes (zeroPayload m) RPC_FRAME_HDR_SZ (zeroPayload m 0) = List.replicate (m 0) 0 := by
  have h0 : zeroPayload m 0 = m 0 := by rw [zeroPayload_apply m h]; simp
  rw [h0, List.eq_replicate_iff]
  constructor
  · simp [readBytes]
  · intro b hb
    simp only [readBytes, List.mem_map, List.mem_range] at hb
    obtain ⟨i, hi, rfl⟩ := hb
    rw [zeroPayload_apply m h]
    have : 3 ≤ RPC_FRAME_HDR_SZ + i ∧ RPC_FRAME_HDR_SZ + i < m 0 + 3 := by
      simp [RPC_FRAME_HDR_SZ]; omega
    simp [this]

theorem and31_mod (a : Nat) : (a &&& 31) % 256 = a &&& 31 :=
  Nat.mod_eq_of_lt (Nat.lt_of_le_of_lt Nat.and_le_right (by decide))

theorem and31_and224 (a : Nat) : (a &&& 31) &&& 224 = 0 := by
  rw [Nat.and_assoc]
  exact Nat.and_zero a

theorem typeval_lt (v : Nat) (h : v &&& 224 = v) : v < 256 := by
  rw [← h]; exact Nat.lt_of_le_of_lt Nat.and_le_right (by decide)

theorem typeval_and31 (v : Nat) (h : v &&& 224 = v) : v &&& 31 = 0 := by
  rw [← h, Nat.and_assoc]
  exact Nat.and_zero v

theorem tag_mod (a v : Nat) (h : v &&& 224 = v) :
    ((a &&& 31) ||| v) % 256 = (a &&& 31) ||| v :=
  Nat.mod_eq_of_lt (Nat.or_lt_two_pow (n := 8)
    (Nat.lt_of_le_of_lt Nat.and_le_right (by decide)) (typeval_lt v h))

theorem tag_and31 (a v : Nat) (h : v &&& 224 = v) : ((a &&& 31) ||| v) &&& 31 = a &&& 31 := by
  rw [Nat.and_comm, Nat.and_or_distrib_left, Nat.and_comm 31 v, typeval_and31 v h,
    Nat.and_comm 31, Nat.and_assoc]
  simp

theorem tag_and224 (a v : Nat) (h : v &&& 224 = v) : ((a &&& 31) ||| v) &&& 224 = v := by
  rw [Nat.and_comm, Nat.and_or_distrib_left, Nat.and_comm 224 v, h,
    Nat.and_comm 224, and31_and224]
  simp

/-! ## C1: the Transaction Lock across the synchronous send -/

/-- Support for C1: after the MRDY assertion, every path of the synchronous send
clears the sentinel and unlocks npiPollLock exactly once. -/
theorem sendSynchRest_releases (k : Consts) (w : World) (s : Sys) (hheld : s.PollLockVar ≠ 0) :
    (sendSynchRest k w s).2.PollLockVar = 0 ∧
    unlocks (sendSynchRest k w s).2.trace = unlocks s.trace + 1 := by
  by_cases h0 : (w s.trace.length).ret = k.NPI_LNX_SUCCESS
  swap
  · cases hq : k.SRDY_INTERRUPT <;>
    simp [sendSynchRest, call, HalSpiWrite, sentinelGive, ifIrq, PollLockVarError, hq, hheld, h0,
      Nat.add_assoc, unlocks_append, unlocks_cons, unlocks_nil]
  by_cases h1 : (w (s.trace.length + 1)).ret = k.NPI_LNX_SUCCESS
  swap
  · cases hq : k.SRDY_INTERRUPT <;>
    simp [sendSynchRest, call, HalSpiWrite, sentinelGive, ifIrq, PollLockVarError, hq, hheld, h0,
      h1, Nat.add_assoc, unlocks_append, unlocks_cons, unlocks_nil]
  by_cases h2 : (w (s.trace.length + 2)).ret = k.NPI_LNX_SUCCESS
  swap
  · cases hq : k.SRDY_INTERRUPT <;>
    simp [sendSynchRest, call, HalSpiWrite, sentinelGive, ifIrq, PollLockVarError, hq, hheld, h0,
      h1, h2, Nat.add_assoc, unlocks_append, unlocks_cons, unlocks_nil]
  by_cases h3 : (w (s.trace.length + 3)).ret = k.NPI_LNX_SUCCESS
  swap
  · cases hq : k.SRDY_INTERRUPT <;>
    simp [sendSynchRest, call, HalSpiWrite, sentinelGive, ifIrq, PollLockVarError, hq, hheld, h0,
      h1, h2, h3, Nat.add_assoc, unlocks_append, unlocks_cons, unlocks_nil]
  by_cases h4 : (w (s.trace.length + 4)).ret = k.NPI_LNX_SUCCESS
  swap
  · cases hq : k.SRDY_INTERRUPT <;>
    simp [sendSynchRest, call, HalSpiWrite, sentinelGive, ifIrq, PollLockVarError, hq, hheld, h0,
      h1, h2, h3, h4, Nat.add_assoc, unlocks_append, unlocks_cons, unlocks_nil]
  by_cases h5 : (w (s.trace.length + 5)).ret = k.NPI_LNX_SUCCESS <;>
  cases hq : k.SRDY_INTERRUPT <;>
  simp [sendSynchRest, call, HalSpiWrite, sentinelGive, ifIrq, PollLockVarError, hq, hheld, h0,
    h1, h2, h3, h4, h5, Nat.add_assoc, unlocks_append, unlocks_cons, unlocks_nil]

/-- Support for C1: entered FREE, when the MRDY assertion succeeds the synchronous send
returns with the sentinel FREE and npiPollLock unlocked exactly once, whatever the
later adapter calls answer. -/
theorem sendSynch_releases_once (k : Consts) (w : World) (s : Sys)
    (hfree : s.PollLockVar = 0)
    (hclr : (w (s.trace.length + 1 + irqN k)).ret = k.NPI_LNX_SUCCESS) :
    (NPI_SPI_SendSynchData k w s).2.PollLockVar = 0 ∧
    unlocks (NPI_SPI_SendSynchData k w s).2.trace = unlocks s.trace + 1 := by
  cases hq : k.SRDY_INTERRUPT <;>
  simp [irqN, hq] at hclr <;>
  simp [NPI_SPI_SendSynchData, sendSynchEntry, sentinelTake, ifIrq, call, hq, hfree, hclr, Nat.add_assoc] <;>
  (refine (sendSynchRest_releases k w _ (by simp)).imp id (fun h => ?_)
   rw [h]; simp [unlocks_append, unlocks_cons, unlocks_nil])

/-- Support for C1: entered FREE, when HAL_RNP_MRDY_CLR does not return success the
synchronous send returns at once: the sentinel stays HELD and npiPollLock is not
unlocked. -/
theorem sendSynch_early_return (k : Consts) (w : World) (s : Sys)
    (hfree : s.PollLockVar = 0)
    (hclr : (w (s.trace.length + 1 + irqN k)).ret ≠ k.NPI_LNX_SUCCESS) :
    (NPI_SPI_SendSynchData k w s).1 = (w (s.trace.length + 1 + irqN k)).ret ∧
    (NPI_SPI_SendSynchData k w s).2.PollLockVar = 1 ∧
    (NPI_SPI_SendSynchData k w s).2.trace =
      s.trace ++ [.pthread_mutex_lock .npiPollLock] ++
        irqCalls k (.pthread_mutex_lock .npiSrdyLock) ++ [.HAL_RNP_MRDY_CLR] ∧
    unlocks (NPI_SPI_SendSynchData k w s).2.trace = unlocks s.trace := by
  cases hq : k.SRDY_INTERRUPT <;>
  simp [irqN, irqCalls, hq] at hclr ⊢ <;>
  simp [NPI_SPI_SendSynchData, sendSynchEntry, sentinelTake, ifIrq, call, hq, hfree, hclr, Nat.add_assoc,
    unlocks_append, unlocks_cons, unlocks_nil]

/-- C1 (code defect, evaluated at the failing input): the sentinel is FREE at entry and
HAL_RNP_MRDY_CLR returns NPI_LNX_FAILURE; NPI_SPI_SendSynchData returns that failure
right after the MRDY call, with PollLockVar still 1 and npiPollLock never unlocked. -/
theorem C1_lock_leaked_when_mrdy_clr_fails :
    freeSys.PollLockVar = 0 ∧
    (mrdyClrFails 1).ret = tiConsts.NPI_LNX_FAILURE ∧
    (NPI_SPI_SendSynchData tiConsts mrdyClrFails freeSys).1 = tiConsts.NPI_LNX_FAILURE ∧
    (NPI_SPI_SendSynchData tiConsts mrdyClrFails freeSys).2.trace =
      [.pthread_mutex_lock .npiPollLock, .HAL_RNP_MRDY_CLR] ∧
    (NPI_SPI_SendSynchData tiConsts mrdyClrFails freeSys).2.PollLockVar = 1 ∧
    unlocks (NPI_SPI_SendSynchData tiConsts mrdyClrFails freeSys).2.trace = 0 := by
  decide

/-! ## C2 and C3: the sentinel found HELD at entry -/

/-- Support for C2 and C3: entered with the sentinel HELD, when every external call
returns success both sends return success and set the sentinel FREE. -/
theorem held_entry_not_reported (k : Consts) (w : World) (s : Sys)
    (hheld : s.PollLockVar ≠ 0) (hall : ∀ n, (w n).ret = k.NPI_LNX_SUCCESS) :
    (NPI_SPI_SendSynchData k w s).1 = k.NPI_LNX_SUCCESS ∧
    (NPI_SPI_SendSynchData k w s).2.PollLockVar = 0 ∧
    (NPI_SPI_SendAsynchData k w s).1 = k.NPI_LNX_SUCCESS ∧
    (NPI_SPI_SendAsynchData k w s).2.PollLockVar = 0 := by
  by_cases hf : k.NPI_LNX_FAILURE = k.NPI_LNX_SUCCESS <;>
  cases hq : k.SRDY_INTERRUPT <;>
  simp [NPI_SPI_SendSynchData, sendSynchEntry, sendSynchRest, NPI_SPI_SendAsynchData,
    sendAsynchEntry, sendAsynchRest, call,
    HalSpiWrite, sentinelTake, sentinelGive, ifIrq, PollLockVarError, hq, hheld, hall, hf]

/-- C2 (code defect, evaluated at the failing input): the sentinel is HELD at entry and
every adapter call succeeds; both sends return NPI_LNX_SUCCESS, not NPI_LNX_FAILURE,
although PollLockVarError has run and set npi_ipc_errno. -/
theorem C2_held_sentinel_returns_success :
    heldSys.PollLockVar = 1 ∧
    tiConsts.NPI_LNX_SUCCESS ≠ tiConsts.NPI_LNX_FAILURE ∧
    (NPI_SPI_SendSynchData tiConsts okWorld heldSys).1 = tiConsts.NPI_LNX_SUCCESS ∧
    (NPI_SPI_SendSynchData tiConsts okWorld heldSys).2.npi_ipc_errno =
      tiConsts.NPI_LNX_ERROR_SPI_POLL_LOCK_VAR_ERROR ∧
    (NPI_SPI_SendAsynchData tiConsts okWorld heldSys).1 = tiConsts.NPI_LNX_SUCCESS ∧
    (NPI_SPI_SendAsynchData tiConsts okWorld heldSys).2.npi_ipc_errno =
      tiConsts.NPI_LNX_ERROR_SPI_POLL_LOCK_VAR_ERROR := by
  decide

/-- C3 (code defect, evaluated at the failing input): the sentinel is HELD at entry and
every adapter call succeeds; both sends still wait for SRDY and write the frame on the
bus, and both leave the sentinel FREE although they never set it HELD. -/
theorem C3_held_sentinel_not_aborted :
    heldSys.PollLockVar = 1 ∧
    (NPI_SPI_SendSynchData tiConsts okWorld heldSys).2.trace =
      [.pthread_mutex_lock .npiPollLock, .HalGpioWaitSrdyClr,
       .HalSpiWrite 0 [2, 0x25, 7, 0xAA, 0xBB], .HalGpioWaitSrdySet, .HAL_RNP_MRDY_SET,
       .HalSpiWrite 0 [0, 0, 0], .HalSpiWrite 0 [0], .HAL_RNP_MRDY_SET,
       .pthread_mutex_unlock .npiPollLock] ∧
    (NPI_SPI_SendSynchData tiConsts okWorld heldSys).2.PollLockVar = 0 ∧
    (NPI_SPI_SendAsynchData tiConsts okWorld heldSys).2.trace =
      [.pthread_mutex_lock .npiPollLock, .HalGpioWaitSrdyClr,
       .HalSpiWrite 0 [2, 0x45, 7, 0xAA, 0xBB], .HAL_RNP_MRDY_SET,
       .pthread_mutex_unlock .npiPollLock] ∧
    (NPI_SPI_SendAsynchData tiConsts okWorld heldSys).2.PollLockVar = 0 := by
  decide

theorem zeroPayload_after_header (m : Mem) (rx : Nat → Nat) (j : Nat) :
    zeroPayload (exchange m 0 3 rx) j =
      if 3 ≤ j ∧ j < rx 0 % 256 + 3 then 0 else exchange m 0 3 rx j := by
  have h0 : exchange m 0 3 rx 0 = rx 0 % 256 := by
    simp [exchange_apply]
  rw [zeroPayload_apply _ (by rw [h0]; omega), h0]

theorem zeroPayload_zeroHeader (m : Mem) : zeroPayload (zeroHeader m) = zeroHeader m := by
  funext j
  have h0 : zeroHeader m 0 = 0 := by simp [zeroHeader_apply]
  rw [zeroPayload_apply _ (by rw [h0]; omega), h0]
  have : ¬ (3 ≤ j ∧ j < 0 + 3) := by omega
  simp [this]

/-! ## C4: the command byte of the synchronous response -/

/-- After the MRDY assertion, a synchronous send that returns success has seen every
one of its seven adapter calls succeed. -/
theorem sendSynchRest_success_steps (k : Consts) (w : World) (s : Sys)
    (hheld : s.PollLockVar ≠ 0) (hok : (sendSynchRest k w s).1 = k.NPI_LNX_SUCCESS) :
    ∀ i, i ≤ 6 → (w (s.trace.length + i)).ret = k.NPI_LNX_SUCCESS := by
  by_cases h0 : (w s.trace.length).ret = k.NPI_LNX_SUCCESS
  swap
  · exfalso; revert hok
    simp [sendSynchRest, call, HalSpiWrite, sentinelGive, PollLockVarError, hheld, h0]
  by_cases h1 : (w (s.trace.length + 1)).ret = k.NPI_LNX_SUCCESS
  swap
  · exfalso; revert hok
    simp [sendSynchRest, call, HalSpiWrite, sentinelGive, PollLockVarError, hheld, h0, h1]
  by_cases h2 : (w (s.trace.length + 2)).ret = k.NPI_LNX_SUCCESS
  swap
  · exfalso; revert hok
    simp [sendSynchRest, call, HalSpiWrite, sentinelGive, PollLockVarError, hheld, h0, h1, h2,
      Nat.add_assoc]
  by_cases h3 : (w (s.trace.length + 3)).ret = k.NPI_LNX_SUCCESS
  swap
  · exfalso; revert hok
    simp [sendSynchRest, call, HalSpiWrite, sentinelGive, PollLockVarError, hheld, h0, h1, h2,
      h3, Nat.add_assoc]
  by_cases h4 : (w (s.trace.length + 4)).ret = k.NPI_LNX_SUCCESS
  swap
  · exfalso; revert hok
    simp [sendSynchRest, call, HalSpiWrite, sentinelGive, PollLockVarError, hheld, h0, h1, h2,
      h3, h4, Nat.add_assoc]
  by_cases h5 : (w (s.trace.length + 5)).ret = k.NPI_LNX_SUCCESS
  swap
  · exfalso; revert hok
    simp [sendSynchRest, call, HalSpiWrite, sentinelGive, PollLockVarError, hheld, h0, h1, h2,
      h3, h4, h5, Nat.add_assoc]
  by_cases h6 : (w (s.trace.length + 6)).ret = k.NPI_LNX_SUCCESS
  swap
  · exfalso; revert hok
    simp [sendSynchRest, call, HalSpiWrite, sentinelGive, PollLockVarError, hheld, h0, h1, h2,
      h3, h4, h5, h6, Nat.add_assoc]
  intro i hi
  have : i = 0 ∨ i = 1 ∨ i = 2 ∨ i = 3 ∨ i = 4 ∨ i = 5 ∨ i = 6 := by omega
  rcases this with rfl | rfl | rfl | rfl | rfl | rfl | rfl <;> assumption

/-- The path of the synchronous send after the MRDY assertion on which every adapter
call succeeds: the calls made, and the command byte left in the buffer. -/
theorem sendSynchRest_success_path (k : Consts) (w : World) (s : Sys)
    (hheld : s.PollLockVar ≠ 0)
    (hs : ∀ i, i ≤ 6 → (w (s.trace.length + i)).ret = k.NPI_LNX_SUCCESS) :
    (sendSynchRest k w s).2.trace =
      s.trace ++ [.HalGpioWaitSrdyClr,
        .HalSpiWrite 0 (readBytes s.mem 0 (s.mem 0 + RPC_FRAME_HDR_SZ)),
        .HalGpioWaitSrdySet, .HAL_RNP_MRDY_SET, .HalSpiWrite 0 [0, 0, 0],
        .HalSpiWrite 0 (List.replicate ((w (s.trace.length + 4)).rx 0 % 256) 0),
        .HAL_RNP_MRDY_SET, .pthread_mutex_unlock .npiPollLock] ++
        irqCalls k (.pthread_mutex_unlock .npiSrdyLock) ∧
    (sendSynchRest k w s).2.mem RPC_POS_CMD0 =
      ((w (s.trace.length + 4)).rx 1 % 256) &&& RPC_SUBSYSTEM_MASK := by
  have h0 := hs 0 (by omega)
  have h1 := hs 1 (by omega)
  have h2 := hs 2 (by omega)
  have h3 := hs 3 (by omega)
  have h4 := hs 4 (by omega)
  have h5 := hs 5 (by omega)
  have h6 := hs 6 (by omega)
  simp only [Nat.add_zero] at h0
  have hz : readBytes (zeroHeader (exchange s.mem 0 (s.mem 0 + RPC_FRAME_HDR_SZ)
      (w (s.trace.length + 1)).rx)) 0 RPC_FRAME_HDR_SZ = [0, 0, 0] := by
    simp [readBytes, zeroHeader_apply, RPC_FRAME_HDR_SZ, List.range_succ]
  constructor
  · cases hq : k.SRDY_INTERRUPT <;>
    simp [sendSynchRest, call, HalSpiWrite, sentinelGive, PollLockVarError, ifIrq, irqCalls, hq,
      hheld, h0, h1, h2, h3, h4, h5, h6, Nat.add_assoc, hz] <;>
    (rw [readBytes_zeroPayload _ (by simp [exchange_apply, RPC_FRAME_HDR_SZ]; omega)]
     simp [exchange_apply, RPC_FRAME_HDR_SZ])
  · cases hq : k.SRDY_INTERRUPT <;>
    simp [sendSynchRest, call, HalSpiWrite, sentinelGive, PollLockVarError, ifIrq, irqCalls, hq,
      hheld, h0, h1, h2, h3, h4, h5, h6, Nat.add_assoc, store_apply, exchange_apply,
      zeroPayload_after_header, RPC_POS_CMD0, RPC_FRAME_HDR_SZ, RPC_SUBSYSTEM_MASK, and31_mod]

theorem irqCalls_length (k : Consts) (c : Call) : (irqCalls k c).length = irqN k := by
  cases hq : k.SRDY_INTERRUPT <;> simp [irqCalls, irqN, hq]

/-- The state in which the synchronous send reaches its MRDY assertion. -/
theorem sendSynchEntry_spec (k : Consts) (w : World) (s : Sys) :
    (sendSynchEntry k w s).1 =
      (if s.PollLockVar = 0 then k.NPI_LNX_SUCCESS else k.NPI_LNX_FAILURE) ∧
    (sendSynchEntry k w s).2.PollLockVar = (if s.PollLockVar = 0 then 1 else s.PollLockVar) ∧
    (sendSynchEntry k w s).2.trace =
      s.trace ++ [.pthread_mutex_lock .npiPollLock] ++
        irqCalls k (.pthread_mutex_lock .npiSrdyLock) ∧
    (sendSynchEntry k w s).2.mem =
      store s.mem RPC_POS_CMD0 ((s.mem RPC_POS_CMD0 &&& RPC_SUBSYSTEM_MASK) ||| k.RPC_CMD_SREQ) := by
  by_cases hf : s.PollLockVar = 0 <;> cases hq : k.SRDY_INTERRUPT <;>
  simp [sendSynchEntry, sentinelTake, PollLockVarError, ifIrq, irqCalls, call, hf, hq]

theorem sendSynchEntry_length (k : Consts) (w : World) (s : Sys) :
    (sendSynchEntry k w s).2.trace.length = s.trace.length + 1 + irqN k := by
  rw [(sendSynchEntry_spec k w s).2.2.1]
  simp [irqCalls_length]
  omega

theorem getElem?_append_four (a r : List Call) (x0 x1 x2 x3 x4 : Call) (n : Nat)
    (hn : n = a.length + 4) :
    (a ++ x0 :: x1 :: x2 :: x3 :: x4 :: r)[n]? = some x4 := by
  subst hn
  rw [List.getElem?_append_right (by omega)]
  simp

/-- C4 (as amended): when NPI_SPI_SendSynchData returns success, the command byte it
leaves in the caller's buffer has its type field (mask 0xE0) cleared to zero, and is
the command byte received from the device in the response header masked with 0x1F;
the header is the 3-byte all-zero exchange at the call index named here. -/
theorem C4_response_command_byte (k : Consts) (w : World) (s : Sys)
    (hk : k.NPI_LNX_SUCCESS ≠ k.NPI_LNX_FAILURE)
    (hok : (NPI_SPI_SendSynchData k w s).1 = k.NPI_LNX_SUCCESS) :
    (NPI_SPI_SendSynchData k w s).2.mem RPC_POS_CMD0 &&& RPC_CMD_TYPE_MASK = 0 ∧
    (NPI_SPI_SendSynchData k w s).2.mem RPC_POS_CMD0 =
      ((w (s.trace.length + irqN k + (if s.PollLockVar = 0 then 6 else 5))).rx 1 % 256)
        &&& RPC_SUBSYSTEM_MASK ∧
    (NPI_SPI_SendSynchData k w s).2.trace[s.trace.length + irqN k +
        (if s.PollLockVar = 0 then 6 else 5)]? = some (.HalSpiWrite 0 [0, 0, 0]) := by
  obtain ⟨e1, e2, e3, e4⟩ := sendSynchEntry_spec k w s
  have elen := sendSynchEntry_length k w s
  have key : ∀ S : Sys, S.PollLockVar ≠ 0 →
      S.trace.length + 4 = s.trace.length + irqN k + (if s.PollLockVar = 0 then 6 else 5) →
      NPI_SPI_SendSynchData k w s = sendSynchRest k w S →
      (sendSynchRest k w S).2.mem RPC_POS_CMD0 &&& RPC_CMD_TYPE_MASK = 0 ∧
      (sendSynchRest k w S).2.mem RPC_POS_CMD0 =
        ((w (s.trace.length + irqN k + (if s.PollLockVar = 0 then 6 else 5))).rx 1 % 256)
          &&& RPC_SUBSYSTEM_MASK ∧
      (sendSynchRest k w S).2.trace[s.trace.length + irqN k +
          (if s.PollLockVar = 0 then 6 else 5)]? = some (.HalSpiWrite 0 [0, 0, 0]) := by
    intro S hS hlen heq
    rw [heq] at hok
    have hp := sendSynchRest_success_path k w S hS (sendSynchRest_success_steps k w S hS hok)
    rw [← hlen]
    refine ⟨?_, hp.2, ?_⟩
    · rw [hp.2]
      simp only [RPC_SUBSYSTEM_MASK, RPC_CMD_TYPE_MASK]
      exact and31_and224 _
    · rw [hp.1, List.append_assoc]
      exact getElem?_append_four _ _ _ _ _ _ _ _ rfl
  by_cases hf : s.PollLockVar = 0
  · rw [if_pos hf] at e1 e2
    by_cases hclr : (w (s.trace.length + 1 + irqN k)).ret = k.NPI_LNX_SUCCESS
    · have heq : NPI_SPI_SendSynchData k w s =
          sendSynchRest k w (call w .HAL_RNP_MRDY_CLR (sendSynchEntry k w s).2).2 := by
        simp [NPI_SPI_SendSynchData, e1, call, elen, hclr]
      rw [heq]
      refine key _ (by simp [call, e2]) ?_ heq
      simp [call, elen, hf]; omega
    · exfalso
      rw [(sendSynch_early_return k w s hf hclr).1] at hok
      exact hclr hok
  · rw [if_neg hf] at e1 e2
    have heq : NPI_SPI_SendSynchData k w s = sendSynchRest k w (sendSynchEntry k w s).2 := by
      simp [NPI_SPI_SendSynchData, e1, Ne.symm hk]
    rw [heq]
    refine key _ (by rw [e2]; exact hf) ?_ heq
    simp [elen, hf]; omega

theorem C4_response_command_byte_witness :
    tiConsts.NPI_LNX_SUCCESS ≠ tiConsts.NPI_LNX_FAILURE ∧
    (NPI_SPI_SendSynchData tiConsts okWorld freeSys).1 = tiConsts.NPI_LNX_SUCCESS ∧
    (NPI_SPI_SendSynchData tiConsts okWorld freeSys).2.mem RPC_POS_CMD0 &&& RPC_CMD_TYPE_MASK = 0 ∧
    (NPI_SPI_SendSynchData tiConsts okWorld freeSys).2.mem RPC_POS_CMD0 =
      ((okWorld (freeSys.trace.length + irqN tiConsts +
        (if freeSys.PollLockVar = 0 then 6 else 5))).rx 1 % 256) &&& RPC_SUBSYSTEM_MASK ∧
    (NPI_SPI_SendSynchData tiConsts okWorld freeSys).2.trace[freeSys.trace.length +
        irqN tiConsts + (if freeSys.PollLockVar = 0 then 6 else 5)]? =
      some (.HalSpiWrite 0 [0, 0, 0]) :=
  ⟨by decide, by decide,
    C4_response_command_byte tiConsts okWorld freeSys (by decide) (by decide)⟩

/-- C4 (counterexample): the request has subsystem 5.  With a device that answers
0x65 (SRSP, subsystem 5) the send succeeds and returns command byte 0x05, whose type
field is 0 and not RPC_CMD_SRSP; with a device that answers 0x67 the send succeeds and
returns subsystem bits 7, not those of the request. -/
theorem C4_counterexample :
    freeSys.mem RPC_POS_CMD0 &&& RPC_SUBSYSTEM_MASK = 5 ∧
    (NPI_SPI_SendSynchData tiConsts okWorld freeSys).1 = tiConsts.NPI_LNX_SUCCESS ∧
    (NPI_SPI_SendSynchData tiConsts okWorld freeSys).2.mem RPC_POS_CMD0 = 0x05 ∧
    (NPI_SPI_SendSynchData tiConsts okWorld freeSys).2.mem RPC_POS_CMD0 &&& RPC_CMD_TYPE_MASK
      ≠ RPC_CMD_SRSP ∧
    (NPI_SPI_SendSynchData tiConsts subsys7World freeSys).1 = tiConsts.NPI_LNX_SUCCESS ∧
    (NPI_SPI_SendSynchData tiConsts subsys7World freeSys).2.mem RPC_POS_CMD0
        &&& RPC_SUBSYSTEM_MASK
      ≠ freeSys.mem RPC_POS_CMD0 &&& RPC_SUBSYSTEM_MASK := by
  decide

/-! ## C5: the SRDY-low wait of the two sends -/

theorem call_withClock (w : World) (c : Nat → Timeval) : call (withClock w c) = call w := by
  funext x s
  simp [call, withClock]

theorem HalSpiWrite_withClock (w : World) (c : Nat → Timeval) :
    HalSpiWrite (withClock w c) = HalSpiWrite w := by
  funext p o n s
  simp [HalSpiWrite, call_withClock, withClock]

/-- The state in which the asynchronous send reaches its MRDY assertion. -/
theorem sendAsynchEntry_spec (k : Consts) (w : World) (s : Sys) :
    (sendAsynchEntry k w s).1 =
      (if s.PollLockVar = 0 then k.NPI_LNX_SUCCESS else k.NPI_LNX_FAILURE) ∧
    (sendAsynchEntry k w s).2.PollLockVar = (if s.PollLockVar = 0 then 1 else s.PollLockVar) ∧
    (sendAsynchEntry k w s).2.trace =
      s.trace ++ [.pthread_mutex_lock .npiPollLock] ++
        irqCalls k (.pthread_mutex_lock .npiSrdyLock) ∧
    (sendAsynchEntry k w s).2.mem =
      store s.mem RPC_POS_CMD0 ((s.mem RPC_POS_CMD0 &&& RPC_SUBSYSTEM_MASK) ||| k.RPC_CMD_AREQ) := by
  by_cases hf : s.PollLockVar = 0 <;> cases hq : k.SRDY_INTERRUPT <;>
  simp [sendAsynchEntry, sentinelTake, PollLockVarError, ifIrq, irqCalls, call, hf, hq]

theorem sendAsynchEntry_length (k : Consts) (w : World) (s : Sys) :
    (sendAsynchEntry k w s).2.trace.length = s.trace.length + 1 + irqN k := by
  rw [(sendAsynchEntry_spec k w s).2.2.1]
  simp [irqCalls_length]
  omega

theorem sentinelGive_trace (k : Consts) (r : Int) (s : Sys) :
    (sentinelGive k r s).2.trace = s.trace := by
  unfold sentinelGive PollLockVarError
  split <;> rfl

/-- After the MRDY assertion, when the SRDY-low wait succeeds the next call of the
synchronous send is the SPI write of the frame in the buffer, whatever follows. -/
theorem sendSynchRest_first_write (k : Consts) (w : World) (s : Sys)
    (h0 : (w s.trace.length).ret = k.NPI_LNX_SUCCESS) :
    s.trace ++ [.HalGpioWaitSrdyClr,
        .HalSpiWrite 0 (readBytes s.mem 0 (s.mem 0 + RPC_FRAME_HDR_SZ))] <+:
      (sendSynchRest k w s).2.trace := by
  by_cases h1 : (w (s.trace.length + 1)).ret = k.NPI_LNX_SUCCESS
  swap
  · cases hq : k.SRDY_INTERRUPT <;>
    simp [sendSynchRest, call, HalSpiWrite, ifIrq, sentinelGive_trace, hq, h0, h1, Nat.add_assoc,
      List.prefix_append_right_inj, List.cons_prefix_cons]
  by_cases h2 : (w (s.trace.length + 2)).ret = k.NPI_LNX_SUCCESS
  swap
  · cases hq : k.SRDY_INTERRUPT <;>
    simp [sendSynchRest, call, HalSpiWrite, ifIrq, sentinelGive_trace, hq, h0, h1, h2, Nat.add_assoc,
      List.prefix_append_right_inj, List.cons_prefix_cons]
  by_cases h3 : (w (s.trace.length + 3)).ret = k.NPI_LNX_SUCCESS
  swap
  · cases hq : k.SRDY_INTERRUPT <;>
    simp [sendSynchRest, call, HalSpiWrite, ifIrq, sentinelGive_trace, hq, h0, h1, h2, h3, Nat.add_assoc,
      List.prefix_append_right_inj, List.cons_prefix_cons]
  by_cases h4 : (w (s.trace.length + 4)).ret = k.NPI_LNX_SUCCESS <;>
  cases hq : k.SRDY_INTERRUPT <;>
  simp [sendSynchRest, call, HalSpiWrite, ifIrq, sentinelGive_trace, hq, h0, h1, h2, h3, h4, Nat.add_assoc,
    List.prefix_append_right_inj, List.cons_prefix_cons]

/-- After the MRDY assertion, when the SRDY-low wait succeeds the next call of the
asynchronous send is the SPI write of the frame in the buffer, whatever follows. -/
theorem sendAsynchRest_first_write (k : Consts) (w : World) (s : Sys)
    (h0 : (w s.trace.length).ret = k.NPI_LNX_SUCCESS) :
    s.trace ++ [.HalGpioWaitSrdyClr,
        .HalSpiWrite 0 (readBytes s.mem 0 (s.mem 0 + RPC_FRAME_HDR_SZ))] <+:
      (sendAsynchRest k w s).2.trace := by
  cases hq : k.SRDY_INTERRUPT <;>
  simp [sendAsynchRest, call, HalSpiWrite, ifIrq, sentinelGive_trace, hq, h0, Nat.add_assoc,
    List.prefix_append_right_inj, List.cons_prefix_cons]

theorem errno_call (w : World) (he : ∀ n, (w n).errno = none) (c : Call) (s : Sys) :
    (call w c s).2.npi_ipc_errno = s.npi_ipc_errno := by
  simp [call, he]

theorem errno_HalSpiWrite (w : World) (he : ∀ n, (w n).errno = none) (p o n : Nat) (s : Sys) :
    (HalSpiWrite w p o n s).2.npi_ipc_errno = s.npi_ipc_errno := by
  simp [HalSpiWrite, call, he]

theorem errno_ifIrq (k : Consts) (w : World) (he : ∀ n, (w n).errno = none) (c : Call)
    (s : Sys) :
    (ifIrq k (fun t => (call w c t).2) s).npi_ipc_errno = s.npi_ipc_errno := by
  unfold ifIrq
  split
  · exact errno_call w he c s
  · rfl

theorem errno_ite (c : Prop) [Decidable c] (a b : Int × Sys) :
    (if c then a else b).2.npi_ipc_errno =
      if c then a.2.npi_ipc_errno else b.2.npi_ipc_errno := by
  split <;> rfl

theorem lockVar_ifIrq (k : Consts) (w : World) (c : Call) (s : Sys) :
    (ifIrq k (fun t => (call w c t).2) s).PollLockVar = s.PollLockVar := by
  unfold ifIrq
  split <;> rfl

theorem lockVar_ite (c : Prop) [Decidable c] (a b : Int × Sys) :
    (if c then a else b).2.PollLockVar = if c then a.2.PollLockVar else b.2.PollLockVar := by
  split <;> rfl

theorem lockVar_call (w : World) (c : Call) (s : Sys) :
    (call w c s).2.PollLockVar = s.PollLockVar := rfl

theorem lockVar_HalSpiWrite (w : World) (p o n : Nat) (s : Sys) :
    (HalSpiWrite w p o n s).2.PollLockVar = s.PollLockVar := rfl

/-- Releasing a sentinel that is HELD does not write npi_ipc_errno. -/
theorem errno_sentinelGive (k : Consts) (r : Int) (s : Sys) (h : s.PollLockVar ≠ 0) :
    (sentinelGive k r s).2.npi_ipc_errno = s.npi_ipc_errno := by
  simp [sentinelGive, h]

/-- After the MRDY assertion the synchronous send, holding the sentinel, writes
npi_ipc_errno on no path. -/
theorem errno_sendSynchRest (k : Consts) (w : World) (he : ∀ n, (w n).errno = none) (s : Sys)
    (hheld : s.PollLockVar ≠ 0) :
    (sendSynchRest k w s).2.npi_ipc_errno = s.npi_ipc_errno := by
  unfold sendSynchRest
  simp only [errno_ifIrq k w he, errno_call w he]
  rw [errno_sentinelGive]
  · simp [errno_ite, errno_call w he, errno_HalSpiWrite w he]
  · simp [lockVar_ite, lockVar_call, lockVar_HalSpiWrite, hheld]

/-- After the MRDY assertion the asynchronous send, holding the sentinel, writes
npi_ipc_errno on no path. -/
theorem errno_sendAsynchRest (k : Consts) (w : World) (he : ∀ n, (w n).errno = none) (s : Sys)
    (hheld : s.PollLockVar ≠ 0) :
    (sendAsynchRest k w s).2.npi_ipc_errno = s.npi_ipc_errno := by
  unfold sendAsynchRest
  simp only [errno_ifIrq k w he, errno_call w he]
  rw [errno_sentinelGive]
  · simp [errno_ite, errno_call w he, errno_HalSpiWrite w he]
  · simp [lockVar_ite, lockVar_call, lockVar_HalSpiWrite, hheld]

/-- C5 (as amended): the two sends do not time the SRDY-low wait.  Entered FREE with
the MRDY assertion succeeding: their whole result is the same whatever the clock
shows; they never write npi_ipc_errno themselves (it is unchanged when no external
call writes it), so they never report the possible-reset code; when
HalGpioWaitSrdyClr returns success, however late, the next call is the SPI write of
the tagged frame; and when HalGpioWaitSrdyClr itself returns a non-success code, the
send makes no SPI exchange and no further wait, drives MRDY high once, releases the
sentinel and npiPollLock, and returns that code. -/
theorem C5_send_wait_not_timed (k : Consts) (w : World) (s : Sys)
    (hfree : s.PollLockVar = 0)
    (hclr : (w (s.trace.length + 1 + irqN k)).ret = k.NPI_LNX_SUCCESS) :
    (∀ c, NPI_SPI_SendSynchData k (withClock w c) s = NPI_SPI_SendSynchData k w s) ∧
    (∀ c, NPI_SPI_SendAsynchData k (withClock w c) s = NPI_SPI_SendAsynchData k w s) ∧
    ((∀ n, (w n).errno = none) →
      (NPI_SPI_SendSynchData k w s).2.npi_ipc_errno = s.npi_ipc_errno ∧
      (NPI_SPI_SendAsynchData k w s).2.npi_ipc_errno = s.npi_ipc_errno) ∧
    ((w (s.trace.length + 2 + irqN k)).ret = k.NPI_LNX_SUCCESS →
      s.trace ++ [.pthread_mutex_lock .npiPollLock] ++
          irqCalls k (.pthread_mutex_lock .npiSrdyLock) ++
          [.HAL_RNP_MRDY_CLR, .HalGpioWaitSrdyClr,
           .HalSpiWrite 0 (readBytes (store s.mem RPC_POS_CMD0
              ((s.mem RPC_POS_CMD0 &&& RPC_SUBSYSTEM_MASK) ||| k.RPC_CMD_SREQ)) 0
              (s.mem 0 + RPC_FRAME_HDR_SZ))] <+:
        (NPI_SPI_SendSynchData k w s).2.trace ∧
      s.trace ++ [.pthread_mutex_lock .npiPollLock] ++
          irqCalls k (.pthread_mutex_lock .npiSrdyLock) ++
          [.HAL_RNP_MRDY_CLR, .HalGpioWaitSrdyClr,
           .HalSpiWrite 0 (readBytes (store s.mem RPC_POS_CMD0
              ((s.mem RPC_POS_CMD0 &&& RPC_SUBSYSTEM_MASK) ||| k.RPC_CMD_AREQ)) 0
              (s.mem 0 + RPC_FRAME_HDR_SZ))] <+:
        (NPI_SPI_SendAsynchData k w s).2.trace) ∧
    ((w (s.trace.length + 2 + irqN k)).ret ≠ k.NPI_LNX_SUCCESS →
      (NPI_SPI_SendSynchData k w s).1 = (w (s.trace.length + 2 + irqN k)).ret ∧
      (NPI_SPI_SendSynchData k w s).2.trace =
        s.trace ++ [.pthread_mutex_lock .npiPollLock] ++
          irqCalls k (.pthread_mutex_lock .npiSrdyLock) ++
          [.HAL_RNP_MRDY_CLR, .HalGpioWaitSrdyClr, .HAL_RNP_MRDY_SET,
           .pthread_mutex_unlock .npiPollLock] ++
          irqCalls k (.pthread_mutex_unlock .npiSrdyLock) ∧
      (NPI_SPI_SendSynchData k w s).2.PollLockVar = 0 ∧
      (NPI_SPI_SendAsynchData k w s).1 = (w (s.trace.length + 2 + irqN k)).ret ∧
      (NPI_SPI_SendAsynchData k w s).2.trace =
        s.trace ++ [.pthread_mutex_lock .npiPollLock] ++
          irqCalls k (.pthread_mutex_lock .npiSrdyLock) ++
          [.HAL_RNP_MRDY_CLR, .HalGpioWaitSrdyClr, .HAL_RNP_MRDY_SET,
           .pthread_mutex_unlock .npiPollLock] ++
          irqCalls k (.pthread_mutex_unlock .npiSrdyLock) ∧
      (NPI_SPI_SendAsynchData k w s).2.PollLockVar = 0) := by
  have hS : NPI_SPI_SendSynchData k w s =
      sendSynchRest k w (call w .HAL_RNP_MRDY_CLR (sendSynchEntry k w s).2).2 := by
    have e1 := (sendSynchEntry_spec k w s).1
    rw [if_pos hfree] at e1
    simp [NPI_SPI_SendSynchData, e1, call, sendSynchEntry_length, hclr]
  have hA : NPI_SPI_SendAsynchData k w s =
      sendAsynchRest k w (call w .HAL_RNP_MRDY_CLR (sendAsynchEntry k w s).2).2 := by
    have e1 := (sendAsynchEntry_spec k w s).1
    rw [if_pos hfree] at e1
    simp [NPI_SPI_SendAsynchData, e1, call, sendAsynchEntry_length, hclr]
  obtain ⟨_, s2, s3, s4⟩ := sendSynchEntry_spec k w s
  obtain ⟨_, a2, a3, a4⟩ := sendAsynchEntry_spec k w s
  rw [if_pos hfree] at s2 a2
  refine ⟨?_, ?_, ?_, ?_, ?_⟩
  · intro c
    simp only [NPI_SPI_SendSynchData, sendSynchEntry, sendSynchRest, call_withClock,
      HalSpiWrite_withClock]
  · intro c
    simp only [NPI_SPI_SendAsynchData, sendAsynchEntry, sendAsynchRest, call_withClock,
      HalSpiWrite_withClock]
  · intro he
    constructor
    · rw [hS, errno_sendSynchRest k w he _ (by simp [call, s2]), errno_call w he]
      cases hq : k.SRDY_INTERRUPT <;>
      simp [sendSynchEntry, sentinelTake, ifIrq, call, hq, hfree, he]
    · rw [hA, errno_sendAsynchRest k w he _ (by simp [call, a2]), errno_call w he]
      cases hq : k.SRDY_INTERRUPT <;>
      simp [sendAsynchEntry, sentinelTake, ifIrq, call, hq, hfree, he]
  · intro hwait
    constructor
    · have hpre := sendSynchRest_first_write k w
        (call w .HAL_RNP_MRDY_CLR (sendSynchEntry k w s).2).2
        (by simp only [call, List.length_append, sendSynchEntry_length, List.length_singleton]
            rw [← hwait]; congr 2; omega)
      have hm : (call w .HAL_RNP_MRDY_CLR (sendSynchEntry k w s).2).2.mem =
          store s.mem RPC_POS_CMD0
            ((s.mem RPC_POS_CMD0 &&& RPC_SUBSYSTEM_MASK) ||| k.RPC_CMD_SREQ) := by
        simp [call, s4]
      have ht : (call w .HAL_RNP_MRDY_CLR (sendSynchEntry k w s).2).2.trace =
          s.trace ++ [.pthread_mutex_lock .npiPollLock] ++
            irqCalls k (.pthread_mutex_lock .npiSrdyLock) ++ [.HAL_RNP_MRDY_CLR] := by
        simp [call, s3]
      have h0 : store s.mem RPC_POS_CMD0
          ((s.mem RPC_POS_CMD0 &&& RPC_SUBSYSTEM_MASK) ||| k.RPC_CMD_SREQ) 0 = s.mem 0 := by
        simp [store_apply, RPC_POS_CMD0]
      rw [hm, ht, h0] at hpre
      rw [hS]
      simpa [List.append_assoc] using hpre
    · have hpre := sendAsynchRest_first_write k w
        (call w .HAL_RNP_MRDY_CLR (sendAsynchEntry k w s).2).2
        (by simp only [call, List.length_append, sendAsynchEntry_length, List.length_singleton]
            rw [← hwait]; congr 2; omega)
      have hm : (call w .HAL_RNP_MRDY_CLR (sendAsynchEntry k w s).2).2.mem =
          store s.mem RPC_POS_CMD0
            ((s.mem RPC_POS_CMD0 &&& RPC_SUBSYSTEM_MASK) ||| k.RPC_CMD_AREQ) := by
        simp [call, a4]
      have ht : (call w .HAL_RNP_MRDY_CLR (sendAsynchEntry k w s).2).2.trace =
          s.trace ++ [.pthread_mutex_lock .npiPollLock] ++
            irqCalls k (.pthread_mutex_lock .npiSrdyLock) ++ [.HAL_RNP_MRDY_CLR] := by
        simp [call, a3]
      have h0 : store s.mem RPC_POS_CMD0
          ((s.mem RPC_POS_CMD0 &&& RPC_SUBSYSTEM_MASK) ||| k.RPC_CMD_AREQ) 0 = s.mem 0 := by
        simp [store_apply, RPC_POS_CMD0]
      rw [hm, ht, h0] at hpre
      rw [hA]
      simpa [List.append_assoc] using hpre
  · intro hwait
    cases hq : k.SRDY_INTERRUPT <;>
    simp [irqN, irqCalls, hq] at hclr hwait ⊢ <;>
    (refine ⟨?_, ?_, ?_, ?_, ?_, ?_⟩ <;>
     simp [NPI_SPI_SendSynchData, sendSynchEntry, sendSynchRest, NPI_SPI_SendAsynchData,
          sendAsynchEntry, sendAsynchRest, call, HalSpiWrite, sentinelTake, sentinelGive, ifIrq,
          PollLockVarError, hq, hfree, hclr, hwait, Nat.add_assoc])

/-- C5 at a sample.  With the wait failing (world waitFails) both sends return the code
of the wait; with the wait succeeding after 200 ms (world slowWaitWorld) the result is
the one obtained with every clock reading at zero. -/
theorem C5_send_wait_not_timed_witness :
    freeSys.PollLockVar = 0 ∧
    (waitFails (freeSys.trace.length + 1 + irqN tiConsts)).ret = tiConsts.NPI_LNX_SUCCESS ∧
    (waitFails (freeSys.trace.length + 2 + irqN tiConsts)).ret ≠ tiConsts.NPI_LNX_SUCCESS ∧
    (NPI_SPI_SendSynchData tiConsts waitFails freeSys).1 =
      (waitFails (freeSys.trace.length + 2 + irqN tiConsts)).ret ∧
    (NPI_SPI_SendAsynchData tiConsts waitFails freeSys).1 =
      (waitFails (freeSys.trace.length + 2 + irqN tiConsts)).ret ∧
    NPI_SPI_SendSynchData tiConsts (withClock slowWaitWorld (fun _ => ⟨0, 0⟩)) freeSys =
      NPI_SPI_SendSynchData tiConsts slowWaitWorld freeSys :=
  ⟨by decide, by decide, by decide,
    ((C5_send_wait_not_timed tiConsts waitFails freeSys (by decide) (by decide)).2.2.2.2
      (by decide)).1,
    ((C5_send_wait_not_timed tiConsts waitFails freeSys (by decide) (by decide)).2.2.2.2
      (by decide)).2.2.2.1,
    (C5_send_wait_not_timed tiConsts slowWaitWorld freeSys (by decide) (by decide)).1 _⟩

/-- C5 (counterexample): the sentinel is FREE, the MRDY assertion succeeds and
HalGpioWaitSrdyClr (call 2) returns success after 200 ms.  Both sends carry on, put
the frame on the bus and return NPI_LNX_SUCCESS; npi_ipc_errno is not the
possible-reset code. -/
theorem C5_counterexample :
    freeSys.PollLockVar = 0 ∧
    (slowWaitWorld 1).ret = tiConsts.NPI_LNX_SUCCESS ∧
    (NPI_SPI_SendSynchData tiConsts slowWaitWorld freeSys).2.trace[2]? =
      some .HalGpioWaitSrdyClr ∧
    (NPI_SPI_SendAsynchData tiConsts slowWaitWorld freeSys).2.trace[2]? =
      some .HalGpioWaitSrdyClr ∧
    callDuration slowWaitWorld 2 = 200000 ∧
    (NPI_SPI_SendSynchData tiConsts slowWaitWorld freeSys).1 = tiConsts.NPI_LNX_SUCCESS ∧
    (NPI_SPI_SendSynchData tiConsts slowWaitWorld freeSys).2.npi_ipc_errno ≠
      tiConsts.NPI_LNX_ERROR_SPI_POLL_DATA_SRDY_CLR_TIMEOUT_POSSIBLE_RESET ∧
    (spiWrites (NPI_SPI_SendSynchData tiConsts slowWaitWorld freeSys).2.trace).length = 3 ∧
    (NPI_SPI_SendAsynchData tiConsts slowWaitWorld freeSys).1 = tiConsts.NPI_LNX_SUCCESS ∧
    (NPI_SPI_SendAsynchData tiConsts slowWaitWorld freeSys).2.npi_ipc_errno ≠
      tiConsts.NPI_LNX_ERROR_SPI_POLL_DATA_SRDY_CLR_TIMEOUT_POSSIBLE_RESET ∧
    (spiWrites (NPI_SPI_SendAsynchData tiConsts slowWaitWorld freeSys).2.trace).length = 1 := by
  decide

/-! ## C6: opening a session that is already open -/

/-- C6: called while npiOpenFlag is set, NPI_SPI_OpenDevice returns, and returns
NPI_LNX_FAILURE with npi_ipc_errno = NPI_LNX_ERROR_SPI_OPEN_ALREADY_OPEN; it makes no
external call, and leaves the open flag, the sentinel, the termination flag (and the
SRDY descriptor and the buffer) as they were. -/
theorem C6_open_while_open (k : Consts) (w : World) (s : Sys) (hopen : s.npiOpenFlag ≠ 0) :
    ∃ r, NPI_SPI_OpenDevice k w s = some r ∧
      r.1 = k.NPI_LNX_FAILURE ∧
      r.2.npi_ipc_errno = k.NPI_LNX_ERROR_SPI_OPEN_ALREADY_OPEN ∧
      r.2.trace = s.trace ∧
      r.2.npiOpenFlag = s.npiOpenFlag ∧
      r.2.PollLockVar = s.PollLockVar ∧
      r.2.npi_poll_terminate = s.npi_poll_terminate ∧
      r.2.GpioSrdyFd = s.GpioSrdyFd ∧
      r.2.mem = s.mem :=
  ⟨(k.NPI_LNX_FAILURE, { s with npi_ipc_errno := k.NPI_LNX_ERROR_SPI_OPEN_ALREADY_OPEN }),
    by simp [NPI_SPI_OpenDevice, hopen], rfl, rfl, rfl, rfl, rfl, rfl, rfl, rfl⟩

theorem C6_open_while_open_witness :
    freeSys.npiOpenFlag ≠ 0 ∧
    ∃ r, NPI_SPI_OpenDevice tiConsts okWorld freeSys = some r ∧
      r.1 = tiConsts.NPI_LNX_FAILURE ∧
      r.2.npi_ipc_errno = tiConsts.NPI_LNX_ERROR_SPI_OPEN_ALREADY_OPEN ∧
      r.2.trace = freeSys.trace :=
  ⟨by decide,
    (C6_open_while_open tiConsts okWorld freeSys (by decide)).imp
      fun _ h => ⟨h.1, h.2.1, h.2.2.1, h.2.2.2.1⟩⟩

/-! ## C7: the request frame of the synchronous send -/

theorem readBytes_length (m : Mem) (off n : Nat) : (readBytes m off n).length = n := by
  simp [readBytes]

theorem readBytes_getElem? (m : Mem) (off n i : Nat) (h : i < n) :
    (readBytes m off n)[i]? = some (m (off + i)) := by
  simp [readBytes, List.getElem?_map, List.getElem?_range h]

/-- C7: entered FREE, when the MRDY assertion and the SRDY-low wait succeed, the first
SPI write of NPI_SPI_SendSynchData carries exactly len+3 bytes: byte 0, byte 2 and the
payload are the caller's, byte 1 is (caller's command byte AND 0x1F) OR SREQ, whose
subsystem bits are the caller's and whose type field is SREQ. -/
theorem C7_request_frame (k : Consts) (w : World) (s : Sys)
    (hsreq : k.RPC_CMD_SREQ &&& RPC_CMD_TYPE_MASK = k.RPC_CMD_SREQ)
    (hfree : s.PollLockVar = 0)
    (hclr : (w (s.trace.length + 1 + irqN k)).ret = k.NPI_LNX_SUCCESS)
    (hwait : (w (s.trace.length + 2 + irqN k)).ret = k.NPI_LNX_SUCCESS) :
    ∃ tx : List Nat,
      s.trace ++ [.pthread_mutex_lock .npiPollLock] ++
          irqCalls k (.pthread_mutex_lock .npiSrdyLock) ++
          [.HAL_RNP_MRDY_CLR, .HalGpioWaitSrdyClr, .HalSpiWrite 0 tx] <+:
        (NPI_SPI_SendSynchData k w s).2.trace ∧
      tx.length = s.mem 0 + 3 ∧
      tx[0]? = some (s.mem 0) ∧
      tx[1]? = some ((s.mem 1 &&& RPC_SUBSYSTEM_MASK) ||| k.RPC_CMD_SREQ) ∧
      tx[2]? = some (s.mem 2) ∧
      (∀ i, 3 ≤ i → i < s.mem 0 + 3 → tx[i]? = some (s.mem i)) ∧
      ((s.mem 1 &&& RPC_SUBSYSTEM_MASK) ||| k.RPC_CMD_SREQ) &&& RPC_SUBSYSTEM_MASK =
        s.mem 1 &&& RPC_SUBSYSTEM_MASK ∧
      ((s.mem 1 &&& RPC_SUBSYSTEM_MASK) ||| k.RPC_CMD_SREQ) &&& RPC_CMD_TYPE_MASK =
        k.RPC_CMD_SREQ := by
  obtain ⟨e1, e2, e3, e4⟩ := sendSynchEntry_spec k w s
  have elen := sendSynchEntry_length k w s
  rw [if_pos hfree] at e1 e2
  have heq : NPI_SPI_SendSynchData k w s =
      sendSynchRest k w (call w .HAL_RNP_MRDY_CLR (sendSynchEntry k w s).2).2 := by
    simp [NPI_SPI_SendSynchData, e1, call, elen, hclr]
  have hpre := sendSynchRest_first_write k w (call w .HAL_RNP_MRDY_CLR (sendSynchEntry k w s).2).2
    (by simp only [call, List.length_append, elen, List.length_singleton]
        rw [← hwait]; congr 2; omega)
  simp only [RPC_SUBSYSTEM_MASK, RPC_CMD_TYPE_MASK, RPC_POS_CMD0, RPC_FRAME_HDR_SZ] at *
  refine ⟨readBytes (store s.mem 1 ((s.mem 1 &&& 31) ||| k.RPC_CMD_SREQ)) 0 (s.mem 0 + 3),
    ?_, ?_, ?_, ?_, ?_, ?_, tag_and31 _ _ hsreq, tag_and224 _ _ hsreq⟩
  · rw [heq]
    have hm : (call w .HAL_RNP_MRDY_CLR (sendSynchEntry k w s).2).2.mem =
        store s.mem 1 ((s.mem 1 &&& 31) ||| k.RPC_CMD_SREQ) := by simp [call, e4]
    have ht : (call w .HAL_RNP_MRDY_CLR (sendSynchEntry k w s).2).2.trace =
        s.trace ++ [.pthread_mutex_lock .npiPollLock] ++
          irqCalls k (.pthread_mutex_lock .npiSrdyLock) ++ [.HAL_RNP_MRDY_CLR] := by
      simp [call, e3]
    rw [hm, ht] at hpre
    have hs0 : store s.mem 1 ((s.mem 1 &&& 31) ||| k.RPC_CMD_SREQ) 0 = s.mem 0 := by
      simp [store_apply]
    rw [hs0] at hpre
    simpa [List.append_assoc] using hpre
  · exact readBytes_length _ _ _
  · rw [readBytes_getElem? _ _ _ _ (by omega)]; simp [store_apply]
  · rw [readBytes_getElem? _ _ _ _ (by omega)]; simp [store_apply, tag_mod _ _ hsreq]
  · rw [readBytes_getElem? _ _ _ _ (by omega)]; simp [store_apply]
  · intro i h3 hi
    rw [readBytes_getElem? _ _ _ _ hi]
    have : i ≠ 1 := by omega
    simp [store_apply, this]

theorem C7_request_frame_witness :
    tiConsts.RPC_CMD_SREQ &&& RPC_CMD_TYPE_MASK = tiConsts.RPC_CMD_SREQ ∧
    freeSys.PollLockVar = 0 ∧
    (okWorld (freeSys.trace.length + 1 + irqN tiConsts)).ret = tiConsts.NPI_LNX_SUCCESS ∧
    (okWorld (freeSys.trace.length + 2 + irqN tiConsts)).ret = tiConsts.NPI_LNX_SUCCESS ∧
    ∃ tx : List Nat,
      freeSys.trace ++ [.pthread_mutex_lock .npiPollLock] ++
          irqCalls tiConsts (.pthread_mutex_lock .npiSrdyLock) ++
          [.HAL_RNP_MRDY_CLR, .HalGpioWaitSrdyClr, .HalSpiWrite 0 tx] <+:
        (NPI_SPI_SendSynchData tiConsts okWorld freeSys).2.trace ∧
      tx.length = freeSys.mem 0 + 3 ∧
      tx[0]? = some (freeSys.mem 0) ∧
      tx[1]? = some ((freeSys.mem 1 &&& RPC_SUBSYSTEM_MASK) ||| tiConsts.RPC_CMD_SREQ) ∧
      tx[2]? = some (freeSys.mem 2) ∧
      (∀ i, 3 ≤ i → i < freeSys.mem 0 + 3 → tx[i]? = some (freeSys.mem i)) ∧
      ((freeSys.mem 1 &&& RPC_SUBSYSTEM_MASK) ||| tiConsts.RPC_CMD_SREQ) &&& RPC_SUBSYSTEM_MASK =
        freeSys.mem 1 &&& RPC_SUBSYSTEM_MASK ∧
      ((freeSys.mem 1 &&& RPC_SUBSYSTEM_MASK) ||| tiConsts.RPC_CMD_SREQ) &&& RPC_CMD_TYPE_MASK =
        tiConsts.RPC_CMD_SREQ :=
  ⟨by decide, by decide, by decide, by decide,
    C7_request_frame tiConsts okWorld freeSys (by decide) (by decide) (by decide) (by decide)⟩

/-! ## C8: the header exchange and the payload exchange -/

theorem spiWrites_append (a b : List Call) : spiWrites (a ++ b) = spiWrites a ++ spiWrites b := by
  simp [spiWrites]

theorem spiWrites_nil : spiWrites [] = [] := rfl

theorem spiWrites_cons (c : Call) (t : List Call) :
    spiWrites (c :: t) = c.spiTx.toList ++ spiWrites t := by
  cases h : c.spiTx <;> simp [spiWrites, List.filterMap_cons, h]

theorem spiWrites_irqCalls_lock (k : Consts) (m : Mutex) :
    spiWrites (irqCalls k (.pthread_mutex_lock m)) = [] := by
  cases hq : k.SRDY_INTERRUPT <;> simp [irqCalls, spiWrites, hq, Call.spiTx]

theorem spiWrites_irqCalls_unlock (k : Consts) (m : Mutex) :
    spiWrites (irqCalls k (.pthread_mutex_unlock m)) = [] := by
  cases hq : k.SRDY_INTERRUPT <;> simp [irqCalls, spiWrites, hq, Call.spiTx]

theorem readBytes_zeroHeader (m : Mem) :
    readBytes (zeroHeader m) 0 RPC_FRAME_HDR_SZ = [0, 0, 0] := by
  simp [readBytes, zeroHeader_apply, List.range_succ, RPC_FRAME_HDR_SZ]

theorem readBytes_payload_after_header (m : Mem) (rx : Nat → Nat) :
    readBytes (zeroPayload (exchange m 0 RPC_FRAME_HDR_SZ rx)) RPC_FRAME_HDR_SZ
        (zeroPayload (exchange m 0 RPC_FRAME_HDR_SZ rx) 0) =
      List.replicate (rx 0 % 256) 0 := by
  have h0 : exchange m 0 RPC_FRAME_HDR_SZ rx 0 = rx 0 % 256 := by
    simp [exchange_apply, RPC_FRAME_HDR_SZ]
  rw [readBytes_zeroPayload _ (by rw [h0]; omega), h0]

/-- The path of npi_spi_pollData on which every adapter call succeeds and the measured
wait does not exceed 100 ms. -/
theorem pollData_success_path (k : Consts) (w : World) (s : Sys)
    (hall : ∀ n, (w n).ret = k.NPI_LNX_SUCCESS)
    (hdiff : diffPrev k (w (s.trace.length + irqN k + 2)).clock
      (w (s.trace.length + irqN k + 4)).clock ≤ 100 * 1000) :
    (npi_spi_pollData k w s).1 = k.NPI_LNX_SUCCESS ∧
    (npi_spi_pollData k w s).2.trace =
      s.trace ++ irqCalls k (.pthread_mutex_lock .npiSrdyLock) ++
        [.HAL_RNP_MRDY_CLR, .HalSpiWrite 0 (readBytes s.mem 0 (s.mem 0 + RPC_FRAME_HDR_SZ)),
         .gettimeofday, .HalGpioWaitSrdySet, .gettimeofday, .HAL_RNP_MRDY_SET,
         .HalSpiWrite 0 [0, 0, 0],
         .HalSpiWrite 0 (List.replicate ((w (s.trace.length + irqN k + 6)).rx 0 % 256) 0)] ++
        irqCalls k (.pthread_mutex_unlock .npiSrdyLock) := by
  cases hq : k.SRDY_INTERRUPT
  · simp [irqN, irqCalls, hq] at hdiff ⊢
    have hd := not_lt.mpr hdiff
    simp [npi_spi_pollData, pollDataSend, pollDataRest, gettimeofday, call, HalSpiWrite, ifIrq,
      hq, hall, hd, Nat.add_assoc, readBytes_zeroHeader, readBytes_payload_after_header]
  · simp [irqN, irqCalls, hq] at hdiff ⊢
    have hd := not_lt.mpr hdiff
    simp [npi_spi_pollData, pollDataSend, pollDataRest, gettimeofday, call, HalSpiWrite, ifIrq,
      hq, hall, hd, Nat.add_assoc, readBytes_zeroHeader, readBytes_payload_after_header]

theorem getElem?_after (a b : List Call) (n i : Nat) (hn : n = a.length + i) :
    (a ++ b)[n]? = b[i]? := by
  subst hn
  rw [List.getElem?_append_right (by omega)]
  congr 1
  omega

/-- C8 (as amended): when every external call succeeds, the request write of
NPI_SPI_SendSynchData is followed by exactly two further SPI exchanges, one of 3 zero
bytes and one of L zero bytes, L being byte 0 received in the 3-byte exchange; the same
holds for npi_spi_pollData provided the wait it measures between its two clock
readings does not exceed 100 ms. -/
theorem C8_header_then_payload (k : Consts) (w : World) (s : Sys)
    (hk : k.NPI_LNX_SUCCESS ≠ k.NPI_LNX_FAILURE)
    (hall : ∀ n, (w n).ret = k.NPI_LNX_SUCCESS) :
    (spiWrites (NPI_SPI_SendSynchData k w s).2.trace =
        spiWrites s.trace ++
          [readBytes (store s.mem RPC_POS_CMD0
              ((s.mem RPC_POS_CMD0 &&& RPC_SUBSYSTEM_MASK) ||| k.RPC_CMD_SREQ)) 0
              (s.mem 0 + RPC_FRAME_HDR_SZ),
           [0, 0, 0],
           List.replicate ((w (s.trace.length + irqN k +
              (if s.PollLockVar = 0 then 6 else 5))).rx 0 % 256) 0] ∧
      (NPI_SPI_SendSynchData k w s).2.trace[s.trace.length + irqN k +
          (if s.PollLockVar = 0 then 6 else 5)]? = some (.HalSpiWrite 0 [0, 0, 0])) ∧
    (diffPrev k (w (s.trace.length + irqN k + 2)).clock
        (w (s.trace.length + irqN k + 4)).clock ≤ 100 * 1000 →
      spiWrites (npi_spi_pollData k w s).2.trace =
        spiWrites s.trace ++
          [readBytes s.mem 0 (s.mem 0 + RPC_FRAME_HDR_SZ), [0, 0, 0],
           List.replicate ((w (s.trace.length + irqN k + 6)).rx 0 % 256) 0] ∧
      (npi_spi_pollData k w s).2.trace[s.trace.length + irqN k + 6]? =
        some (.HalSpiWrite 0 [0, 0, 0])) := by
  constructor
  · obtain ⟨e1, e2, e3, e4⟩ := sendSynchEntry_spec k w s
    have elen := sendSynchEntry_length k w s
    have key : ∀ S : Sys, S.PollLockVar ≠ 0 →
        S.trace.length + 4 = s.trace.length + irqN k + (if s.PollLockVar = 0 then 6 else 5) →
        spiWrites S.trace = spiWrites s.trace →
        S.mem = store s.mem RPC_POS_CMD0
          ((s.mem RPC_POS_CMD0 &&& RPC_SUBSYSTEM_MASK) ||| k.RPC_CMD_SREQ) →
        spiWrites (sendSynchRest k w S).2.trace =
          spiWrites s.trace ++
            [readBytes (store s.mem RPC_POS_CMD0
                ((s.mem RPC_POS_CMD0 &&& RPC_SUBSYSTEM_MASK) ||| k.RPC_CMD_SREQ)) 0
                (s.mem 0 + RPC_FRAME_HDR_SZ),
             [0, 0, 0],
             List.replicate ((w (s.trace.length + irqN k +
                (if s.PollLockVar = 0 then 6 else 5))).rx 0 % 256) 0] ∧
        (sendSynchRest k w S).2.trace[s.trace.length + irqN k +
            (if s.PollLockVar = 0 then 6 else 5)]? = some (.HalSpiWrite 0 [0, 0, 0]) := by
      intro S hS hlen hsp hmem
      have hp := (sendSynchRest_success_path k w S hS (fun i _ => hall _)).1
      have hm0 : S.mem 0 = s.mem 0 := by rw [hmem]; simp [store_apply, RPC_POS_CMD0]
      rw [← hlen, hp]
      constructor
      · rw [spiWrites_append, spiWrites_append, hsp, spiWrites_irqCalls_unlock, hmem, ← hmem,
          hm0, hmem]
        simp [spiWrites, Call.spiTx]
      · rw [List.append_assoc]
        exact getElem?_append_four _ _ _ _ _ _ _ _ rfl
    by_cases hf : s.PollLockVar = 0
    · rw [if_pos hf] at e1 e2
      have heq : NPI_SPI_SendSynchData k w s =
          sendSynchRest k w (call w .HAL_RNP_MRDY_CLR (sendSynchEntry k w s).2).2 := by
        simp [NPI_SPI_SendSynchData, e1, call, hall]
      rw [heq]
      refine key _ (by simp [call, e2]) (by simp [call, elen, hf]; omega) ?_ (by simp [call, e4])
      simp [call, e3, spiWrites_append, spiWrites_cons, spiWrites_nil, spiWrites_irqCalls_lock,
        Call.spiTx]
    · rw [if_neg hf] at e1 e2
      have heq : NPI_SPI_SendSynchData k w s = sendSynchRest k w (sendSynchEntry k w s).2 := by
        simp [NPI_SPI_SendSynchData, e1, Ne.symm hk]
      rw [heq]
      refine key _ (by rw [e2]; exact hf) (by simp [elen, hf]; omega) ?_ e4
      simp [e3, spiWrites_append, spiWrites_cons, spiWrites_nil, spiWrites_irqCalls_lock,
        Call.spiTx]
  · intro hdiff
    have hp := (pollData_success_path k w s hall hdiff).2
    rw [hp]
    constructor
    · rw [spiWrites_append, spiWrites_append, spiWrites_append, spiWrites_irqCalls_unlock,
        spiWrites_irqCalls_lock]
      simp [spiWrites, Call.spiTx]
    · rw [List.append_assoc, getElem?_after _ _ _ 6 (by simp [irqCalls_length])]
      simp

theorem C8_header_then_payload_witness :
    tiConsts.NPI_LNX_SUCCESS ≠ tiConsts.NPI_LNX_FAILURE ∧
    (∀ n, (okWorld n).ret = tiConsts.NPI_LNX_SUCCESS) ∧
    diffPrev tiConsts (okWorld (pollSys.trace.length + irqN tiConsts + 2)).clock
      (okWorld (pollSys.trace.length + irqN tiConsts + 4)).clock ≤ 100 * 1000 ∧
    spiWrites (NPI_SPI_SendSynchData tiConsts okWorld freeSys).2.trace =
      spiWrites freeSys.trace ++
        [readBytes (store freeSys.mem RPC_POS_CMD0
            ((freeSys.mem RPC_POS_CMD0 &&& RPC_SUBSYSTEM_MASK) ||| tiConsts.RPC_CMD_SREQ)) 0
            (freeSys.mem 0 + RPC_FRAME_HDR_SZ),
         [0, 0, 0],
         List.replicate ((okWorld (freeSys.trace.length + irqN tiConsts +
            (if freeSys.PollLockVar = 0 then 6 else 5))).rx 0 % 256) 0] ∧
    spiWrites (npi_spi_pollData tiConsts okWorld pollSys).2.trace =
      spiWrites pollSys.trace ++
        [readBytes pollSys.mem 0 (pollSys.mem 0 + RPC_FRAME_HDR_SZ), [0, 0, 0],
         List.replicate ((okWorld (pollSys.trace.length + irqN tiConsts + 6)).rx 0 % 256) 0] :=
  ⟨by decide, fun _ => rfl, by decide,
    (C8_header_then_payload tiConsts okWorld freeSys (by decide) (fun _ => rfl)).1.1,
    ((C8_header_then_payload tiConsts okWorld pollSys (by decide) (fun _ => rfl)).2
      (by decide)).1⟩

/-- C8 (counterexample): every external call of npi_spi_pollData returns success, but
200 ms pass between its two clock readings.  The request write is then the only SPI
exchange: the poll returns NPI_LNX_FAILURE with the possible-reset code before the
header exchange. -/
theorem C8_counterexample :
    (slowPollWorld 0).ret = tiConsts.NPI_LNX_SUCCESS ∧
    (slowPollWorld 1).ret = tiConsts.NPI_LNX_SUCCESS ∧
    (slowPollWorld 2).ret = tiConsts.NPI_LNX_SUCCESS ∧
    (slowPollWorld 3).ret = tiConsts.NPI_LNX_SUCCESS ∧
    (slowPollWorld 4).ret = tiConsts.NPI_LNX_SUCCESS ∧
    (npi_spi_pollData tiConsts slowPollWorld pollSys).2.trace =
      [.HAL_RNP_MRDY_CLR, .HalSpiWrite 0 [0, 0, 0], .gettimeofday, .HalGpioWaitSrdySet,
       .gettimeofday] ∧
    spiWrites (npi_spi_pollData tiConsts slowPollWorld pollSys).2.trace = [[0, 0, 0]] ∧
    (npi_spi_pollData tiConsts slowPollWorld pollSys).1 = tiConsts.NPI_LNX_FAILURE ∧
    (npi_spi_pollData tiConsts slowPollWorld pollSys).2.npi_ipc_errno =
      tiConsts.NPI_LNX_ERROR_SPI_POLL_DATA_SRDY_CLR_TIMEOUT_POSSIBLE_RESET := by
  decide

/-! ## C9: the asynchronous send -/

theorem adapterCalls_append (a b : List Call) :
    adapterCalls (a ++ b) = adapterCalls a ++ adapterCalls b := by
  simp [adapterCalls]

theorem adapterCalls_nil : adapterCalls [] = [] := rfl

theorem adapterCalls_cons (c : Call) (t : List Call) :
    adapterCalls (c :: t) = (if c.isAdapter = true then [c] else []) ++ adapterCalls t := by
  cases h : c.isAdapter <;> simp [adapterCalls, List.filter_cons, h]

/-- C9: entered FREE, when the MRDY assertion succeeds the adapter calls of
NPI_SPI_SendAsynchData are exactly: MRDY low, wait SRDY low, one SPI write of the len+3
bytes of the frame tagged AREQ (skipped when the wait failed), MRDY high once.  No
other SPI exchange is made, the result of the first failing step is returned, and the
sentinel is FREE at exit. -/
theorem C9_asynch_send (k : Consts) (w : World) (s : Sys)
    (hareq : k.RPC_CMD_AREQ &&& RPC_CMD_TYPE_MASK = k.RPC_CMD_AREQ)
    (hfree : s.PollLockVar = 0)
    (hclr : (w (s.trace.length + 1 + irqN k)).ret = k.NPI_LNX_SUCCESS) :
    ∃ tx : List Nat,
      (tx.length = s.mem 0 + 3 ∧
        tx[0]? = some (s.mem 0) ∧
        tx[1]? = some ((s.mem 1 &&& RPC_SUBSYSTEM_MASK) ||| k.RPC_CMD_AREQ) ∧
        tx[2]? = some (s.mem 2) ∧
        (∀ i, 3 ≤ i → i < s.mem 0 + 3 → tx[i]? = some (s.mem i))) ∧
      ((w (s.trace.length + 2 + irqN k)).ret ≠ k.NPI_LNX_SUCCESS →
        adapterCalls (NPI_SPI_SendAsynchData k w s).2.trace =
          adapterCalls s.trace ++ [.HAL_RNP_MRDY_CLR, .HalGpioWaitSrdyClr, .HAL_RNP_MRDY_SET] ∧
        (NPI_SPI_SendAsynchData k w s).1 = (w (s.trace.length + 2 + irqN k)).ret) ∧
      ((w (s.trace.length + 2 + irqN k)).ret = k.NPI_LNX_SUCCESS →
        adapterCalls (NPI_SPI_SendAsynchData k w s).2.trace =
          adapterCalls s.trace ++
            [.HAL_RNP_MRDY_CLR, .HalGpioWaitSrdyClr, .HalSpiWrite 0 tx, .HAL_RNP_MRDY_SET] ∧
        ((w (s.trace.length + 3 + irqN k)).ret ≠ k.NPI_LNX_SUCCESS →
          (NPI_SPI_SendAsynchData k w s).1 = (w (s.trace.length + 3 + irqN k)).ret) ∧
        ((w (s.trace.length + 3 + irqN k)).ret = k.NPI_LNX_SUCCESS →
          (NPI_SPI_SendAsynchData k w s).1 = (w (s.trace.length + 4 + irqN k)).ret)) ∧
      (NPI_SPI_SendAsynchData k w s).2.PollLockVar = 0 := by
  simp only [RPC_SUBSYSTEM_MASK, RPC_CMD_TYPE_MASK] at *
  refine ⟨readBytes (store s.mem 1 ((s.mem 1 &&& 31) ||| k.RPC_CMD_AREQ)) 0 (s.mem 0 + 3),
    ⟨readBytes_length _ _ _, ?_, ?_, ?_, ?_⟩, ?_, ?_, ?_⟩
  · rw [readBytes_getElem? _ _ _ _ (by omega)]; simp [store_apply]
  · rw [readBytes_getElem? _ _ _ _ (by omega)]; simp [store_apply, tag_mod _ _ hareq]
  · rw [readBytes_getElem? _ _ _ _ (by omega)]; simp [store_apply]
  · intro i h3 hi
    rw [readBytes_getElem? _ _ _ _ hi]
    have : i ≠ 1 := by omega
    simp [store_apply, this]
  · intro hwait
    cases hq : k.SRDY_INTERRUPT <;>
    simp [irqN, hq] at hclr hwait ⊢ <;>
    simp [NPI_SPI_SendAsynchData, sendAsynchEntry, sendAsynchRest, call, HalSpiWrite,
      sentinelTake, sentinelGive, ifIrq, PollLockVarError, hq, hfree, hclr, hwait, Nat.add_assoc,
      adapterCalls_append, adapterCalls_cons, adapterCalls_nil, Call.isAdapter]
  · intro hwait
    by_cases hx : (w (s.trace.length + 3 + irqN k)).ret = k.NPI_LNX_SUCCESS <;>
    cases hq : k.SRDY_INTERRUPT <;>
    simp [irqN, hq] at hclr hwait hx ⊢ <;>
    simp [NPI_SPI_SendAsynchData, sendAsynchEntry, sendAsynchRest, call, HalSpiWrite,
      sentinelTake, sentinelGive, ifIrq, PollLockVarError, hq, hfree, hclr, hwait, hx,
      Nat.add_assoc, adapterCalls_append, adapterCalls_cons, adapterCalls_nil, Call.isAdapter,
      RPC_POS_CMD0, RPC_SUBSYSTEM_MASK, RPC_FRAME_HDR_SZ, store_apply]
  · by_cases hwait : (w (s.trace.length + 2 + irqN k)).ret = k.NPI_LNX_SUCCESS <;>
    by_cases hx : (w (s.trace.length + 3 + irqN k)).ret = k.NPI_LNX_SUCCESS <;>
    cases hq : k.SRDY_INTERRUPT <;>
    simp [irqN, hq] at hclr hwait hx ⊢ <;>
    simp [NPI_SPI_SendAsynchData, sendAsynchEntry, sendAsynchRest, call, HalSpiWrite,
      sentinelTake, sentinelGive, ifIrq, PollLockVarError, hq, hfree, hclr, hwait, hx,
      Nat.add_assoc]

theorem C9_asynch_send_witness :
    tiConsts.RPC_CMD_AREQ &&& RPC_CMD_TYPE_MASK = tiConsts.RPC_CMD_AREQ ∧
    freeSys.PollLockVar = 0 ∧
    (okWorld (freeSys.trace.length + 1 + irqN tiConsts)).ret = tiConsts.NPI_LNX_SUCCESS ∧
    ∃ tx : List Nat,
      (tx.length = freeSys.mem 0 + 3 ∧
        tx[0]? = some (freeSys.mem 0) ∧
        tx[1]? = some ((freeSys.mem 1 &&& RPC_SUBSYSTEM_MASK) ||| tiConsts.RPC_CMD_AREQ) ∧
        tx[2]? = some (freeSys.mem 2) ∧
        (∀ i, 3 ≤ i → i < freeSys.mem 0 + 3 → tx[i]? = some (freeSys.mem i))) ∧
      ((okWorld (freeSys.trace.length + 2 + irqN tiConsts)).ret ≠ tiConsts.NPI_LNX_SUCCESS →
        adapterCalls (NPI_SPI_SendAsynchData tiConsts okWorld freeSys).2.trace =
          adapterCalls freeSys.trace ++
            [.HAL_RNP_MRDY_CLR, .HalGpioWaitSrdyClr, .HAL_RNP_MRDY_SET] ∧
        (NPI_SPI_SendAsynchData tiConsts okWorld freeSys).1 =
          (okWorld (freeSys.trace.length + 2 + irqN tiConsts)).ret) ∧
      ((okWorld (freeSys.trace.length + 2 + irqN tiConsts)).ret = tiConsts.NPI_LNX_SUCCESS →
        adapterCalls (NPI_SPI_SendAsynchData tiConsts okWorld freeSys).2.trace =
          adapterCalls freeSys.trace ++
            [.HAL_RNP_MRDY_CLR, .HalGpioWaitSrdyClr, .HalSpiWrite 0 tx, .HAL_RNP_MRDY_SET] ∧
        ((okWorld (freeSys.trace.length + 3 + irqN tiConsts)).ret ≠ tiConsts.NPI_LNX_SUCCESS →
          (NPI_SPI_SendAsynchData tiConsts okWorld freeSys).1 =
            (okWorld (freeSys.trace.length + 3 + irqN tiConsts)).ret) ∧
        ((okWorld (freeSys.trace.length + 3 + irqN tiConsts)).ret = tiConsts.NPI_LNX_SUCCESS →
          (NPI_SPI_SendAsynchData tiConsts okWorld freeSys).1 =
            (okWorld (freeSys.trace.length + 4 + irqN tiConsts)).ret)) ∧
      (NPI_SPI_SendAsynchData tiConsts okWorld freeSys).2.PollLockVar = 0 :=
  ⟨by decide, by decide, by decide,
    C9_asynch_send tiConsts okWorld freeSys (by decide) (by decide) (by decide)⟩

/-! ## C10: delivery of an asynchronous message by the poll thread -/

theorem cbackFrames_append (a b : List Call) :
    cbackFrames (a ++ b) = cbackFrames a ++ cbackFrames b := by
  simp [cbackFrames]

theorem cbackFrames_call (w : World) (c : Call) (s : Sys) :
    cbackFrames (call w c s).2.trace = cbackFrames s.trace ++ c.cbackMsg.toList := by
  cases h : c.cbackMsg <;> simp [call, cbackFrames, List.filterMap_append, h]

theorem cbackFrames_HalSpiWrite (w : World) (p o n : Nat) (s : Sys) :
    cbackFrames (HalSpiWrite w p o n s).2.trace = cbackFrames s.trace := by
  simp [HalSpiWrite, cbackFrames_call, Call.cbackMsg]

theorem cbackFrames_ifIrq (k : Consts) (w : World) (c : Call) (hc : c.cbackMsg = none)
    (s : Sys) :
    cbackFrames (ifIrq k (fun t => (call w c t).2) s).trace = cbackFrames s.trace := by
  unfold ifIrq
  split
  · simp [cbackFrames_call, hc]
  · rfl

theorem sentinelTake_trace (k : Consts) (r : Int) (s : Sys) :
    (sentinelTake k r s).2.trace = s.trace := by
  unfold sentinelTake PollLockVarError
  split <;> rfl

theorem cbackFrames_ite (c : Prop) [Decidable c] (a b : Int × Sys) :
    cbackFrames (if c then a else b).2.trace =
      if c then cbackFrames a.2.trace else cbackFrames b.2.trace := by
  split <;> rfl

theorem cbackFrames_pollDataRest (k : Consts) (w : World) (ret : Int) (s : Sys) :
    cbackFrames (pollDataRest k w ret s).2.trace = cbackFrames s.trace := by
  simp [pollDataRest, cbackFrames_ite, cbackFrames_call, cbackFrames_HalSpiWrite,
    cbackFrames_ifIrq, Call.cbackMsg]

theorem cbackFrames_pollDataSend (k : Consts) (w : World) (s : Sys) :
    cbackFrames (pollDataSend k w s).2.trace = cbackFrames s.trace := by
  simp [pollDataSend, gettimeofday, cbackFrames_ite, cbackFrames_pollDataRest, cbackFrames_call,
    cbackFrames_HalSpiWrite, Call.cbackMsg]

/-- The poll transaction calls no callback. -/
theorem cbackFrames_pollData (k : Consts) (w : World) (s : Sys) :
    cbackFrames (npi_spi_pollData k w s).2.trace = cbackFrames s.trace := by
  simp [npi_spi_pollData, cbackFrames_ite, cbackFrames_pollDataSend, cbackFrames_call,
    cbackFrames_ifIrq, Call.cbackMsg]

/-- The start of an iteration calls no callback. -/
theorem cbackFrames_pollIterEntry (k : Consts) (w : World) (l : PollLocals) (s : Sys) :
    cbackFrames (pollIterEntry k w l s).2.trace = cbackFrames s.trace := by
  unfold pollIterEntry
  split <;> simp [cbackFrames_call, sentinelTake_trace, Call.cbackMsg]

theorem cbackFrames_pollTransaction (k : Consts) (w : World) (s : Sys) :
    cbackFrames (pollTransaction k w s).2.trace = cbackFrames s.trace := by
  unfold pollTransaction
  rw [cbackFrames_pollData]

theorem sentinelGive_mem (k : Consts) (r : Int) (s : Sys) :
    (sentinelGive k r s).2.mem = s.mem := by
  unfold sentinelGive PollLockVarError
  split <;> rfl

/-- The release at the end of a polling iteration calls no callback. -/
theorem cbackFrames_pollUnlockAfterPoll (k : Consts) (w : World) (l : PollLocals) (s : Sys) :
    cbackFrames (pollUnlockAfterPoll k w l s).2.trace = cbackFrames s.trace := by
  unfold pollUnlockAfterPoll
  simp only []
  split <;> simp [cbackFrames_call, sentinelGive_trace, Call.cbackMsg]

/-- The idle wait calls no callback. -/
theorem cbackFrames_pollIdleWait (w : World) (l : PollLocals) (s : Sys) :
    cbackFrames (pollIdleWait w l s).trace = cbackFrames s.trace := by
  unfold pollIdleWait
  split
  · simp [cbackFrames_call, gettimeofday, Call.cbackMsg]
  · rfl

/-- After a successful poll transaction the callback is called exactly when the type
field of the received command byte is AREQ, on the frame with that byte masked. -/
theorem cbackFrames_pollDeliver (k : Consts) (w : World) (s : Sys) :
    cbackFrames (pollDeliver k w k.NPI_LNX_SUCCESS s).2.trace =
      cbackFrames s.trace ++
        (if s.mem RPC_POS_CMD0 &&& RPC_CMD_TYPE_MASK = k.RPC_CMD_AREQ
          then [frameOf (store s.mem RPC_POS_CMD0 (s.mem RPC_POS_CMD0 &&& RPC_SUBSYSTEM_MASK))]
          else []) := by
  unfold pollDeliver
  by_cases ht : s.mem RPC_POS_CMD0 &&& RPC_CMD_TYPE_MASK = k.RPC_CMD_AREQ
  · simp only [if_true, if_pos ht]
    split <;> simp [cbackFrames_call, Call.cbackMsg]
  · simp [ht]

/-- C10: in an iteration of the poll thread that polls the device and whose poll
transaction returns success, the callback is called after the transaction exactly when
the type field (mask 0xE0) of the received command byte is AREQ; the frame it is handed
has the received length byte, extended byte and payload, and the received command
byte masked with 0x1F, so that its type bits are zero. -/
theorem C10_callback_delivery (k : Consts) (w : World) (l : PollLocals) (s : Sys)
    (hpolls : pollsDevice k (pollIterEntry k w l s).1)
    (hok : (pollTransaction k w (pollIterEntry k w l s).2).1 = k.NPI_LNX_SUCCESS) :
    ∃ frame : List Nat,
      cbackFrames (pollIteration k w l s).2.trace =
        cbackFrames s.trace ++
          (if (pollTransaction k w (pollIterEntry k w l s).2).2.mem RPC_POS_CMD0
              &&& RPC_CMD_TYPE_MASK = k.RPC_CMD_AREQ then [frame] else []) ∧
      frame.length = 3 + (pollTransaction k w (pollIterEntry k w l s).2).2.mem 0 ∧
      frame[0]? = some ((pollTransaction k w (pollIterEntry k w l s).2).2.mem 0) ∧
      frame[1]? = some ((pollTransaction k w (pollIterEntry k w l s).2).2.mem 1
        &&& RPC_SUBSYSTEM_MASK) ∧
      ((pollTransaction k w (pollIterEntry k w l s).2).2.mem 1 &&& RPC_SUBSYSTEM_MASK)
        &&& RPC_CMD_TYPE_MASK = 0 ∧
      frame[2]? = some ((pollTransaction k w (pollIterEntry k w l s).2).2.mem 2) ∧
      (∀ i, 3 ≤ i → i < 3 + (pollTransaction k w (pollIterEntry k w l s).2).2.mem 0 →
        frame[i]? = some ((pollTransaction k w (pollIterEntry k w l s).2).2.mem i)) := by
  have hpre : cbackFrames (pollTransaction k w (pollIterEntry k w l s).2).2.trace =
      cbackFrames s.trace := by
    rw [cbackFrames_pollTransaction, cbackFrames_pollIterEntry]
  rw [← hpre]
  generalize hr : pollTransaction k w (pollIterEntry k w l s).2 = r at hok ⊢
  have htr : cbackFrames (pollIteration k w l s).2.trace =
      cbackFrames (pollDeliver k w r.1 r.2).2.trace := by
    unfold pollIteration
    simp only [if_pos hpolls, pollBranch, hr]
    split
    · simp [cbackFrames_call, cbackFrames_pollUnlockAfterPoll, Call.cbackMsg]
    · simp [cbackFrames_pollIdleWait, cbackFrames_pollUnlockAfterPoll]
  rw [htr, hok, cbackFrames_pollDeliver]
  simp only [RPC_SUBSYSTEM_MASK, RPC_CMD_TYPE_MASK, RPC_POS_CMD0, frameOf, RPC_FRAME_HDR_SZ]
  have hm0 : store r.2.mem 1 (r.2.mem 1 &&& 31) 0 = r.2.mem 0 := by simp [store_apply]
  refine ⟨readBytes (store r.2.mem 1 (r.2.mem 1 &&& 31)) 0 (3 + r.2.mem 0), ?_, ?_, ?_, ?_,
    and31_and224 _, ?_, ?_⟩
  · rw [hm0]
  · exact readBytes_length _ _ _
  · rw [readBytes_getElem? _ _ _ _ (by omega)]; simp [store_apply]
  · rw [readBytes_getElem? _ _ _ _ (by omega)]; simp [store_apply, and31_mod]
  · rw [readBytes_getElem? _ _ _ _ (by omega)]; simp [store_apply]
  · intro i h3 hi
    rw [readBytes_getElem? _ _ _ _ hi]
    have : i ≠ 1 := by omega
    simp [store_apply, this]

theorem C10_callback_delivery_witness :
    pollsDevice tiConsts (pollIterEntry tiConsts areqWorld pollLocals0 freeSys).1 ∧
    (pollTransaction tiConsts areqWorld
      (pollIterEntry tiConsts areqWorld pollLocals0 freeSys).2).1 = tiConsts.NPI_LNX_SUCCESS ∧
    cbackFrames (pollIteration tiConsts areqWorld pollLocals0 freeSys).2.trace = [[1, 5, 9, 1]] ∧
    ∃ frame : List Nat,
      cbackFrames (pollIteration tiConsts areqWorld pollLocals0 freeSys).2.trace =
        cbackFrames freeSys.trace ++
          (if (pollTransaction tiConsts areqWorld
              (pollIterEntry tiConsts areqWorld pollLocals0 freeSys).2).2.mem RPC_POS_CMD0
              &&& RPC_CMD_TYPE_MASK = tiConsts.RPC_CMD_AREQ then [frame] else []) ∧
      frame.length = 3 + (pollTransaction tiConsts areqWorld
        (pollIterEntry tiConsts areqWorld pollLocals0 freeSys).2).2.mem 0 ∧
      frame[0]? = some ((pollTransaction tiConsts areqWorld
        (pollIterEntry tiConsts areqWorld pollLocals0 freeSys).2).2.mem 0) ∧
      frame[1]? = some ((pollTransaction tiConsts areqWorld
        (pollIterEntry tiConsts areqWorld pollLocals0 freeSys).2).2.mem 1
        &&& RPC_SUBSYSTEM_MASK) ∧
      ((pollTransaction tiConsts areqWorld
        (pollIterEntry tiConsts areqWorld pollLocals0 freeSys).2).2.mem 1 &&& RPC_SUBSYSTEM_MASK)
        &&& RPC_CMD_TYPE_MASK = 0 ∧
      frame[2]? = some ((pollTransaction tiConsts areqWorld
        (pollIterEntry tiConsts areqWorld pollLocals0 freeSys).2).2.mem 2) ∧
      (∀ i, 3 ≤ i → i < 3 + (pollTransaction tiConsts areqWorld
          (pollIterEntry tiConsts areqWorld pollLocals0 freeSys).2).2.mem 0 →
        frame[i]? = some ((pollTransaction tiConsts areqWorld
          (pollIterEntry tiConsts areqWorld pollLocals0 freeSys).2).2.mem i)) :=
  ⟨by decide, by decide, by decide,
    C10_callback_delivery tiConsts areqWorld pollLocals0 freeSys (by decide) (by decide)⟩

/-! ## C11: when an iteration of the poll thread sets the termination flag -/

/-- Support for C12: when an adapter initialisation stage fails, NPI_SPI_OpenDevice
returns the value that stage returned right after the failing call, having made no
close call, and with npiOpenFlag left at TRUE. -/
theorem open_init_failure_returns_early (k : Consts) (w : World) (s : Sys)
    (hclosed : s.npiOpenFlag = 0) :
    ((w s.trace.length).ret ≠ k.NPI_LNX_SUCCESS →
      ∃ r, NPI_SPI_OpenDevice k w s = some r ∧
        r.1 = (w s.trace.length).ret ∧
        r.2.trace = s.trace ++ [.HalSpiInit] ∧
        r.2.npiOpenFlag = TRUE) ∧
    ((w s.trace.length).ret = k.NPI_LNX_SUCCESS →
      (w (s.trace.length + 1)).ret = k.NPI_LNX_FAILURE →
      ∃ r, NPI_SPI_OpenDevice k w s = some r ∧
        r.1 = k.NPI_LNX_FAILURE ∧
        r.2.trace = s.trace ++ [.HalSpiInit, .HalGpioSrdyInit] ∧
        r.2.npiOpenFlag = TRUE) ∧
    ((w s.trace.length).ret = k.NPI_LNX_SUCCESS →
      (w (s.trace.length + 1)).ret ≠ k.NPI_LNX_FAILURE →
      (w (s.trace.length + 2)).ret = k.NPI_LNX_FAILURE →
      ∃ r, NPI_SPI_OpenDevice k w s = some r ∧
        r.1 = k.NPI_LNX_FAILURE ∧
        r.2.trace = s.trace ++ [.HalSpiInit, .HalGpioSrdyInit, .HalGpioMrdyInit] ∧
        r.2.npiOpenFlag = TRUE) ∧
    ((w s.trace.length).ret = k.NPI_LNX_SUCCESS →
      (w (s.trace.length + 1)).ret ≠ k.NPI_LNX_FAILURE →
      (w (s.trace.length + 2)).ret ≠ k.NPI_LNX_FAILURE →
      (w (s.trace.length + 3)).ret = k.NPI_LNX_FAILURE →
      ∃ r, NPI_SPI_OpenDevice k w s = some r ∧
        r.1 = k.NPI_LNX_FAILURE ∧
        r.2.trace =
          s.trace ++ [.HalSpiInit, .HalGpioSrdyInit, .HalGpioMrdyInit, .HalGpioResetInit] ∧
        r.2.npiOpenFlag = TRUE) := by
  refine ⟨?_, ?_, ?_, ?_⟩
  · intro h0
    simp [NPI_SPI_OpenDevice, call, hclosed, h0]
  · intro h0 h1
    simp [NPI_SPI_OpenDevice, call, hclosed, h0, h1]
  · intro h0 h1 h2
    have h1' : ¬ k.NPI_LNX_FAILURE = (w (s.trace.length + 1)).ret := fun e => h1 e.symm
    simp [NPI_SPI_OpenDevice, call, hclosed, h0, h1', h2, Nat.add_assoc]
  · intro h0 h1 h2 h3
    have h1' : ¬ k.NPI_LNX_FAILURE = (w (s.trace.length + 1)).ret := fun e => h1 e.symm
    have h2' : ¬ k.NPI_LNX_FAILURE = (w (s.trace.length + 2)).ret := fun e => h2 e.symm
    simp [NPI_SPI_OpenDevice, call, hclosed, h0, h1', h2', h3, Nat.add_assoc]

/-- C12 (code defect, evaluated at the failing input): the session is closed, HalSpiInit
succeeds and HalGpioSrdyInit returns NPI_LNX_FAILURE.  NPI_SPI_OpenDevice returns that
failure without running the later stages, but it never calls HalSpiClose and leaves
npiOpenFlag at TRUE, so that the next Open is rejected as already open. -/
theorem C12_open_failure_leaves_session_open :
    closedSys.npiOpenFlag = 0 ∧
    (srdyInitFails 0).ret = tiConsts.NPI_LNX_SUCCESS ∧
    (srdyInitFails 1).ret = tiConsts.NPI_LNX_FAILURE ∧
    ∃ r, NPI_SPI_OpenDevice tiConsts srdyInitFails closedSys = some r ∧
      r.1 = tiConsts.NPI_LNX_FAILURE ∧
      r.2.trace = [.HalSpiInit, .HalGpioSrdyInit] ∧
      r.2.npiOpenFlag = TRUE ∧
      ∃ r2, NPI_SPI_OpenDevice tiConsts okWorld r.2 = some r2 ∧
        r2.1 = tiConsts.NPI_LNX_FAILURE ∧
        r2.2.npi_ipc_errno = tiConsts.NPI_LNX_ERROR_SPI_OPEN_ALREADY_OPEN :=
  ⟨by decide, by decide, by decide, _, rfl, by decide, by decide, by decide,
    _, rfl, by decide, by decide⟩

/-! ## C13: the order in which Close closes the adapters -/

/-- The calls npi_termpoll makes before the join leave a parked poll thread parked and
an unparked one unparked. -/
theorem pollThreadParked_before_join (k : Consts) (w : World) (s : Sys) :
    pollThreadParked w
      (call w (.pthread_mutex_destroy .npi_poll_mutex)
        (ifIrq k (fun t => (call w (.pthread_mutex_destroy .npiSrdyLock) t).2)
          (if k.SRDY_INTERRUPT = true
            then (call w (.pthread_cond_signal .npi_srdy_H2L_poll)
              { s with npi_poll_terminate := 1 }).2
            else (call w (.pthread_cond_signal .npi_poll_cond)
              { s with npi_poll_terminate := 1 }).2))).2.trace =
      pollThreadParked w s.trace := by
  cases hq : k.SRDY_INTERRUPT <;>
  simp [pollThreadParked, call, ifIrq, hq, List.foldl_append, parkStep]

/-- C13 (as amended): when the join of the poll thread returns (the poll thread is not
parked on npiPollLock), NPI_SPI_CloseDevice returns.  It first sets the termination
flag, then wakes and joins the receiver thread(s), then closes the adapters in the same
order in which Open initialised them (SPI, SRDY GPIO, MRDY GPIO, RESET GPIO), and clears
the open flag as its last step: at each of its external calls the termination flag is
already 1 and the open flag (like the sentinel) still has the value it had at entry,
and on return the open flag is FALSE. -/
theorem C13_close_order (k : Consts) (w : World) (s : Sys)
    (hjoin : pollThreadParked w s.trace = false) :
    ∃ c, NPI_SPI_CloseDevice k w s = some c ∧
      c.trace =
        s.trace ++
          [.pthread_cond_signal (if k.SRDY_INTERRUPT = true then .npi_srdy_H2L_poll
            else .npi_poll_cond)] ++
          irqCalls k (.pthread_mutex_destroy .npiSrdyLock) ++
          [.pthread_mutex_destroy .npi_poll_mutex, .pthread_join .npiPollThread] ++
          irqCalls k (.pthread_join .npiEventThread) ++
          [.HalSpiClose, .HalGpioSrdyClose, .HalGpioMrdyClose, .HalGpioResetClose] ∧
      c.hist = s.hist ++
        List.replicate (7 + 2 * irqN k) ⟨s.npiOpenFlag, 1, s.PollLockVar⟩ ∧
      c.npiOpenFlag = FALSE ∧
      c.npi_poll_terminate = 1 := by
  have hp := pollThreadParked_before_join k w s
  rw [hjoin] at hp
  cases hq : k.SRDY_INTERRUPT <;>
  simp [hq] at hp <;>
  simp [NPI_SPI_CloseDevice, npi_termpoll, closeDeviceRest, hq, hp] <;>
  simp [call, ifIrq, irqCalls, irqN, hq, Sys.snap, List.replicate]

/-- C13 at a sample: a session without a parked poll thread, every call succeeding. -/
theorem C13_close_order_witness :
    pollThreadParked okWorld freeSys.trace = false ∧
    ∃ c, NPI_SPI_CloseDevice tiConsts okWorld freeSys = some c ∧
      c.trace =
        [.pthread_cond_signal .npi_poll_cond, .pthread_mutex_destroy .npi_poll_mutex,
         .pthread_join .npiPollThread,
         .HalSpiClose, .HalGpioSrdyClose, .HalGpioMrdyClose, .HalGpioResetClose] ∧
      c.hist = List.replicate 7 ⟨1, 1, 0⟩ ∧
      c.npiOpenFlag = FALSE :=
  ⟨rfl, (C13_close_order tiConsts okWorld freeSys rfl).imp
    fun _ h => ⟨h.1, by rw [h.2.1]; rfl, by rw [h.2.2.1]; rfl, h.2.2.2.1⟩⟩

/-- C13 (counterexample): Open initialises SPI, SRDY, MRDY, RESET, and Close closes SPI,
SRDY, MRDY, RESET, which is not the reverse order RESET, MRDY, SRDY, SPI. -/
theorem C13_counterexample :
    (∃ r, NPI_SPI_OpenDevice tiConsts okWorld closedSys = some r ∧
      adapterCalls r.2.trace =
        [.HalSpiInit, .HalGpioSrdyInit, .HalGpioMrdyInit, .HalGpioResetInit]) ∧
    ∃ c, NPI_SPI_CloseDevice tiConsts okWorld freeSys = some c ∧
      adapterCalls c.trace =
        [.HalSpiClose, .HalGpioSrdyClose, .HalGpioMrdyClose, .HalGpioResetClose] ∧
      adapterCalls c.trace ≠
        [.HalGpioResetClose, .HalGpioMrdyClose, .HalGpioSrdyClose, .HalSpiClose] :=
  ⟨⟨_, rfl, by decide⟩, _, rfl, by decide, by decide⟩

/-! ## C14: Open followed by Close -/

/-- The scan of a trace has counted its calls. -/
theorem parkScan_index (w : World) (t : List Call) :
    (t.foldl (parkStep w) (0, false, false)).1 = t.length := by
  induction t using List.reverseRecOn with
  | nil => rfl
  | append_singleton t c ih =>
    rw [List.foldl_append, List.length_append]
    simp only [List.foldl_cons, List.foldl_nil, List.length_singleton]
    rw [← ih]
    unfold parkStep
    split <;> rfl

/-- Support for C14: with status codes 0 for success and non-zero for failure, when
every external call returns 0 an Open from a closed session with the sentinel FREE
succeeds and leaves npiPollLock locked, the sentinel HELD and the poll thread, created
after the lock was taken, parked on npiPollLock; the Close that follows does not
return from pthread_join. -/
theorem close_blocks_after_open (k : Consts) (w : World) (s : Sys)
    (hs : k.NPI_LNX_SUCCESS = 0) (hf : k.NPI_LNX_FAILURE ≠ 0) (hall : ∀ n, (w n).ret = 0)
    (hclosed : s.npiOpenFlag = 0) (hfree : s.PollLockVar = 0) :
    ∃ r, NPI_SPI_OpenDevice k w s = some r ∧
      r.1 = k.NPI_LNX_SUCCESS ∧
      r.2.PollLockVar = 1 ∧
      pollThreadParked w r.2.trace = true ∧
      NPI_SPI_CloseDevice k w r.2 = none := by
  have hopen : ∃ r, NPI_SPI_OpenDevice k w s = some r ∧ r.1 = k.NPI_LNX_SUCCESS ∧
      r.2.PollLockVar = 1 ∧ pollThreadParked w r.2.trace = true := by
    have hidx := parkScan_index w s.trace
    cases hq : k.SRDY_INTERRUPT <;>
    simp [NPI_SPI_OpenDevice, openDeviceRest, npi_initsyncres, npi_initThreads, call,
      sentinelTake, hq, hs, hf, hall, hclosed, hfree, pollThreadParked, List.foldl_append,
      parkStep, hidx]
  obtain ⟨r, hr, h1, h2, h3⟩ := hopen
  refine ⟨r, hr, h1, h2, h3, ?_⟩
  have hp := pollThreadParked_before_join k w r.2
  rw [h3] at hp
  cases hq : k.SRDY_INTERRUPT <;>
  simp [hq] at hp <;>
  simp [NPI_SPI_CloseDevice, npi_termpoll, hq, hp]

/-- C14 (code defect, evaluated at the failing input): every external call succeeds.
Open succeeds; it has locked npiPollLock and set the sentinel before it created the
poll thread, which therefore is parked on npiPollLock.  The Close that follows sets
the termination flag and then waits in pthread_join for a thread that cannot end:
it does not return, so the session is never restored and no second Open is reached. -/
theorem C14_close_after_open_blocks :
    closedSys.npiOpenFlag = 0 ∧ closedSys.PollLockVar = 0 ∧
    ∃ r, NPI_SPI_OpenDevice tiConsts okWorld closedSys = some r ∧
      r.1 = tiConsts.NPI_LNX_SUCCESS ∧
      r.2.trace =
        [.HalSpiInit, .HalGpioSrdyInit, .HalGpioMrdyInit, .HalGpioResetInit,
         .pthread_mutex_init .npiPollLock, .pthread_mutex_init .npi_poll_mutex,
         .pthread_cond_init .npi_poll_cond, .pthread_mutex_lock .npiPollLock,
         .pthread_create .npiPollThread] ∧
      r.2.npiOpenFlag = 1 ∧
      r.2.PollLockVar = 1 ∧
      unlocks r.2.trace = 0 ∧
      pollThreadParked okWorld r.2.trace = true ∧
      NPI_SPI_CloseDevice tiConsts okWorld r.2 = none :=
  ⟨by decide, by decide, _, rfl, by decide, by decide, by decide, by decide, by decide,
    by decide, rfl⟩

/-! ## C15: the synchronisation handshake -/

theorem adapterCalls_irqCalls_lock (k : Consts) (m : Mutex) :
    adapterCalls (irqCalls k (.pthread_mutex_lock m)) = [] := by
  cases hq : k.SRDY_INTERRUPT <;> simp [irqCalls, adapterCalls, hq, Call.isAdapter]

theorem adapterCalls_irqCalls_unlock (k : Consts) (m : Mutex) :
    adapterCalls (irqCalls k (.pthread_mutex_unlock m)) = [] := by
  cases hq : k.SRDY_INTERRUPT <;> simp [irqCalls, adapterCalls, hq, Call.isAdapter]

/-- C15 (as amended): entered with the sentinel HELD, when the four adapter calls
before the final check succeed, NPI_SPI_SynchSlave issues its adapter operations in
exactly this order: wait SRDY low, drive MRDY low, wait SRDY high, drive MRDY high,
check that SRDY is high.  At each of these calls the sentinel (like the other flags)
still has its entry value; it is FREE at the unlock of npiPollLock, which follows the
last adapter operation.  The value returned is the value HalGpioSrdyCheck(1) returned,
whatever it is. -/
theorem C15_synch_slave (k : Consts) (w : World) (s : Sys)
    (hheld : s.PollLockVar ≠ 0)
    (h0 : (w (s.trace.length + irqN k)).ret = k.NPI_LNX_SUCCESS)
    (h1 : (w (s.trace.length + irqN k + 1)).ret = k.NPI_LNX_SUCCESS)
    (h2 : (w (s.trace.length + irqN k + 2)).ret = k.NPI_LNX_SUCCESS)
    (h3 : (w (s.trace.length + irqN k + 3)).ret = k.NPI_LNX_SUCCESS) :
    adapterCalls (NPI_SPI_SynchSlave k w s).2.trace =
      adapterCalls s.trace ++
        [.HalGpioWaitSrdyClr, .HAL_RNP_MRDY_CLR, .HalGpioWaitSrdySet, .HAL_RNP_MRDY_SET,
         .HalGpioSrdyCheck 1] ∧
    (NPI_SPI_SynchSlave k w s).2.trace =
      s.trace ++ irqCalls k (.pthread_mutex_lock .npiSrdyLock) ++
        [.HalGpioWaitSrdyClr, .HAL_RNP_MRDY_CLR, .HalGpioWaitSrdySet, .HAL_RNP_MRDY_SET,
         .HalGpioSrdyCheck 1, .pthread_mutex_unlock .npiPollLock] ++
        irqCalls k (.pthread_mutex_unlock .npiSrdyLock) ∧
    (NPI_SPI_SynchSlave k w s).2.hist =
      s.hist ++ List.replicate (irqN k + 5) s.snap ++
        List.replicate (1 + irqN k) { s.snap with PollLockVar := 0 } ∧
    (NPI_SPI_SynchSlave k w s).2.PollLockVar = 0 ∧
    (NPI_SPI_SynchSlave k w s).1 = (w (s.trace.length + irqN k + 4)).ret := by
  cases hq : k.SRDY_INTERRUPT <;>
  simp [irqN, hq] at h0 h1 h2 h3 ⊢ <;>
  simp [NPI_SPI_SynchSlave, synchSlaveHandshake, synchSlaveRest, call, sentinelGive, ifIrq,
    irqCalls, hq, hheld, h0, h1, h2, h3, adapterCalls_append, adapterCalls_cons,
    adapterCalls_nil, Call.isAdapter, Nat.add_assoc, Sys.snap, List.replicate]

/-- C15 at a sample: the polling build, the final check answering TRUE (SRDY high). -/
theorem C15_synch_slave_witness :
    heldSys.PollLockVar ≠ 0 ∧
    (∀ n, n < 4 → (srdyHighWorld n).ret = tiConsts.NPI_LNX_SUCCESS) ∧
    adapterCalls (NPI_SPI_SynchSlave tiConsts srdyHighWorld heldSys).2.trace =
      adapterCalls heldSys.trace ++
        [.HalGpioWaitSrdyClr, .HAL_RNP_MRDY_CLR, .HalGpioWaitSrdySet, .HAL_RNP_MRDY_SET,
         .HalGpioSrdyCheck 1] ∧
    (NPI_SPI_SynchSlave tiConsts srdyHighWorld heldSys).2.hist =
      heldSys.hist ++ List.replicate (irqN tiConsts + 5) heldSys.snap ++
        List.replicate (1 + irqN tiConsts) { heldSys.snap with PollLockVar := 0 } ∧
    (NPI_SPI_SynchSlave tiConsts srdyHighWorld heldSys).2.PollLockVar = 0 ∧
    (NPI_SPI_SynchSlave tiConsts srdyHighWorld heldSys).1 =
      (srdyHighWorld (heldSys.trace.length + irqN tiConsts + 4)).ret :=
  ⟨by decide, by decide,
    (C15_synch_slave tiConsts srdyHighWorld heldSys (by decide) (by decide) (by decide)
      (by decide) (by decide)).1,
    (C15_synch_slave tiConsts srdyHighWorld heldSys (by decide) (by decide) (by decide)
      (by decide) (by decide)).2.2.1,
    (C15_synch_slave tiConsts srdyHighWorld heldSys (by decide) (by decide) (by decide)
      (by decide) (by decide)).2.2.2.1,
    (C15_synch_slave tiConsts srdyHighWorld heldSys (by decide) (by decide) (by decide)
      (by decide) (by decide)).2.2.2.2⟩

/-- C15 (counterexample): the sentinel is HELD and every external call succeeds.  MRDY is
driven high only after the wait for SRDY high, so the adapter operations are not in the
order wait SRDY low, MRDY low, MRDY high, wait SRDY high, check.  And when the final
check answers TRUE, as it does for SRDY high, the function returns 1, which is not
NPI_LNX_SUCCESS. -/
theorem C15_counterexample :
    heldSys.PollLockVar = 1 ∧
    (NPI_SPI_SynchSlave tiConsts okWorld heldSys).1 = tiConsts.NPI_LNX_SUCCESS ∧
    (NPI_SPI_SynchSlave tiConsts okWorld heldSys).2.trace =
      [.HalGpioWaitSrdyClr, .HAL_RNP_MRDY_CLR, .HalGpioWaitSrdySet, .HAL_RNP_MRDY_SET,
       .HalGpioSrdyCheck 1, .pthread_mutex_unlock .npiPollLock] ∧
    adapterCalls (NPI_SPI_SynchSlave tiConsts okWorld heldSys).2.trace ≠
      [.HalGpioWaitSrdyClr, .HAL_RNP_MRDY_CLR, .HAL_RNP_MRDY_SET, .HalGpioWaitSrdySet,
       .HalGpioSrdyCheck 1] ∧
    (srdyHighWorld 4).ret = TRUE ∧
    (NPI_SPI_SynchSlave tiConsts srdyHighWorld heldSys).2.trace =
      [.HalGpioWaitSrdyClr, .HAL_RNP_MRDY_CLR, .HalGpioWaitSrdySet, .HAL_RNP_MRDY_SET,
       .HalGpioSrdyCheck 1, .pthread_mutex_unlock .npiPollLock] ∧
    (NPI_SPI_SynchSlave tiConsts srdyHighWorld heldSys).1 = 1 ∧
    (NPI_SPI_SynchSlave tiConsts srdyHighWorld heldSys).1 ≠ tiConsts.NPI_LNX_SUCCESS := by
  decide

/-! ## C16: the elapsed time and the reset check of the poll transaction -/

/-- A value in the range of a long int is not changed by the reduction to that range. -/
theorem wrapLong_eq (k : Consts) (x : Int) (hB : 1 ≤ k.LONG_BIT)
    (h1 : -(2 : Int) ^ (k.LONG_BIT - 1) ≤ x) (h2 : x < (2 : Int) ^ (k.LONG_BIT - 1)) :
    wrapLong k x = x := by
  unfold wrapLong
  have hpow : ((2 ^ k.LONG_BIT : Nat) : Int) = 2 * (2 : Int) ^ (k.LONG_BIT - 1) := by
    obtain ⟨n, hn⟩ : ∃ n, k.LONG_BIT = n + 1 := ⟨k.LONG_BIT - 1, by omega⟩
    rw [hn]
    push_cast
    simp [pow_succ, mul_comm]
  have hhalf : ((2 ^ (k.LONG_BIT - 1) : Nat) : Int) = (2 : Int) ^ (k.LONG_BIT - 1) := by
    push_cast
    rfl
  rw [hpow, hhalf]
  generalize (2 : Int) ^ (k.LONG_BIT - 1) = M at h1 h2 ⊢
  rw [Int.emod_eq_of_lt (by omega) (by omega)]
  omega

/-- Within the range in which the long arithmetic does not overflow, both branches of
the computation of diffPrev give the difference of the two time stamps in
microseconds. -/
theorem diffPrev_eq (k : Consts) (t1 t2 : Timeval)
    (h1 : 0 ≤ t1.tv_usec ∧ t1.tv_usec ≤ 999999) (h2 : 0 ≤ t2.tv_usec ∧ t2.tv_usec ≤ 999999)
    (hfw : (t2.tv_sec - t1.tv_sec) * 1000000 + 2000000 ≤ (2 : Int) ^ (k.LONG_BIT - 1))
    (hbw : (t1.tv_sec - t2.tv_sec) * 1000000 + 2000000 ≤ (2 : Int) ^ (k.LONG_BIT - 1)) :
    diffPrev k t1 t2 = (t2.tv_sec - t1.tv_sec) * 1000000 + (t2.tv_usec - t1.tv_usec) := by
  have hB : 1 ≤ k.LONG_BIT := by
    by_contra hn
    have h0 : k.LONG_BIT = 0 := by omega
    rw [h0] at hfw hbw
    simp at hfw hbw
    omega
  have w := fun x a b => wrapLong_eq k x hB a b
  generalize (2 : Int) ^ (k.LONG_BIT - 1) = M at hfw hbw w
  unfold diffPrev
  split
  · rw [w (t2.tv_sec - t1.tv_sec) (by omega) (by omega),
      w (t2.tv_usec - t1.tv_usec) (by omega) (by omega),
      w ((t2.tv_sec - t1.tv_sec) * 1000000) (by omega) (by omega),
      w _ (by omega) (by omega)]
    ring
  · rw [w (t2.tv_sec - t1.tv_sec) (by omega) (by omega),
      w (t2.tv_usec + 1000000) (by omega) (by omega),
      w (t2.tv_usec + 1000000 - t1.tv_usec) (by omega) (by omega),
      w (t2.tv_sec - t1.tv_sec - 1) (by omega) (by omega),
      w ((t2.tv_sec - t1.tv_sec - 1) * 1000000) (by omega) (by omega),
      w _ (by omega) (by omega)]
    ring

/-- After the reset check the poll transaction always drives MRDY high next. -/
theorem pollDataRest_starts_with_mrdy_set (k : Consts) (w : World) (ret : Int) (s : Sys) :
    s.trace ++ [.HAL_RNP_MRDY_SET] <+: (pollDataRest k w ret s).2.trace := by
  simp only [pollDataRest, HalSpiWrite, call, ifIrq]
  split_ifs <;> simp [List.prefix_append_right_inj, List.cons_prefix_cons]

/-- After the reset check the poll transaction does not write npi_ipc_errno. -/
theorem errno_pollDataRest (k : Consts) (w : World) (he : ∀ n, (w n).errno = none)
    (ret : Int) (s : Sys) :
    (pollDataRest k w ret s).2.npi_ipc_errno = s.npi_ipc_errno := by
  simp [pollDataRest, errno_ite, errno_call w he, errno_HalSpiWrite w he, errno_ifIrq k w he]

/-- The poll transaction after a successful MRDY assertion. -/
theorem pollData_after_clr (k : Consts) (w : World) (s : Sys)
    (hclr : (w (s.trace.length + irqN k)).ret = k.NPI_LNX_SUCCESS) :
    npi_spi_pollData k w s =
      pollDataSend k w (call w .HAL_RNP_MRDY_CLR
        (ifIrq k (fun t => (call w (.pthread_mutex_lock .npiSrdyLock) t).2) s)).2 := by
  cases hq : k.SRDY_INTERRUPT <;> simp [irqN, hq] at hclr <;>
    simp [npi_spi_pollData, call, ifIrq, hq, hclr]

/-- The path of the poll transaction on which the measured wait does not exceed 100 ms:
it does not write npi_ipc_errno, and it returns the first non-success value among the
request write, the wait for SRDY high, the MRDY release, the header exchange and the
payload exchange, each made only when all before it succeeded (the MRDY release is
always made). -/
theorem pollDataSend_no_abort (k : Consts) (w : World) (s : Sys)
    (hd : diffPrev k (w (s.trace.length + 1)).clock
        (w (s.trace.length +
          (if (w s.trace.length).ret = k.NPI_LNX_SUCCESS then 3 else 2))).clock ≤ 100 * 1000) :
    ((∀ n, (w n).errno = none) →
      (pollDataSend k w s).2.npi_ipc_errno = s.npi_ipc_errno) ∧
    (pollDataSend k w s).1 =
      (if (w s.trace.length).ret ≠ k.NPI_LNX_SUCCESS then (w s.trace.length).ret
       else if (w (s.trace.length + 2)).ret ≠ k.NPI_LNX_SUCCESS
         then (w (s.trace.length + 2)).ret
       else if (w (s.trace.length + 4)).ret ≠ k.NPI_LNX_SUCCESS
         then (w (s.trace.length + 4)).ret
       else if (w (s.trace.length + 5)).ret ≠ k.NPI_LNX_SUCCESS
         then (w (s.trace.length + 5)).ret
       else (w (s.trace.length + 6)).ret) := by
  by_cases h0 : (w s.trace.length).ret = k.NPI_LNX_SUCCESS
  swap
  · rw [if_neg h0] at hd
    have hd2 : ¬ 100000 < diffPrev k (w (s.trace.length + 1)).clock
        (w (s.trace.length + 2)).clock := by simpa using hd
    constructor
    · intro he
      simp [pollDataSend, gettimeofday, call, HalSpiWrite, h0, hd2, Nat.add_assoc,
        errno_pollDataRest k w he, he]
    · simp [pollDataSend, pollDataRest, gettimeofday, call, HalSpiWrite, h0, hd2, Nat.add_assoc]
  rw [if_pos h0] at hd
  have hd2 : ¬ 100000 < diffPrev k (w (s.trace.length + 1)).clock
      (w (s.trace.length + 3)).clock := by simpa using hd
  constructor
  · intro he
    simp [pollDataSend, gettimeofday, call, HalSpiWrite, h0, hd2, Nat.add_assoc,
      errno_pollDataRest k w he, he]
  by_cases h2 : (w (s.trace.length + 2)).ret = k.NPI_LNX_SUCCESS
  swap
  · simp [pollDataSend, pollDataRest, gettimeofday, call, HalSpiWrite, h0, h2, hd2,
      Nat.add_assoc]
  by_cases h4 : (w (s.trace.length + 4)).ret = k.NPI_LNX_SUCCESS
  swap
  · simp [pollDataSend, pollDataRest, gettimeofday, call, HalSpiWrite, h0, h2, h4, hd2,
      Nat.add_assoc]
  by_cases h5 : (w (s.trace.length + 5)).ret = k.NPI_LNX_SUCCESS
  swap
  · simp [pollDataSend, pollDataRest, gettimeofday, call, HalSpiWrite, h0, h2, h4, h5, hd2,
      Nat.add_assoc]
  simp [pollDataSend, pollDataRest, gettimeofday, call, HalSpiWrite, h0, h2, h4, h5, hd2,
    Nat.add_assoc]

/-- C16 (as amended).  For time stamps with microsecond fields in [0, 999999] whose
second fields are close enough for the long arithmetic not to overflow, the elapsed
value computed by npi_spi_pollData is (t2.sec - t1.sec) * 1000000 + (t2.usec - t1.usec)
whichever branch computes it.  When the MRDY assertion succeeded, the poll takes the
reset-abort path exactly when the computed value is strictly greater than 100000: then
it returns NPI_LNX_FAILURE with the possible-reset code right after the second clock
reading, having made no exchange but the request write; otherwise (also at exactly
100000) its next call is HAL_RNP_MRDY_SET, it does not write npi_ipc_errno, and it
returns the first non-success value among its adapter calls, or the value of the last
one. -/
theorem C16_elapsed_and_reset_check (k : Consts) (w : World) (s : Sys)
    (hclr : (w (s.trace.length + irqN k)).ret = k.NPI_LNX_SUCCESS) :
    (∀ t1 t2 : Timeval,
      0 ≤ t1.tv_usec ∧ t1.tv_usec ≤ 999999 → 0 ≤ t2.tv_usec ∧ t2.tv_usec ≤ 999999 →
      (t2.tv_sec - t1.tv_sec) * 1000000 + 2000000 ≤ (2 : Int) ^ (k.LONG_BIT - 1) →
      (t1.tv_sec - t2.tv_sec) * 1000000 + 2000000 ≤ (2 : Int) ^ (k.LONG_BIT - 1) →
      diffPrev k t1 t2 = (t2.tv_sec - t1.tv_sec) * 1000000 + (t2.tv_usec - t1.tv_usec)) ∧
    (100 * 1000 < diffPrev k (w (s.trace.length + irqN k + 2)).clock
        (w (s.trace.length + irqN k +
          (if (w (s.trace.length + irqN k + 1)).ret = k.NPI_LNX_SUCCESS then 4 else 3))).clock →
      (npi_spi_pollData k w s).1 = k.NPI_LNX_FAILURE ∧
      (npi_spi_pollData k w s).2.npi_ipc_errno =
        k.NPI_LNX_ERROR_SPI_POLL_DATA_SRDY_CLR_TIMEOUT_POSSIBLE_RESET ∧
      (npi_spi_pollData k w s).2.trace =
        s.trace ++ irqCalls k (.pthread_mutex_lock .npiSrdyLock) ++
          [.HAL_RNP_MRDY_CLR, .HalSpiWrite 0 (readBytes s.mem 0 (s.mem 0 + RPC_FRAME_HDR_SZ)),
           .gettimeofday] ++
          (if (w (s.trace.length + irqN k + 1)).ret = k.NPI_LNX_SUCCESS
            then [.HalGpioWaitSrdySet] else []) ++ [.gettimeofday] ∧
      spiWrites (npi_spi_pollData k w s).2.trace =
        spiWrites s.trace ++ [readBytes s.mem 0 (s.mem 0 + RPC_FRAME_HDR_SZ)]) ∧
    (diffPrev k (w (s.trace.length + irqN k + 2)).clock
        (w (s.trace.length + irqN k +
          (if (w (s.trace.length + irqN k + 1)).ret = k.NPI_LNX_SUCCESS then 4 else 3))).clock
        ≤ 100 * 1000 →
      s.trace ++ irqCalls k (.pthread_mutex_lock .npiSrdyLock) ++
          [.HAL_RNP_MRDY_CLR, .HalSpiWrite 0 (readBytes s.mem 0 (s.mem 0 + RPC_FRAME_HDR_SZ)),
           .gettimeofday] ++
          (if (w (s.trace.length + irqN k + 1)).ret = k.NPI_LNX_SUCCESS
            then [.HalGpioWaitSrdySet] else []) ++ [.gettimeofday, .HAL_RNP_MRDY_SET] <+:
        (npi_spi_pollData k w s).2.trace ∧
      ((∀ n, (w n).errno = none) →
        (npi_spi_pollData k w s).2.npi_ipc_errno = s.npi_ipc_errno) ∧
      (npi_spi_pollData k w s).1 =
        (if (w (s.trace.length + irqN k + 1)).ret ≠ k.NPI_LNX_SUCCESS
          then (w (s.trace.length + irqN k + 1)).ret
         else if (w (s.trace.length + irqN k + 3)).ret ≠ k.NPI_LNX_SUCCESS
          then (w (s.trace.length + irqN k + 3)).ret
         else if (w (s.trace.length + irqN k + 5)).ret ≠ k.NPI_LNX_SUCCESS
          then (w (s.trace.length + irqN k + 5)).ret
         else if (w (s.trace.length + irqN k + 6)).ret ≠ k.NPI_LNX_SUCCESS
          then (w (s.trace.length + irqN k + 6)).ret
         else (w (s.trace.length + irqN k + 7)).ret)) := by
  refine ⟨fun t1 t2 => diffPrev_eq k t1 t2, ?_, ?_⟩
  · intro hd
    by_cases hwr : (w (s.trace.length + irqN k + 1)).ret = k.NPI_LNX_SUCCESS
    · simp only [if_pos hwr] at hd ⊢
      cases hq : k.SRDY_INTERRUPT <;>
      simp [irqN, irqCalls, hq] at hclr hd hwr ⊢ <;>
      simp [npi_spi_pollData, pollDataSend, gettimeofday, call, HalSpiWrite, ifIrq, hq, hclr,
        hwr, hd, Nat.add_assoc, spiWrites_append, spiWrites_cons, spiWrites_nil, Call.spiTx]
    · simp only [if_neg hwr] at hd ⊢
      cases hq : k.SRDY_INTERRUPT <;>
      simp [irqN, irqCalls, hq] at hclr hd hwr ⊢ <;>
      simp [npi_spi_pollData, pollDataSend, gettimeofday, call, HalSpiWrite, ifIrq, hq, hclr,
        hwr, hd, Nat.add_assoc, spiWrites_append, spiWrites_cons, spiWrites_nil, Call.spiTx]
  · intro hd
    have hlen : (call w .HAL_RNP_MRDY_CLR
        (ifIrq k (fun t => (call w (.pthread_mutex_lock .npiSrdyLock) t).2) s)).2.trace.length =
        s.trace.length + irqN k + 1 := by
      cases hq : k.SRDY_INTERRUPT <;> simp [call, ifIrq, irqN, hq]
    have hna := pollDataSend_no_abort k w (call w .HAL_RNP_MRDY_CLR
        (ifIrq k (fun t => (call w (.pthread_mutex_lock .npiSrdyLock) t).2) s)).2
      (by rw [hlen]
          by_cases hwr : (w (s.trace.length + irqN k + 1)).ret = k.NPI_LNX_SUCCESS
          · rw [if_pos hwr] at hd ⊢; exact hd
          · rw [if_neg hwr] at hd ⊢; exact hd)
    rw [hlen, ← pollData_after_clr k w s hclr] at hna
    refine ⟨?_, ?_, hna.2⟩
    · by_cases hwr : (w (s.trace.length + irqN k + 1)).ret = k.NPI_LNX_SUCCESS
      · simp only [if_pos hwr] at hd ⊢
        cases hq : k.SRDY_INTERRUPT <;>
        simp [irqN, irqCalls, hq] at hclr hd hwr ⊢ <;>
        (have hd2 := not_lt.mpr hd
         simp [npi_spi_pollData, pollDataSend, gettimeofday, call, HalSpiWrite, ifIrq, hq, hclr,
           hwr, hd2, Nat.add_assoc]
         refine List.IsPrefix.trans ?_ (pollDataRest_starts_with_mrdy_set k w _ _)
         simp [List.prefix_append_right_inj, List.cons_prefix_cons])
      · simp only [if_neg hwr] at hd ⊢
        cases hq : k.SRDY_INTERRUPT <;>
        simp [irqN, irqCalls, hq] at hclr hd hwr ⊢ <;>
        (have hd2 := not_lt.mpr hd
         simp [npi_spi_pollData, pollDataSend, gettimeofday, call, HalSpiWrite, ifIrq, hq, hclr,
           hwr, hd2, Nat.add_assoc]
         refine List.IsPrefix.trans ?_ (pollDataRest_starts_with_mrdy_set k w _ _)
         simp [List.prefix_append_right_inj, List.cons_prefix_cons])
    · intro he
      rw [hna.1 he, errno_call w he]
      cases hq : k.SRDY_INTERRUPT <;> simp [ifIrq, call, hq, he]

/-- C16 at samples: 200 ms between the two clock readings abort the poll; exactly 100 ms
do not: the poll goes on, returns success and leaves npi_ipc_errno alone. -/
theorem C16_elapsed_and_reset_check_witness :
    (slowPollWorld (pollSys.trace.length + irqN tiConsts)).ret = tiConsts.NPI_LNX_SUCCESS ∧
    (edgePollWorld (pollSys.trace.length + irqN tiConsts)).ret = tiConsts.NPI_LNX_SUCCESS ∧
    diffPrev tiConsts (slowPollWorld 2).clock (slowPollWorld 4).clock = 200000 ∧
    diffPrev tiConsts (edgePollWorld 2).clock (edgePollWorld 4).clock = 100000 ∧
    (npi_spi_pollData tiConsts slowPollWorld pollSys).1 = tiConsts.NPI_LNX_FAILURE ∧
    (npi_spi_pollData tiConsts slowPollWorld pollSys).2.npi_ipc_errno =
      tiConsts.NPI_LNX_ERROR_SPI_POLL_DATA_SRDY_CLR_TIMEOUT_POSSIBLE_RESET ∧
    (npi_spi_pollData tiConsts edgePollWorld pollSys).2.npi_ipc_errno =
      pollSys.npi_ipc_errno ∧
    (npi_spi_pollData tiConsts edgePollWorld pollSys).1 = tiConsts.NPI_LNX_SUCCESS :=
  ⟨by decide, by decide, by decide, by decide,
    ((C16_elapsed_and_reset_check tiConsts slowPollWorld pollSys (by decide)).2.1
      (by decide)).1,
    ((C16_elapsed_and_reset_check tiConsts slowPollWorld pollSys (by decide)).2.1
      (by decide)).2.1,
    ((C16_elapsed_and_reset_check tiConsts edgePollWorld pollSys (by decide)).2.2
      (by decide)).2.1 (fun _ => rfl),
    (((C16_elapsed_and_reset_check tiConsts edgePollWorld pollSys (by decide)).2.2
      (by decide)).2.2).trans (by decide)⟩

/-- C16 (counterexample): a 64-bit long.  The time stamps 0 s and 9223372036855 s have
microsecond fields in range, but the product of the difference with 1000000 does not fit
a long: the computed value is negative and not the difference in microseconds.  A poll
in which the clock jumps by that much between the two readings is not aborted: it makes
the header and the payload exchange and returns success. -/
theorem C16_counterexample :
    tiConsts.LONG_BIT = 64 ∧
    diffPrev tiConsts ⟨0, 0⟩ ⟨9223372036855, 0⟩ = -9223372036854551616 ∧
    diffPrev tiConsts ⟨0, 0⟩ ⟨9223372036855, 0⟩ ≠
      (9223372036855 - 0) * 1000000 + (0 - 0) ∧
    (wrapPollWorld (pollSys.trace.length + irqN tiConsts)).ret = tiConsts.NPI_LNX_SUCCESS ∧
    (wrapPollWorld 2).clock = ⟨0, 0⟩ ∧ (wrapPollWorld 4).clock = ⟨9223372036855, 0⟩ ∧
    100000 < ((wrapPollWorld 4).clock.tv_sec - (wrapPollWorld 2).clock.tv_sec) * 1000000 +
      ((wrapPollWorld 4).clock.tv_usec - (wrapPollWorld 2).clock.tv_usec) ∧
    (npi_spi_pollData tiConsts wrapPollWorld pollSys).1 = tiConsts.NPI_LNX_SUCCESS ∧
    (npi_spi_pollData tiConsts wrapPollWorld pollSys).2.npi_ipc_errno ≠
      tiConsts.NPI_LNX_ERROR_SPI_POLL_DATA_SRDY_CLR_TIMEOUT_POSSIBLE_RESET ∧
    (spiWrites (npi_spi_pollData tiConsts wrapPollWorld pollSys).2.trace).length = 3 := by
  decide

/-! ## C17: the idle wait of the polling build -/

/-- After the MRDY assertion, a poll transaction that returns success has seen each of
its adapter calls succeed and has measured a wait of at most 100 ms. -/
theorem pollDataSend_success_steps (k : Consts) (w : World) (s : Sys)
    (hk : k.NPI_LNX_SUCCESS ≠ k.NPI_LNX_FAILURE)
    (hok : (pollDataSend k w s).1 = k.NPI_LNX_SUCCESS) :
    (w s.trace.length).ret = k.NPI_LNX_SUCCESS ∧
    (w (s.trace.length + 2)).ret = k.NPI_LNX_SUCCESS ∧
    diffPrev k (w (s.trace.length + 1)).clock (w (s.trace.length + 3)).clock ≤ 100 * 1000 ∧
    (w (s.trace.length + 4)).ret = k.NPI_LNX_SUCCESS ∧
    (w (s.trace.length + 5)).ret = k.NPI_LNX_SUCCESS ∧
    (w (s.trace.length + 6)).ret = k.NPI_LNX_SUCCESS := by
  have hk' : ¬ k.NPI_LNX_FAILURE = k.NPI_LNX_SUCCESS := fun e => hk e.symm
  by_cases h0 : (w s.trace.length).ret = k.NPI_LNX_SUCCESS
  swap
  · exfalso; revert hok
    by_cases hd : 100000 < diffPrev k (w (s.trace.length + 1)).clock
        (w (s.trace.length + 2)).clock
    · simp [pollDataSend, pollDataRest, gettimeofday, call, HalSpiWrite, h0, hd, hk',
        Nat.add_assoc]
    · simp [pollDataSend, pollDataRest, gettimeofday, call, HalSpiWrite, ifIrq, h0, hd,
        Nat.add_assoc]
  by_cases hd : 100000 < diffPrev k (w (s.trace.length + 1)).clock
      (w (s.trace.length + 3)).clock
  · exfalso; revert hok
    simp [pollDataSend, gettimeofday, call, HalSpiWrite, h0, hd, hk', Nat.add_assoc]
  by_cases h2 : (w (s.trace.length + 2)).ret = k.NPI_LNX_SUCCESS
  swap
  · exfalso; revert hok
    simp [pollDataSend, pollDataRest, gettimeofday, call, HalSpiWrite, ifIrq, h0, h2, hd,
      Nat.add_assoc]
  by_cases h4 : (w (s.trace.length + 4)).ret = k.NPI_LNX_SUCCESS
  swap
  · exfalso; revert hok
    simp [pollDataSend, pollDataRest, gettimeofday, call, HalSpiWrite, ifIrq, h0, h2, h4, hd,
      Nat.add_assoc]
  by_cases h5 : (w (s.trace.length + 5)).ret = k.NPI_LNX_SUCCESS
  swap
  · exfalso; revert hok
    simp [pollDataSend, pollDataRest, gettimeofday, call, HalSpiWrite, ifIrq, h0, h2, h4, h5,
      hd, Nat.add_assoc]
  by_cases h6 : (w (s.trace.length + 6)).ret = k.NPI_LNX_SUCCESS
  swap
  · exfalso; revert hok
    simp [pollDataSend, pollDataRest, gettimeofday, call, HalSpiWrite, ifIrq, h0, h2, h4, h5,
      h6, hd, Nat.add_assoc]
  exact ⟨h0, h2, by simpa using not_lt.mp hd, h4, h5, h6⟩

/-- The buffer after the poll transaction on the path on which every adapter call
succeeds: the header cells hold the bytes of the header exchange, the next L cells the
bytes of the payload exchange, L being the length byte received, and every further
cell is as the request write left it. -/
theorem pollDataSend_success_mem (k : Consts) (w : World) (s : Sys)
    (h0 : (w s.trace.length).ret = k.NPI_LNX_SUCCESS)
    (h2 : (w (s.trace.length + 2)).ret = k.NPI_LNX_SUCCESS)
    (hd : diffPrev k (w (s.trace.length + 1)).clock (w (s.trace.length + 3)).clock ≤ 100 * 1000)
    (h4 : (w (s.trace.length + 4)).ret = k.NPI_LNX_SUCCESS)
    (h5 : (w (s.trace.length + 5)).ret = k.NPI_LNX_SUCCESS) (j : Nat) :
    (pollDataSend k w s).2.mem j =
      if j < 3 then (w (s.trace.length + 5)).rx j % 256
      else if j < 3 + (w (s.trace.length + 5)).rx 0 % 256
        then (w (s.trace.length + 6)).rx (j - 3) % 256
        else exchange s.mem 0 (s.mem 0 + 3) (w s.trace.length).rx j := by
  have hd2 : ¬ 100000 < diffPrev k (w (s.trace.length + 1)).clock
      (w (s.trace.length + 3)).clock := by simpa using hd
  have hmem : (pollDataSend k w s).2.mem =
      exchange (zeroPayload (exchange (zeroHeader
        (exchange s.mem 0 (s.mem 0 + 3) (w s.trace.length).rx)) 0 3
          (w (s.trace.length + 5)).rx)) 3
        (zeroPayload (exchange (zeroHeader
          (exchange s.mem 0 (s.mem 0 + 3) (w s.trace.length).rx)) 0 3
            (w (s.trace.length + 5)).rx) 0)
        (w (s.trace.length + 6)).rx := by
    cases hq : k.SRDY_INTERRUPT <;>
    simp [pollDataSend, pollDataRest, gettimeofday, call, HalSpiWrite, ifIrq, hq, h0, h2, h4,
      h5, hd2, Nat.add_assoc, RPC_FRAME_HDR_SZ]
  rw [hmem]
  simp only [exchange_apply, zeroPayload_after_header, zeroHeader_apply]
  by_cases hj3 : j < 3
  · have e1 : ¬ (3 ≤ j ∧ j < 3 + (if 3 ≤ 0 ∧ 0 < (w (s.trace.length + 5)).rx 0 % 256 + 3
        then 0 else if 0 ≤ 0 ∧ 0 < 0 + 3 then (w (s.trace.length + 5)).rx (0 - 0) % 256
          else if 0 < 3 then 0 else if 0 ≤ 0 ∧ 0 < 0 + (s.mem 0 + 3)
            then (w s.trace.length).rx (0 - 0) % 256 else s.mem 0)) := by omega
    have e2 : ¬ (3 ≤ j ∧ j < (w (s.trace.length + 5)).rx 0 % 256 + 3) := by omega
    have e3 : (0 ≤ j ∧ j < 0 + 3) := by omega
    simp [e1, e2, e3, hj3]
  · by_cases hjl : j < 3 + (w (s.trace.length + 5)).rx 0 % 256
    · simp [hj3, hjl, Nat.le_of_not_lt hj3]
    · have e2 : ¬ (j < (w (s.trace.length + 5)).rx 0 % 256 + 3) := by omega
      simp [hj3, hjl, e2]

/-- Conversely the result of the transaction is decided by the values the six adapter
calls return and by the two clock readings alone: no byte received takes part. -/
theorem pollDataSend_success_ret (k : Consts) (w : World) (s : Sys)
    (h0 : (w s.trace.length).ret = k.NPI_LNX_SUCCESS)
    (h2 : (w (s.trace.length + 2)).ret = k.NPI_LNX_SUCCESS)
    (hd : diffPrev k (w (s.trace.length + 1)).clock (w (s.trace.length + 3)).clock ≤ 100 * 1000)
    (h4 : (w (s.trace.length + 4)).ret = k.NPI_LNX_SUCCESS)
    (h5 : (w (s.trace.length + 5)).ret = k.NPI_LNX_SUCCESS)
    (h6 : (w (s.trace.length + 6)).ret = k.NPI_LNX_SUCCESS) :
    (pollDataSend k w s).1 = k.NPI_LNX_SUCCESS := by
  have hd2 : ¬ 100000 < diffPrev k (w (s.trace.length + 1)).clock
      (w (s.trace.length + 3)).clock := by simpa using hd
  simp [pollDataSend, pollDataRest, gettimeofday, call, HalSpiWrite, h0, h2, h4, h5, h6, hd2,
    Nat.add_assoc]

/-- The entry of npi_spi_pollData: the MRDY assertion is call number
s.trace.length + irqN k; when it fails its value is returned, and when it succeeds the
function continues as pollDataSend on the same buffer, one call later. -/
theorem npi_spi_pollData_entry (k : Consts) (w : World) (s : Sys) :
    ∃ s1 : Sys, s1.mem = s.mem ∧ s1.trace.length = s.trace.length + irqN k + 1 ∧
      ((w (s.trace.length + irqN k)).ret = k.NPI_LNX_SUCCESS →
        npi_spi_pollData k w s = pollDataSend k w s1) ∧
      ((w (s.trace.length + irqN k)).ret ≠ k.NPI_LNX_SUCCESS →
        (npi_spi_pollData k w s).1 = (w (s.trace.length + irqN k)).ret) := by
  refine ⟨(call w .HAL_RNP_MRDY_CLR
    (ifIrq k (fun t => (call w (.pthread_mutex_lock .npiSrdyLock) t).2) s)).2, ?_, ?_, ?_, ?_⟩
  · cases hq : k.SRDY_INTERRUPT <;> simp [call, ifIrq, hq]
  · cases hq : k.SRDY_INTERRUPT <;> simp [call, ifIrq, irqN, hq]
  · intro h
    cases hq : k.SRDY_INTERRUPT <;> simp [irqN, hq] at h <;>
      simp [npi_spi_pollData, call, ifIrq, hq, h]
  · intro h
    cases hq : k.SRDY_INTERRUPT <;> simp [irqN, hq] at h <;>
      simp [npi_spi_pollData, call, ifIrq, irqN, hq, h]

/-- C18: the receive buffer of the poll thread has 128 bytes.  When the poll
transaction of the poll thread returns success, with L the length byte of the
response header (the first byte of the header exchange, at most 255), the buffer
afterwards holds L at index 0, the bytes of the header exchange at indices 0 to 2 and
the bytes of the payload exchange at indices 3 to 2+L, whatever these cells held
before, and every cell above 2+L is as it was before the transaction.  All indices 0
to 2+L are below 128 exactly when L is at most 125, and for L from 126 on the cell
2+L, which is at or above 128, holds a byte of the payload exchange.  Success does
not depend on the bytes received: a device that differs only in the bytes it clocks
in is polled with success as well, so no length is refused. -/
theorem C18_poll_buffer_indices (k : Consts) (w : World) (s : Sys)
    (hk : k.NPI_LNX_SUCCESS ≠ k.NPI_LNX_FAILURE)
    (hok : (pollTransaction k w s).1 = k.NPI_LNX_SUCCESS) :
    READBUF_SIZE = 128 ∧
    (pollTransaction k w s).2.mem 0 = (w (s.trace.length + irqN k + 6)).rx 0 % 256 ∧
    (w (s.trace.length + irqN k + 6)).rx 0 % 256 ≤ 255 ∧
    (∀ j, j < 3 →
      (pollTransaction k w s).2.mem j = (w (s.trace.length + irqN k + 6)).rx j % 256) ∧
    (∀ j, 3 ≤ j → j ≤ 2 + (w (s.trace.length + irqN k + 6)).rx 0 % 256 →
      (pollTransaction k w s).2.mem j = (w (s.trace.length + irqN k + 7)).rx (j - 3) % 256) ∧
    (∀ j, 2 + (w (s.trace.length + irqN k + 6)).rx 0 % 256 < j →
      (pollTransaction k w s).2.mem j = s.mem j) ∧
    ((∀ j, j ≤ 2 + (w (s.trace.length + irqN k + 6)).rx 0 % 256 → j < READBUF_SIZE) ↔
      (w (s.trace.length + irqN k + 6)).rx 0 % 256 ≤ 125) ∧
    (126 ≤ (w (s.trace.length + irqN k + 6)).rx 0 % 256 →
      READBUF_SIZE ≤ 2 + (w (s.trace.length + irqN k + 6)).rx 0 % 256 ∧
      (pollTransaction k w s).2.mem (2 + (w (s.trace.length + irqN k + 6)).rx 0 % 256) =
        (w (s.trace.length + irqN k + 7)).rx
          ((w (s.trace.length + irqN k + 6)).rx 0 % 256 - 1) % 256) ∧
    (∀ w2 : World, (∀ i, (w2 i).ret = (w i).ret ∧ (w2 i).clock = (w i).clock) →
      (pollTransaction k w2 s).1 = k.NPI_LNX_SUCCESS) := by
  have hL : (w (s.trace.length + irqN k + 6)).rx 0 % 256 < 256 := Nat.mod_lt _ (by decide)
  obtain ⟨s1, hm1, hl1, hgo, hstop⟩ := npi_spi_pollData_entry k w
    { s with mem := store (store (store s.mem 0 0) 1 k.RPC_CMD_POLL) 2 0 }
  have hm : s1.mem = store (store (store s.mem 0 0) 1 k.RPC_CMD_POLL) 2 0 := hm1
  have hl : s1.trace.length = s.trace.length + irqN k + 1 := hl1
  have hc : (w (s.trace.length + irqN k)).ret = k.NPI_LNX_SUCCESS := by
    by_contra hne
    exact hne ((hstop hne).symm.trans hok)
  have he : pollTransaction k w s = pollDataSend k w s1 := hgo hc
  rw [he] at hok
  obtain ⟨h0, h2, hd, h4, h5, h6⟩ := pollDataSend_success_steps k w s1 hk hok
  have hmem := pollDataSend_success_mem k w s1 h0 h2 hd h4 h5
  rw [hl] at h0 h2 hd h4 h5 h6
  have hmem2 : ∀ j, (pollDataSend k w s1).2.mem j =
      if j < 3 then (w (s.trace.length + irqN k + 6)).rx j % 256
      else if j < 3 + (w (s.trace.length + irqN k + 6)).rx 0 % 256
        then (w (s.trace.length + irqN k + 7)).rx (j - 3) % 256
        else exchange (store (store (store s.mem 0 0) 1 k.RPC_CMD_POLL) 2 0) 0
          (store (store (store s.mem 0 0) 1 k.RPC_CMD_POLL) 2 0 0 + 3)
          (w (s.trace.length + irqN k + 1)).rx j := by
    intro j
    have := hmem j
    rw [hl, hm] at this
    exact this
  have hbeyond : ∀ j, 3 ≤ j →
      exchange (store (store (store s.mem 0 0) 1 k.RPC_CMD_POLL) 2 0) 0
        (store (store (store s.mem 0 0) 1 k.RPC_CMD_POLL) 2 0 0 + 3)
        (w (s.trace.length + irqN k + 1)).rx j = s.mem j := by
    intro j hj
    have e0 : store (store (store s.mem 0 0) 1 k.RPC_CMD_POLL) 2 0 0 = 0 := by
      simp [store_apply]
    rw [e0, exchange_apply]
    have e1 : ¬ (0 ≤ j ∧ j < 0 + (0 + 3)) := by omega
    rw [if_neg e1]
    have a : j ≠ 0 := by omega
    have b : j ≠ 1 := by omega
    have c : j ≠ 2 := by omega
    simp [store_apply, a, b, c]
  refine ⟨rfl, ?_, by omega, ?_, ?_, ?_, ?_, ?_, ?_⟩
  · rw [he, hmem2]; simp
  · intro j hj
    rw [he, hmem2, if_pos hj]
  · intro j hj3 hjl
    rw [he, hmem2, if_neg (by omega), if_pos (by omega)]
  · intro j hj
    rw [he, hmem2, if_neg (by omega), if_neg (by omega)]
    exact hbeyond j (by omega)
  · constructor
    · intro h
      have := h (2 + (w (s.trace.length + irqN k + 6)).rx 0 % 256) (Nat.le_refl _)
      simp only [READBUF_SIZE] at this
      omega
    · intro h j hj
      simp only [READBUF_SIZE]
      omega
  · intro h126
    refine ⟨by simp only [READBUF_SIZE]; omega, ?_⟩
    rw [he, hmem2, if_neg (by omega), if_pos (by omega)]
    congr 2
    omega
  · intro w2 hw2
    obtain ⟨s2, _, hl2, hgo2, _⟩ := npi_spi_pollData_entry k w2
      { s with mem := store (store (store s.mem 0 0) 1 k.RPC_CMD_POLL) 2 0 }
    have hl3 : s2.trace.length = s.trace.length + irqN k + 1 := hl2
    have hc2 : (w2 (s.trace.length + irqN k)).ret = k.NPI_LNX_SUCCESS := by
      rw [(hw2 _).1]; exact hc
    have he2 : pollTransaction k w2 s = pollDataSend k w2 s2 := hgo2 hc2
    rw [he2]
    apply pollDataSend_success_ret
    · rw [(hw2 _).1, hl3]; exact h0
    · rw [(hw2 _).1, hl3]; exact h2
    · rw [(hw2 _).2, (hw2 _).2, hl3]; exact hd
    · rw [(hw2 _).1, hl3]; exact h4
    · rw [(hw2 _).1, hl3]; exact h5
    · rw [(hw2 _).1, hl3]; exact h6

/-- C18 at a sample: a device that answers the poll with the length byte 126 followed
by bytes 55 is polled with success, and the cell at index 128, which held EE, holds 55
afterwards. -/
theorem C18_poll_buffer_indices_witness :
    tiConsts.NPI_LNX_SUCCESS ≠ tiConsts.NPI_LNX_FAILURE ∧
    (pollTransaction tiConsts longWorld guardSys).1 = tiConsts.NPI_LNX_SUCCESS ∧
    (longWorld (guardSys.trace.length + irqN tiConsts + 6)).rx 0 % 256 = 126 ∧
    guardSys.mem 128 = 0xEE ∧
    (pollTransaction tiConsts longWorld guardSys).2.mem 128 = 0x55 ∧
    (126 ≤ (longWorld (guardSys.trace.length + irqN tiConsts + 6)).rx 0 % 256 →
      READBUF_SIZE ≤ 2 + (longWorld (guardSys.trace.length + irqN tiConsts + 6)).rx 0 % 256 ∧
      (pollTransaction tiConsts longWorld guardSys).2.mem
          (2 + (longWorld (guardSys.trace.length + irqN tiConsts + 6)).rx 0 % 256) =
        (longWorld (guardSys.trace.length + irqN tiConsts + 7)).rx
          ((longWorld (guardSys.trace.length + irqN tiConsts + 6)).rx 0 % 256 - 1) % 256) :=
  ⟨by decide, by decide, by decide, by decide, by decide,
    (C18_poll_buffer_indices tiConsts longWorld guardSys (by decide) (by decide)).2.2.2.2.2.2.2.1⟩

end NpiSpi
